import Mathlib

/-!
OpenSBI enclave dispatcher and boot orchestration.

A shallow embedding of `lib/sbi/sbi_ebi.c` (the privileged-call dispatcher
`sbi_ebi_handler`) and of `lib/sbi/sbi_init.c` (the coldboot lottery, the
coldboot barrier and the cold / warm initialisation sequences).

Machine integers are mathematical integers with explicit wrap-around.
External collaborators (everything declared in headers that are not part of
the sources at hand) are fields of an environment record acting on an
abstract world `W`.  Observable effects of the embedded code itself are
appended, in program order, to a trace.
-/

namespace OpenSBI

/-! ## Machine integers -/

/-- Conversion of an integer value to the C type `int` (32 bit, two's complement). -/
def to_int (v : Int) : Int := (v + 2 ^ 31) % 2 ^ 32 - 2 ^ 31

/-- Conversion of an integer value to the C type `u64`. -/
def to_u64 (v : Int) : Int := v % 2 ^ 64

/-- Conversion of an integer value to the C type `unsigned long` (XLEN bits). -/
def to_ulong (xlen : Nat) (v : Int) : Nat := (v % 2 ^ xlen).toNat

/-! ## The privileged-call dispatcher (`sbi_ebi.c`) -/

/-- The fields of `struct sbi_trap_regs` that `sbi_ebi_handler` reads or writes;
all remaining saved registers are kept in `rest`. -/
structure sbi_trap_regs where
  a0 : Nat
  a1 : Nat
  a2 : Nat
  a6 : Nat
  mepc : Nat
  rest : List Nat
deriving DecidableEq, Repr

/-- The `case` labels of the `switch` in `sbi_ebi_handler`, in source order. -/
inductive Selector where
  | CREATE
  | ENTER
  | EXIT
  | EXIT_THREAD
  | SUSPEND
  | RESUME
  | MEM_ALLOC
  | BLOCK_THREAD
  | UNBLOCK_THREADS
  | LISTEN_MESSAGE
  | SEND_MESSAGE
  | STOP_LISTEN
  | DEBUG_DUMP_STATUS
  | DEBUG_DUMP_OWNERSHIP
  | DEBUG_DUMP_PMP
  | DEBUG_DUMP_REGION
  | DEBUG_UNMATCHED_ACC_FAULT
  | EVAL_SET_S_TIMER
  | EVAL_GET_TIMER
  | EVAL_CONFIG
  | EVAL_DUMP_CONFIG
  | GET_EID
  | GET_TID
  | GET_HARTID
  | GET_BLOCKED_THREADS
  | SET_CLEAR_CHILD_TID
  | GET_CLEAR_CHILD_TID
  | GET_ALIVE_COUNT
  | GET_STATUS
  | GET_EID_COUND
  | RESET
deriving DecidableEq, Repr

/-- All `case` labels, in source order. -/
def Selector.all : List Selector :=
  [.CREATE, .ENTER, .EXIT, .EXIT_THREAD, .SUSPEND, .RESUME, .MEM_ALLOC,
   .BLOCK_THREAD, .UNBLOCK_THREADS, .LISTEN_MESSAGE, .SEND_MESSAGE, .STOP_LISTEN,
   .DEBUG_DUMP_STATUS, .DEBUG_DUMP_OWNERSHIP, .DEBUG_DUMP_PMP, .DEBUG_DUMP_REGION,
   .DEBUG_UNMATCHED_ACC_FAULT, .EVAL_SET_S_TIMER, .EVAL_GET_TIMER, .EVAL_CONFIG,
   .EVAL_DUMP_CONFIG, .GET_EID, .GET_TID, .GET_HARTID, .GET_BLOCKED_THREADS,
   .SET_CLEAR_CHILD_TID, .GET_CLEAR_CHILD_TID, .GET_ALIVE_COUNT, .GET_STATUS,
   .GET_EID_COUND, .RESET]

/-- Constants used by `sbi_ebi_handler` whose definitions live in headers outside
the sources at hand: the register width, the numeric identifier of every
selector (`SBI_EXT_EBI_*`, `SBI_EXT_EVAL_*`), the error code `SBI_ENOTSUPP`,
`HOST_EID`, `NUM_ENCLAVE` and the bit masks of `SBI_EXT_EVAL_CONFIG`. -/
structure EbiConfig where
  xlen : Nat
  ext_id : Selector → Nat
  SBI_ENOTSUPP : Int
  HOST_EID : Nat
  NUM_ENCLAVE : Nat
  CONFIG_PMP_ENABLE : Nat
  ID_SPLIT : Nat
  TLB_CACHE : Nat
  FRAGMENTED : Nat

/-- Selector decoding of the `switch (funcid)`: the first label whose constant
equals `funcid`; `none` is the `default:` branch. -/
def EbiConfig.decode (c : EbiConfig) (funcid : Nat) : Option Selector :=
  Selector.all.find? (fun s => c.ext_id s = funcid)

/-- Observable effects of the dispatcher, in program order. -/
inductive EbiEvent where
  | call (fn : String) (args : List Nat)
  | ipi_postboot_init (target : Int)
  | ipi_get_config (target : Int)
  | store_ebi_called
  | debug (msg : String)
  | error (msg : String) (arg : Nat)
  | printf (msg : String) (arg : Nat)
  | panic (msg : String)
deriving DecidableEq, Repr

/-- Says whether an event is an inter-processor signal. -/
def EbiEvent.is_ipi : EbiEvent → Bool
  | .ipi_postboot_init _ => true
  | .ipi_get_config _ => true
  | _ => false

/-- Says whether an event is the post-boot activation broadcast. -/
def EbiEvent.is_postboot : EbiEvent → Bool
  | .ipi_postboot_init _ => true
  | _ => false

/-- Says whether an event is the store `ebi_called = true`. -/
def EbiEvent.is_store : EbiEvent → Bool
  | .store_ebi_called => true
  | _ => false

/-- Says whether an event is an invocation of the collaborator `fn`. -/
def EbiEvent.is_call (fn : String) : EbiEvent → Bool
  | .call f _ => f == fn
  | _ => false

/-- The collaborators of the dispatcher, acting on the external world `W`.
Handlers that receive the trap frame may rewrite it. -/
structure EbiEnv (W : Type) where
  get_current_eid : W → Nat
  get_current_tid : W → Nat
  current_hartid : W → Nat
  csr_read_medeleg : W → Nat
  ipi_send_ebi_postboot_init : Int → W → W
  ipi_send_ebi_get_config : Int → W → W
  ebi_create_handler : sbi_trap_regs → W → Int × sbi_trap_regs × W
  ebi_enter_handler : sbi_trap_regs → W → Int × sbi_trap_regs × W
  ebi_exit_handler : sbi_trap_regs → W → Int × sbi_trap_regs × W
  ebi_exit_thread_handler : sbi_trap_regs → W → Int × sbi_trap_regs × W
  ebi_suspend_handler : sbi_trap_regs → W → Int × sbi_trap_regs × W
  ebi_resume_handler : sbi_trap_regs → W → Int × sbi_trap_regs × W
  ebi_mem_alloc_handler : sbi_trap_regs → W → Int × sbi_trap_regs × W
  ebi_block_thread_handler : sbi_trap_regs → W → Int × sbi_trap_regs × W
  ebi_unblock_threads_handler : sbi_trap_regs → W → Int × sbi_trap_regs × W
  ebi_listen_message_handler : sbi_trap_regs → W → Int × sbi_trap_regs × W
  ebi_send_message_handler : sbi_trap_regs → W → Int × sbi_trap_regs × W
  ebi_stop_listen_handler : sbi_trap_regs → W → Int × sbi_trap_regs × W
  start_timer : String → Nat → W → W
  stop_timer : String → Nat → W → W
  dump_enclave_status : W → Int × W
  dump_partition_ownership : W → W
  pmp_dump : W → W
  dump_region : W → W
  pmp_fault_handler : Nat → Nat → W → W
  set_s_timer : String → Nat → Nat → W → W
  get_timer : Nat → Nat → W → Int × W
  get_blocked_threads : Nat → W → Int × W
  set_clear_child_tid : Nat → Nat → Nat → W → W
  get_clear_child_tid : Nat → Nat → W → Int × W
  get_alive_count : W → Int × W
  get_enclave_status : Nat → W → Int × W
  get_eid_count : W → Int × W
  reset_coffer : W → W

/-- Modelled from the spec: the runtime configuration variables `pmp_enable`,
`id_split`, `tlb_cache`, `fragmented` and `max_pmp`, whose declarations are
missing from the sources.  The spec describes them as four independent boolean
flags (protection enforcement, identifier splitting, cache mode, fragmentation
mode) plus a maximum-entry count. -/
structure RuntimeConfig where
  pmp_enable : Bool
  id_split : Bool
  tlb_cache : Bool
  fragmented : Bool
  max_pmp : Nat
deriving DecidableEq, Repr

/-- Global state reachable from the dispatcher: the file-local flag `ebi_called`,
the runtime configuration written by `SBI_EXT_EVAL_CONFIG`, the trace of
effects and the external world. -/
structure EbiGlobals (W : Type) where
  ebi_called : Bool
  config : RuntimeConfig
  trace : List EbiEvent
  world : W

/-- Appends an event to the trace. -/
def EbiGlobals.emit {W : Type} (g : EbiGlobals W) (e : EbiEvent) : EbiGlobals W :=
  { g with trace := g.trace ++ [e] }

/-- Result of running (part of) the dispatcher: either control comes back with
the value of `ret`, or the hart has stopped inside `sbi_panic`. -/
inductive EbiOutcome (W : Type) where
  | returned (ret : Int) (regs : sbi_trap_regs) (g : EbiGlobals W)
  | halted (regs : sbi_trap_regs) (g : EbiGlobals W)

/-- The globals carried by an outcome. -/
def EbiOutcome.globals {W : Type} : EbiOutcome W → EbiGlobals W
  | .returned _ _ g => g
  | .halted _ g => g

/-- Says whether the hart stopped instead of coming back. -/
def EbiOutcome.is_halted {W : Type} : EbiOutcome W → Bool
  | .returned _ _ _ => false
  | .halted _ _ => true

/-- The value handed back to the caller, when control comes back. -/
def EbiOutcome.ret? {W : Type} : EbiOutcome W → Option Int
  | .returned ret _ _ => some ret
  | .halted _ _ => none

/-- The trap frame carried by an outcome. -/
def EbiOutcome.frame {W : Type} : EbiOutcome W → sbi_trap_regs
  | .returned _ r _ => r
  | .halted r _ => r

/-- Modelled from the spec: `sbi_panic` (declared in `sbi/sbi_console.h`, which
is missing from the sources) is a fatal, non-recoverable halt: it prints its
message and never returns to the caller. -/
def sbi_panic {W : Type} (msg : String) (regs : sbi_trap_regs) (g : EbiGlobals W) :
    EbiOutcome W :=
  .halted regs (g.emit (.panic msg))

/-- Statement `ret = h(regs);` for a handler receiving the trap frame. -/
def run_handler {W : Type} (fn : String) (h : sbi_trap_regs → W → Int × sbi_trap_regs × W)
    (regs : sbi_trap_regs) (g : EbiGlobals W) : EbiOutcome W :=
  let r := h regs g.world
  .returned (to_int r.1) r.2.1 { (g.emit (.call fn [])) with world := r.2.2 }

/-- Statement `ret = f(args);` for a collaborator that yields a value. -/
def run_value {W : Type} (fn : String) (args : List Nat) (f : W → Int × W)
    (regs : sbi_trap_regs) (g : EbiGlobals W) : EbiOutcome W :=
  let r := f g.world
  .returned (to_int r.1) regs { (g.emit (.call fn args)) with world := r.2 }

/-- Statement `ret = (u64)f(args);` for a collaborator that yields a value. -/
def run_value_u64 {W : Type} (fn : String) (args : List Nat) (f : W → Int × W)
    (regs : sbi_trap_regs) (g : EbiGlobals W) : EbiOutcome W :=
  let r := f g.world
  .returned (to_int (to_u64 r.1)) regs { (g.emit (.call fn args)) with world := r.2 }

/-- Statement `f(args);` for a collaborator without a value; `ret` keeps its
initial value `0`. -/
def run_void {W : Type} (fn : String) (args : List Nat) (f : W → W)
    (regs : sbi_trap_regs) (g : EbiGlobals W) : EbiOutcome W :=
  .returned 0 regs { (g.emit (.call fn args)) with world := f g.world }

/-- The body of `switch (funcid)` in `sbi_ebi_handler`, entered with `ret = 0`.
`eid` is the local `u64 eid` read on entry of the handler. -/
def ebi_switch {W : Type} (c : EbiConfig) (env : EbiEnv W) (eid : Nat) (funcid : Nat)
    (regs : sbi_trap_regs) (g : EbiGlobals W) : EbiOutcome W :=
  match c.decode funcid with
  | some .CREATE =>
      run_handler "ebi_create_handler" env.ebi_create_handler regs
        (g.emit (.debug "SBI_EXT_EBI_CREATE\n"))
  | some .ENTER =>
      run_handler "ebi_enter_handler" env.ebi_enter_handler regs
        (g.emit (.debug "SBI_EXT_EBI_ENTER\n"))
  | some .EXIT =>
      run_handler "ebi_exit_handler" env.ebi_exit_handler regs
        (g.emit (.debug "SBI_EXT_EBI_EXIT\n"))
  | some .EXIT_THREAD =>
      run_handler "ebi_exit_thread_handler" env.ebi_exit_thread_handler regs
        (g.emit (.debug "SBI_EXT_EBI_EXIT_THREAD\n"))
  | some .SUSPEND =>
      run_handler "ebi_suspend_handler" env.ebi_suspend_handler regs
        (g.emit (.debug "SBI_EXT_EBI_SUSPEND\n"))
  | some .RESUME =>
      run_handler "ebi_resume_handler" env.ebi_resume_handler regs
        (g.emit (.debug "SBI_EXT_EBI_RESUME\n"))
  | some .MEM_ALLOC =>
      let g1 := g.emit (.debug "SBI_EXT_EBI_MEM_ALLOC\n")
      let g2 := { (g1.emit (.call "START_TIMER(mem_alloc)" [eid])) with
                  world := env.start_timer "mem_alloc" eid g1.world }
      match run_handler "ebi_mem_alloc_handler" env.ebi_mem_alloc_handler regs g2 with
      | .returned ret regs3 g3 =>
          .returned ret regs3
            { (g3.emit (.call "STOP_TIMER(mem_alloc)" [eid])) with
              world := env.stop_timer "mem_alloc" eid g3.world }
      | .halted regs3 g3 => .halted regs3 g3
  | some .BLOCK_THREAD =>
      run_handler "ebi_block_thread_handler" env.ebi_block_thread_handler regs
        (g.emit (.debug "SBI_EXT_EBI_BLOCK_THREAD\n"))
  | some .UNBLOCK_THREADS =>
      run_handler "ebi_unblock_threads_handler" env.ebi_unblock_threads_handler regs
        (g.emit (.debug "SBI_EXT_EBI_UNBLOCK_THREADS\n"))
  | some .LISTEN_MESSAGE =>
      run_handler "ebi_listen_message_handler" env.ebi_listen_message_handler regs
        (g.emit (.debug "SBI_EXT_EBI_LISTEN_MESSAGE\n"))
  | some .SEND_MESSAGE =>
      run_handler "ebi_send_message_handler" env.ebi_send_message_handler regs
        (g.emit (.debug "SBI_EXT_EBI_SEND_MESSAGE\n"))
  | some .STOP_LISTEN =>
      run_handler "ebi_stop_listen_handler" env.ebi_stop_listen_handler regs
        (g.emit (.debug "SBI_EXT_EBI_STOP_LISTEN\n"))
  | some .DEBUG_DUMP_STATUS =>
      run_value "dump_enclave_status" [] env.dump_enclave_status regs g
  | some .DEBUG_DUMP_OWNERSHIP =>
      run_void "dump_partition_ownership" [] env.dump_partition_ownership regs g
  | some .DEBUG_DUMP_PMP =>
      match run_void "__pmp_dump" [] env.pmp_dump regs g with
      | .returned ret regs1 g1 =>
          .returned ret regs1
            (g1.emit (.printf "medeleg = 0x%lx\n" (env.csr_read_medeleg g1.world)))
      | .halted regs1 g1 => .halted regs1 g1
  | some .DEBUG_DUMP_REGION =>
      run_void "dump_region" [] env.dump_region regs g
  | some .DEBUG_UNMATCHED_ACC_FAULT =>
      run_void "pmp_fault_handler" [eid, regs.a0] (env.pmp_fault_handler eid regs.a0) regs g
  | some .EVAL_SET_S_TIMER =>
      let g1 := { (g.emit (.call "SET_S_TIMER(interrupt)" [eid, regs.a0])) with
                  world := env.set_s_timer "interrupt" eid regs.a0 g.world }
      let g2 := { (g1.emit (.call "SET_S_TIMER(syscall)" [eid, regs.a1])) with
                  world := env.set_s_timer "syscall" eid regs.a1 g1.world }
      let g3 := { (g2.emit (.call "SET_S_TIMER(emodule)" [eid, regs.a2])) with
                  world := env.set_s_timer "emodule" eid regs.a2 g2.world }
      .returned 0 regs g3
  | some .EVAL_GET_TIMER =>
      if eid ≠ c.HOST_EID then
        sbi_panic "Cannot get timer in enclaves\n" regs g
      else
        run_value "get_timer" [regs.a0, regs.a1] (env.get_timer regs.a0 regs.a1) regs g
  | some .EVAL_CONFIG =>
      .returned 0 regs
        { g with
          config :=
            { pmp_enable := (regs.a0 &&& c.CONFIG_PMP_ENABLE) != 0
              id_split := (regs.a0 &&& c.ID_SPLIT) != 0
              tlb_cache := (regs.a0 &&& c.TLB_CACHE) != 0
              fragmented := (regs.a0 &&& c.FRAGMENTED) != 0
              max_pmp := regs.a1 } }
  | some .EVAL_DUMP_CONFIG =>
      .returned 0 regs
        { (g.emit (.ipi_get_config (-1))) with
          world := env.ipi_send_ebi_get_config (-1) g.world }
  | some .GET_EID =>
      .returned (to_int (to_u64 (env.get_current_eid g.world))) regs g
  | some .GET_TID =>
      .returned (to_int (to_u64 (env.get_current_tid g.world))) regs g
  | some .GET_HARTID =>
      .returned (to_int (to_u64 (env.current_hartid g.world))) regs g
  | some .GET_BLOCKED_THREADS =>
      run_value "get_blocked_threads" [eid] (env.get_blocked_threads eid) regs
        (g.emit (.debug "SBI_EXT_EBI_GET_BLOCKED_THREADS\n"))
  | some .SET_CLEAR_CHILD_TID =>
      run_void "set_clear_child_tid" [eid, env.get_current_tid g.world, regs.a0]
        (env.set_clear_child_tid eid (env.get_current_tid g.world) regs.a0) regs g
  | some .GET_CLEAR_CHILD_TID =>
      let g1 := g.emit (.debug "SBI_EXT_EBI_GET_CLEAR_CHILD_TID\n")
      run_value "get_clear_child_tid" [eid, env.get_current_tid g1.world]
        (env.get_clear_child_tid eid (env.get_current_tid g1.world)) regs g1
  | some .GET_ALIVE_COUNT =>
      run_value_u64 "get_alive_count" [] env.get_alive_count regs g
  | some .GET_STATUS =>
      if regs.a0 = 0 ∨ regs.a0 > c.NUM_ENCLAVE then
        .returned 0 regs g
      else
        run_value_u64 "get_enclave_status" [regs.a0] (env.get_enclave_status regs.a0) regs g
  | some .GET_EID_COUND =>
      run_value "get_eid_count" [] env.get_eid_count regs g
  | some .RESET =>
      run_void "reset_coffer" [] env.reset_coffer regs g
  | none =>
      .returned c.SBI_ENOTSUPP regs (g.emit (.error "Unknown extension ID: %lu\n" funcid))

/-- The lazy activation hook at the top of `sbi_ebi_handler`:
`if (!ebi_is_called()) { ipi_send_ebi_postboot_init(-1); ebi_called = true; }`. -/
def ebi_activate {W : Type} (env : EbiEnv W) (g : EbiGlobals W) : EbiGlobals W :=
  if !g.ebi_called then
    let g1 := { (g.emit (.ipi_postboot_init (-1))) with
                world := env.ipi_send_ebi_postboot_init (-1) g.world }
    { (g1.emit .store_ebi_called) with ebi_called := true }
  else g

/-- Statement `regs->mepc += 4;`. -/
def mepc_advance (c : EbiConfig) (regs : sbi_trap_regs) : sbi_trap_regs :=
  { regs with mepc := to_ulong c.xlen ((regs.mepc : Int) + 4) }

/-- Statement `regs->mepc -= 4;`. -/
def mepc_restore (c : EbiConfig) (regs : sbi_trap_regs) : sbi_trap_regs :=
  { regs with mepc := to_ulong c.xlen ((regs.mepc : Int) - 4) }

/-- The tail of `sbi_ebi_handler` after the `switch`: `regs->mepc -= 4;`, then
`if (ret >= 0) { regs->a0 = ret; ret = 0; }` and `return ret;`. -/
def ebi_finish {W : Type} (c : EbiConfig) (ret : Int) (regs : sbi_trap_regs)
    (g : EbiGlobals W) : EbiOutcome W :=
  let regs1 := mepc_restore c regs
  if ret ≥ 0 then
    .returned 0 { regs1 with a0 := to_ulong c.xlen ret } g
  else
    .returned ret regs1 g

/-- What follows the `switch`: the tail `ebi_finish` when the selected operation
came back, nothing when the hart stopped inside it. -/
def ebi_after_switch {W : Type} (c : EbiConfig) : EbiOutcome W → EbiOutcome W
  | .returned ret regs g => ebi_finish c ret regs g
  | .halted regs g => .halted regs g

/-- The local `u64 eid = get_current_eid();` read on entry of the handler. -/
def ebi_entry_eid {W : Type} (env : EbiEnv W) (g : EbiGlobals W) : Nat :=
  (to_u64 (env.get_current_eid g.world)).toNat

/-- The function `int sbi_ebi_handler(struct sbi_trap_regs *regs)`. -/
def sbi_ebi_handler {W : Type} (c : EbiConfig) (env : EbiEnv W)
    (regs : sbi_trap_regs) (g : EbiGlobals W) : EbiOutcome W :=
  let funcid := regs.a6
  let eid := ebi_entry_eid env g
  let g1 := ebi_activate env g
  let regs1 := mepc_advance c regs
  ebi_after_switch c (ebi_switch c env eid funcid regs1 g1)

/-! ### Harts running the dispatcher side by side

`ebi_called` is a plain `static bool`: the test `!ebi_is_called()` and the store
`ebi_called = true` are separate accesses, with the broadcast between them, and
nothing keeps a second hart from running in between.  The accesses of one hart
are therefore taken one at a time. -/

/-- Where a hart stands inside `sbi_ebi_handler`: before reading `funcid` and
`eid`, before the test `!ebi_is_called()`, before the broadcast, before the
store `ebi_called = true`, before the rest of the function (from
`regs->mepc += 4` to `return ret`), after the return, or stopped in
`sbi_panic`. -/
inductive EbiPc where
  | entry
  | test
  | send
  | store
  | body
  | done
  | stopped
deriving DecidableEq, Repr

/-- A hart inside `sbi_ebi_handler`: its view of the collaborators, its trap
frame, its locals `eid` and `ret`, and where it stands. -/
structure EbiHart (W : Type) where
  env : EbiEnv W
  regs : sbi_trap_regs
  eid : Nat
  ret : Int
  pc : EbiPc

/-- A hart entering `sbi_ebi_handler` with trap frame `regs`. -/
def EbiHart.enter {W : Type} (env : EbiEnv W) (regs : sbi_trap_regs) : EbiHart W :=
  { env := env, regs := regs, eid := 0, ret := 0, pc := .entry }

/-- One access of one hart to the shared globals, in the order of the source. -/
def ebi_hart_step {W : Type} (c : EbiConfig) (h : EbiHart W) (g : EbiGlobals W) :
    EbiHart W × EbiGlobals W :=
  match h.pc with
  | .entry => ({ h with eid := ebi_entry_eid h.env g, pc := .test }, g)
  | .test => if !g.ebi_called then ({ h with pc := .send }, g) else ({ h with pc := .body }, g)
  | .send =>
      ({ h with pc := .store },
       { (g.emit (.ipi_postboot_init (-1))) with
         world := h.env.ipi_send_ebi_postboot_init (-1) g.world })
  | .store => ({ h with pc := .body }, { (g.emit .store_ebi_called) with ebi_called := true })
  | .body =>
      match ebi_after_switch c
          (ebi_switch c h.env h.eid h.regs.a6 (mepc_advance c h.regs) g) with
      | .returned ret regs g1 => ({ h with regs := regs, ret := ret, pc := .done }, g1)
      | .halted regs g1 => ({ h with regs := regs, pc := .stopped }, g1)
  | .done => (h, g)
  | .stopped => (h, g)

/-- Harts running side by side: the schedule names, access by access, the hart
that moves next. -/
def ebi_interleave {W : Type} (c : EbiConfig) :
    List Nat → List (EbiHart W) × EbiGlobals W → List (EbiHart W) × EbiGlobals W
  | [], s => s
  | i :: rest, s =>
      match s.1[i]? with
      | none => ebi_interleave c rest s
      | some h =>
          ebi_interleave c rest
            ((s.1.set i (ebi_hart_step c h s.2).1), (ebi_hart_step c h s.2).2)

/-! ### Concrete instances used to evaluate the dispatcher -/

/-- A concrete choice of the constants: RV64, selectors numbered from 1 in
source order, `SBI_ENOTSUPP = -2`, host enclave id 0, eight enclaves. -/
def demo_config : EbiConfig where
  xlen := 64
  ext_id := fun s => s.toCtorIdx + 1
  SBI_ENOTSUPP := -2
  HOST_EID := 0
  NUM_ENCLAVE := 8
  CONFIG_PMP_ENABLE := 1
  ID_SPLIT := 2
  TLB_CACHE := 4
  FRAGMENTED := 8

/-- A concrete set of collaborators over the world `Nat`: the world is the
current enclave id, every handler succeeds with `0` and changes nothing,
`get_timer` yields the sum of its arguments and `get_enclave_status` yields
its index plus 100. -/
def demo_env : EbiEnv Nat where
  get_current_eid := fun w => w
  get_current_tid := fun _ => 1
  current_hartid := fun _ => 0
  csr_read_medeleg := fun _ => 0
  ipi_send_ebi_postboot_init := fun _ w => w
  ipi_send_ebi_get_config := fun _ w => w
  ebi_create_handler := fun r w => (0, r, w)
  ebi_enter_handler := fun r w => (0, r, w)
  ebi_exit_handler := fun r w => (0, r, w)
  ebi_exit_thread_handler := fun r w => (0, r, w)
  ebi_suspend_handler := fun r w => (0, r, w)
  ebi_resume_handler := fun r w => (0, r, w)
  ebi_mem_alloc_handler := fun r w => (0, r, w)
  ebi_block_thread_handler := fun r w => (0, r, w)
  ebi_unblock_threads_handler := fun r w => (0, r, w)
  ebi_listen_message_handler := fun r w => (0, r, w)
  ebi_send_message_handler := fun r w => (0, r, w)
  ebi_stop_listen_handler := fun r w => (0, r, w)
  start_timer := fun _ _ w => w
  stop_timer := fun _ _ w => w
  dump_enclave_status := fun w => (0, w)
  dump_partition_ownership := fun w => w
  pmp_dump := fun w => w
  dump_region := fun w => w
  pmp_fault_handler := fun _ _ w => w
  set_s_timer := fun _ _ _ w => w
  get_timer := fun a b w => (((a + b : Nat) : Int), w)
  get_blocked_threads := fun _ w => (0, w)
  set_clear_child_tid := fun _ _ _ w => w
  get_clear_child_tid := fun _ _ w => (0, w)
  get_alive_count := fun w => (1, w)
  get_enclave_status := fun i w => (((i + 100 : Nat) : Int), w)
  get_eid_count := fun w => (1, w)
  reset_coffer := fun w => w

/-- The collaborators of `demo_env`, except that `get_enclave_status` yields `v`
for every index. -/
def demo_env_status (v : Int) : EbiEnv Nat :=
  { demo_env with get_enclave_status := fun _ w => (v, w) }

/-- A trap frame at call site `0x1000` with selector `funcid` and first
argument `a0`. -/
def demo_regs (funcid a0 : Nat) : sbi_trap_regs where
  a0 := a0
  a1 := 5
  a2 := 6
  a6 := funcid
  mepc := 4096
  rest := []

/-- Globals with the given activation flag, cleared configuration, empty trace
and current enclave id `eid`. -/
def demo_globals (called : Bool) (eid : Nat) : EbiGlobals Nat where
  ebi_called := called
  config :=
    { pmp_enable := false, id_split := false, tlb_cache := false, fragmented := false,
      max_pmp := 0 }
  trace := []
  world := eid

/-- Says that no handler receiving the trap frame rewrites `mepc`. -/
def EbiEnv.preserves_mepc {W : Type} (env : EbiEnv W) : Prop :=
  ∀ (r : sbi_trap_regs) (w : W),
    (env.ebi_create_handler r w).2.1.mepc = r.mepc ∧
    (env.ebi_enter_handler r w).2.1.mepc = r.mepc ∧
    (env.ebi_exit_handler r w).2.1.mepc = r.mepc ∧
    (env.ebi_exit_thread_handler r w).2.1.mepc = r.mepc ∧
    (env.ebi_suspend_handler r w).2.1.mepc = r.mepc ∧
    (env.ebi_resume_handler r w).2.1.mepc = r.mepc ∧
    (env.ebi_mem_alloc_handler r w).2.1.mepc = r.mepc ∧
    (env.ebi_block_thread_handler r w).2.1.mepc = r.mepc ∧
    (env.ebi_unblock_threads_handler r w).2.1.mepc = r.mepc ∧
    (env.ebi_listen_message_handler r w).2.1.mepc = r.mepc ∧
    (env.ebi_send_message_handler r w).2.1.mepc = r.mepc ∧
    (env.ebi_stop_listen_handler r w).2.1.mepc = r.mepc

/-! ## Boot orchestration (`sbi_init.c`) -/

/-- Constants used by `sbi_init.c` whose definitions live in headers outside the
sources at hand. -/
structure BootConfig where
  xlen : Nat
  SBI_HARTMASK_MAX_BITS : Nat
  PRV_M : Nat
  PRV_S : Nat
  PRV_U : Nat
  SBI_HSM_STATE_SUSPENDED : Int
  MIP_MSIP : Nat
  MIP_MEIP : Nat

/-- The statements of the cold, warm-startup and warm-resume paths, one
constructor per statement (a call with its failure check, a counter increment,
or a diagnostic dump). -/
inductive InitStep where
  | scratch_init
  | domain_init
  | alloc_entry_count
  | alloc_init_count
  | incr_entry_count
  | hsm_init
  | platform_early_init
  | hart_init
  | console_init
  | pmu_init
  | print_banner
  | irqchip_init
  | ipi_init
  | tlb_init
  | timer_init
  | ecall_init
  | domain_finalize
  | pmp_configure
  | platform_final_init
  | print_general
  | print_domains
  | print_hart
  | wake_coldboot_harts
  | incr_init_count
  | hart_start_finish
  | check_count_offsets
  | hart_resume_start
  | hart_reinit
  | hart_resume_finish
deriving DecidableEq, Repr

/-- Observable effects of the boot code, in program order.  `step` marks a
statement of one of the three init paths being reached; the other events come
from inside the helpers of `sbi_init.c`. -/
inductive BootEvent where
  | step (s : InitStep) (args : List Nat)
  | printf (fmt : String)
  | call (fn : String) (args : List Nat)
  | atomic_xchg_lottery (old : Int)
  | store_coldboot_done (v : Nat)
  | spin_lock
  | spin_unlock
  | ipi_raw_send (hart : Nat)
  | ipi_raw_clear (hart : Nat)
  | hang
deriving DecidableEq, Repr

/-- Says whether an event marks a statement of an init path. -/
def BootEvent.is_step : BootEvent → Bool
  | .step _ _ => true
  | _ => false

/-- Says whether an event is a directed wake signal. -/
def BootEvent.is_wake : BootEvent → Bool
  | .ipi_raw_send _ => true
  | _ => false

/-- Says whether an event is a store to `coldboot_done`. -/
def BootEvent.is_done_store : BootEvent → Bool
  | .store_coldboot_done _ => true
  | _ => false

/-- Says whether an event is the atomic exchange on `coldboot_lottery`. -/
def BootEvent.is_xchg : BootEvent → Bool
  | .atomic_xchg_lottery _ => true
  | _ => false

/-- The collaborators of the boot code, acting on the external world `W`.
The first three fields read the current hart id and the fields `next_mode`
and `options & SBI_SCRATCH_NO_BOOT_PRINTS` of its scratch area. -/
structure BootEnv (W : Type) where
  current_hartid : W → Nat
  next_mode : W → Nat
  no_boot_prints : W → Bool
  sbi_platform_hart_invalid : Nat → W → Bool
  misa_extension : Char → W → Bool
  sbi_platform_cold_boot_allowed : Nat → W → Bool
  sbi_platform_nascent_init : W → Int × W
  sbi_scratch_init : W → Int × W
  sbi_domain_init : Nat → W → Int × W
  sbi_scratch_alloc_offset : Nat → W → Nat × W
  sbi_hsm_init : Nat → Bool → W → Int × W
  sbi_platform_early_init : Bool → W → Int × W
  sbi_hart_init : Bool → W → Int × W
  sbi_console_init : W → Int × W
  sbi_pmu_init : Bool → W → Int × W
  sbi_irqchip_init : Bool → W → Int × W
  sbi_ipi_init : Bool → W → Int × W
  sbi_tlb_init : Bool → W → Int × W
  sbi_timer_init : Bool → W → Int × W
  sbi_ecall_init : W → Int × W
  sbi_domain_finalize : Nat → W → Int × W
  sbi_hart_pmp_configure : W → Int × W
  sbi_platform_final_init : Bool → W → Int × W
  sbi_domain_dump_all : W → W
  sbi_hart_delegation_dump : W → W
  misa_xlen : W → Int
  sbi_scratch_last_hartid : W → Nat
  sbi_ipi_raw_send : Nat → W → W
  sbi_ipi_raw_clear : Nat → W → W
  sbi_hsm_hart_get_state : Nat → W → Int
  sbi_hsm_hart_resume_start : W → W
  sbi_hart_reinit : W → Int × W
  sbi_hsm_hart_start_finish : Nat → W → W
  sbi_hsm_hart_resume_finish : Nat → W → W

/-- Modelled from the spec: `struct sbi_hartmask` (declared in
`sbi/sbi_hartmask.h`, which is missing from the sources).  The spec describes
the WaitSet as a set of hart ids, bounded by the maximum hart count. -/
abbrev sbi_hartmask : Type := Finset Nat

/-- The state the boot code works on: the file-local variables of `sbi_init.c`,
the two counters kept in every hart's scratch area (`scratch_mem hart offset`),
every hart's `mie` CSR, the trace of effects and the external world. -/
structure BootState (W : Type) where
  coldboot_lottery : Int
  coldboot_done : Nat
  coldboot_wait_hmask : sbi_hartmask
  entry_count_offset : Nat
  init_count_offset : Nat
  scratch_mem : Nat → Nat → Nat
  mie : Nat → Nat
  trace : List BootEvent
  world : W

/-- Appends an event to the trace. -/
def BootState.emit {W : Type} (st : BootState W) (e : BootEvent) : BootState W :=
  { st with trace := st.trace ++ [e] }

/-- Appends a `printf` for every format string, in order. -/
def BootState.print {W : Type} (st : BootState W) (fmts : List String) : BootState W :=
  { st with trace := st.trace ++ fmts.map BootEvent.printf }

/-- Modelled from the spec: the accessor `sbi_hartmask_set_hart(h, m)` (missing
from the sources) adds hart `h` to the set, provided `h` is below the maximum
hart count. -/
def sbi_hartmask_set_hart (cfg : BootConfig) (h : Nat) (m : sbi_hartmask) : sbi_hartmask :=
  if h < cfg.SBI_HARTMASK_MAX_BITS then insert h m else m

/-- Modelled from the spec: the accessor `sbi_hartmask_clear_hart(h, m)` (missing
from the sources) removes hart `h` from the set. -/
def sbi_hartmask_clear_hart (cfg : BootConfig) (h : Nat) (m : sbi_hartmask) : sbi_hartmask :=
  if h < cfg.SBI_HARTMASK_MAX_BITS then m.erase h else m

/-- Modelled from the spec: the accessor `sbi_hartmask_test_hart(h, m)` (missing
from the sources) says whether hart `h` is in the set. -/
def sbi_hartmask_test_hart (cfg : BootConfig) (h : Nat) (m : sbi_hartmask) : Bool :=
  decide (h < cfg.SBI_HARTMASK_MAX_BITS ∧ h ∈ m)

/-- Modelled from the spec: `sbi_hart_hang` (missing from the sources) is the
terminal, non-recoverable Halted state: the hart stops and never returns to
the caller.  The state it yields is the one in which the hart stays. -/
def sbi_hart_hang {W : Type} (st : BootState W) : BootState W :=
  st.emit .hang

/-- The statement `(*count)++` on the counter at `offset` in the scratch area of
hart `hartid`. -/
def scratch_count_incr {W : Type} (cfg : BootConfig) (hartid offset : Nat)
    (st : BootState W) : BootState W :=
  { st with
    scratch_mem := fun h o =>
      if h = hartid ∧ o = offset then to_ulong cfg.xlen ((st.scratch_mem h o : Int) + 1)
      else st.scratch_mem h o }

/-- Result of one statement of an init path: control goes on, or the hart has
entered `sbi_hart_hang()`. -/
inductive StepResult (W : Type) where
  | ok (st : BootState W)
  | hang (st : BootState W)

/-- The state carried by a step result. -/
def StepResult.state {W : Type} : StepResult W → BootState W
  | .ok st => st
  | .hang st => st

/-- The pattern `rc = f(...); if (rc) { [sbi_printf(msg);] sbi_hart_hang(); }`
applied to the value and world produced by `f`. -/
def check_rc {W : Type} (msg : Option String) (r : Int × W) (st : BootState W) :
    StepResult W :=
  let st1 := { st with world := r.2 }
  if r.1 ≠ 0 then
    match msg with
    | some m => .hang (sbi_hart_hang (st1.emit (.printf m)))
    | none => .hang (sbi_hart_hang st1)
  else .ok st1

/-- The function `sbi_boot_print_banner`, built without a git version string,
build time stamp or compiler version. -/
def sbi_boot_print_banner {W : Type} (env : BootEnv W) (st : BootState W) : BootState W :=
  if env.no_boot_prints st.world then st
  else st.print ["\nOpenSBI v%d.%d\n", "BANNER"]

/-- The function `sbi_boot_print_general`. -/
def sbi_boot_print_general {W : Type} (env : BootEnv W) (st : BootState W) : BootState W :=
  if env.no_boot_prints st.world then st
  else st.print
    ["Platform Name             : %s\n",
     "Platform Features         : %s\n",
     "Platform HART Count       : %u\n",
     "Platform IPI Device       : %s\n",
     "Platform Timer Device     : %s @ %luHz\n",
     "Platform Console Device   : %s\n",
     "Platform HSM Device       : %s\n",
     "Platform PMU Device       : %s\n",
     "Platform Reboot Device    : %s\n",
     "Platform Shutdown Device  : %s\n",
     "Platform Suspend Device   : %s\n",
     "Platform CPPC Device      : %s\n",
     "Firmware Base             : 0x%lx\n",
     "Firmware Size             : %d KB\n",
     "Firmware RW Offset        : 0x%lx\n",
     "Runtime SBI Version       : %d.%d\n",
     "\n"]

/-- The function `sbi_boot_print_domains`. -/
def sbi_boot_print_domains {W : Type} (env : BootEnv W) (st : BootState W) : BootState W :=
  if env.no_boot_prints st.world then st
  else { (st.emit (.call "sbi_domain_dump_all" [])) with
         world := env.sbi_domain_dump_all st.world }

/-- The function `sbi_boot_print_hart`; it hangs when `misa_xlen()` fails. -/
def sbi_boot_print_hart {W : Type} (env : BootEnv W) (st : BootState W) : StepResult W :=
  if env.no_boot_prints st.world then .ok st
  else if env.misa_xlen st.world < 1 then
    .hang (sbi_hart_hang (st.emit (.printf "Error %d getting MISA XLEN\n")))
  else
    let st1 := st.print
      ["Boot HART ID              : %u\n",
       "Boot HART Domain          : %s\n",
       "Boot HART Priv Version    : %s\n",
       "Boot HART Base ISA        : %s\n",
       "Boot HART ISA Extensions  : %s\n",
       "Boot HART PMP Count       : %d\n",
       "Boot HART PMP Granularity : %lu\n",
       "Boot HART PMP Address Bits: %d\n",
       "Boot HART MHPM Count      : %d\n"]
    .ok { (st1.emit (.call "sbi_hart_delegation_dump" [])) with
          world := env.sbi_hart_delegation_dump st1.world }

/-- The loop body of `wake_coldboot_harts` for hart `i`. -/
def wake_one {W : Type} (cfg : BootConfig) (env : BootEnv W) (hartid : Nat)
    (st : BootState W) (i : Nat) : BootState W :=
  if i ≠ hartid ∧ sbi_hartmask_test_hart cfg i st.coldboot_wait_hmask = true then
    { (st.emit (.ipi_raw_send i)) with world := env.sbi_ipi_raw_send i st.world }
  else st

/-- The function `wake_coldboot_harts`: store `coldboot_done = 1`, then, under
`coldboot_lock`, signal every waiting hart `0 .. sbi_scratch_last_hartid()`
other than the caller.  The loop bound is the global last hart id, which the
loop does not write; it is read on loop entry. -/
def wake_coldboot_harts {W : Type} (cfg : BootConfig) (env : BootEnv W) (hartid : Nat)
    (st : BootState W) : BootState W :=
  let st1 := { (st.emit (.store_coldboot_done 1)) with coldboot_done := 1 }
  let st2 := st1.emit .spin_lock
  let st3 := (List.range (env.sbi_scratch_last_hartid st2.world + 1)).foldl
    (wake_one cfg env hartid) st2
  st3.emit .spin_unlock

/-- The arguments (besides `scratch` and `plat`) a statement passes to the
function it calls; `cold` is the `is_coldboot` flag of the path. -/
def step_args (cfg : BootConfig) (hartid : Nat) (cold : Bool) : InitStep → List Nat
  | .domain_init => [hartid]
  | .alloc_entry_count => [cfg.xlen / 8]
  | .alloc_init_count => [cfg.xlen / 8]
  | .hsm_init => [hartid, cold.toNat]
  | .platform_early_init => [cold.toNat]
  | .hart_init => [cold.toNat]
  | .pmu_init => [cold.toNat]
  | .irqchip_init => [cold.toNat]
  | .ipi_init => [cold.toNat]
  | .tlb_init => [cold.toNat]
  | .timer_init => [cold.toNat]
  | .domain_finalize => [hartid]
  | .platform_final_init => [cold.toNat]
  | .print_hart => [hartid]
  | .wake_coldboot_harts => [hartid]
  | .hart_start_finish => [hartid]
  | .hart_resume_finish => [hartid]
  | _ => []

/-- The failure message of a checked statement: only the cold path prints one,
and only from the interrupt-controller init onwards. -/
def fail_msg (cold : Bool) (m : String) : Option String :=
  if cold then some m else none

/-- One statement of an init path, run by hart `hartid` with `is_coldboot = cold`. -/
def exec_step {W : Type} (cfg : BootConfig) (env : BootEnv W) (hartid : Nat) (cold : Bool)
    (s : InitStep) (st : BootState W) : StepResult W :=
  let st0 := st.emit (.step s (step_args cfg hartid cold s))
  match s with
  | .scratch_init => check_rc none (env.sbi_scratch_init st0.world) st0
  | .domain_init => check_rc none (env.sbi_domain_init hartid st0.world) st0
  | .alloc_entry_count =>
      let r := env.sbi_scratch_alloc_offset (cfg.xlen / 8) st0.world
      let st1 := { st0 with world := r.2, entry_count_offset := r.1 }
      if r.1 = 0 then .hang (sbi_hart_hang st1) else .ok st1
  | .alloc_init_count =>
      let r := env.sbi_scratch_alloc_offset (cfg.xlen / 8) st0.world
      let st1 := { st0 with world := r.2, init_count_offset := r.1 }
      if r.1 = 0 then .hang (sbi_hart_hang st1) else .ok st1
  | .incr_entry_count => .ok (scratch_count_incr cfg hartid st0.entry_count_offset st0)
  | .hsm_init => check_rc none (env.sbi_hsm_init hartid cold st0.world) st0
  | .platform_early_init => check_rc none (env.sbi_platform_early_init cold st0.world) st0
  | .hart_init => check_rc none (env.sbi_hart_init cold st0.world) st0
  | .console_init => check_rc none (env.sbi_console_init st0.world) st0
  | .pmu_init => check_rc none (env.sbi_pmu_init cold st0.world) st0
  | .print_banner => .ok (sbi_boot_print_banner env st0)
  | .irqchip_init =>
      check_rc (fail_msg cold "%s: irqchip init failed (error %d)\n")
        (env.sbi_irqchip_init cold st0.world) st0
  | .ipi_init =>
      check_rc (fail_msg cold "%s: ipi init failed (error %d)\n")
        (env.sbi_ipi_init cold st0.world) st0
  | .tlb_init =>
      check_rc (fail_msg cold "%s: tlb init failed (error %d)\n")
        (env.sbi_tlb_init cold st0.world) st0
  | .timer_init =>
      check_rc (fail_msg cold "%s: timer init failed (error %d)\n")
        (env.sbi_timer_init cold st0.world) st0
  | .ecall_init =>
      check_rc (fail_msg cold "%s: ecall init failed (error %d)\n")
        (env.sbi_ecall_init st0.world) st0
  | .domain_finalize =>
      check_rc (fail_msg cold "%s: domain finalize failed (error %d)\n")
        (env.sbi_domain_finalize hartid st0.world) st0
  | .pmp_configure =>
      check_rc (fail_msg cold "%s: PMP configure failed (error %d)\n")
        (env.sbi_hart_pmp_configure st0.world) st0
  | .platform_final_init =>
      check_rc (fail_msg cold "%s: platform final init failed (error %d)\n")
        (env.sbi_platform_final_init cold st0.world) st0
  | .print_general => .ok (sbi_boot_print_general env st0)
  | .print_domains => .ok (sbi_boot_print_domains env st0)
  | .print_hart => sbi_boot_print_hart env st0
  | .wake_coldboot_harts => .ok (wake_coldboot_harts cfg env hartid st0)
  | .incr_init_count => .ok (scratch_count_incr cfg hartid st0.init_count_offset st0)
  | .hart_start_finish =>
      .ok { st0 with world := env.sbi_hsm_hart_start_finish hartid st0.world }
  | .check_count_offsets =>
      if st0.entry_count_offset = 0 ∨ st0.init_count_offset = 0 then .hang (sbi_hart_hang st0)
      else .ok st0
  | .hart_resume_start =>
      .ok { st0 with world := env.sbi_hsm_hart_resume_start st0.world }
  | .hart_reinit => check_rc none (env.sbi_hart_reinit st0.world) st0
  | .hart_resume_finish =>
      .ok { st0 with world := env.sbi_hsm_hart_resume_finish hartid st0.world }

/-- Says whether a step result is a hang. -/
def StepResult.is_hang {W : Type} : StepResult W → Bool
  | .ok _ => false
  | .hang _ => true

/-- Says whether a statement of an init path fails when it is run in state `st`,
in terms of what its collaborator hands back: a non-zero return code `rc`, the
offset `0` from `sbi_scratch_alloc_offset`, a `misa_xlen()` below one while the
boot prints are on, or, on the warm path, a counter offset that is still `0`.
A statement without a check never fails. -/
def step_fails {W : Type} (cfg : BootConfig) (env : BootEnv W) (hartid : Nat) (cold : Bool)
    (s : InitStep) (st : BootState W) : Bool :=
  match s with
  | .scratch_init => decide ((env.sbi_scratch_init st.world).1 ≠ 0)
  | .domain_init => decide ((env.sbi_domain_init hartid st.world).1 ≠ 0)
  | .alloc_entry_count => decide ((env.sbi_scratch_alloc_offset (cfg.xlen / 8) st.world).1 = 0)
  | .alloc_init_count => decide ((env.sbi_scratch_alloc_offset (cfg.xlen / 8) st.world).1 = 0)
  | .incr_entry_count => false
  | .hsm_init => decide ((env.sbi_hsm_init hartid cold st.world).1 ≠ 0)
  | .platform_early_init => decide ((env.sbi_platform_early_init cold st.world).1 ≠ 0)
  | .hart_init => decide ((env.sbi_hart_init cold st.world).1 ≠ 0)
  | .console_init => decide ((env.sbi_console_init st.world).1 ≠ 0)
  | .pmu_init => decide ((env.sbi_pmu_init cold st.world).1 ≠ 0)
  | .print_banner => false
  | .irqchip_init => decide ((env.sbi_irqchip_init cold st.world).1 ≠ 0)
  | .ipi_init => decide ((env.sbi_ipi_init cold st.world).1 ≠ 0)
  | .tlb_init => decide ((env.sbi_tlb_init cold st.world).1 ≠ 0)
  | .timer_init => decide ((env.sbi_timer_init cold st.world).1 ≠ 0)
  | .ecall_init => decide ((env.sbi_ecall_init st.world).1 ≠ 0)
  | .domain_finalize => decide ((env.sbi_domain_finalize hartid st.world).1 ≠ 0)
  | .pmp_configure => decide ((env.sbi_hart_pmp_configure st.world).1 ≠ 0)
  | .platform_final_init => decide ((env.sbi_platform_final_init cold st.world).1 ≠ 0)
  | .print_general => false
  | .print_domains => false
  | .print_hart => !env.no_boot_prints st.world && decide (env.misa_xlen st.world < 1)
  | .wake_coldboot_harts => false
  | .incr_init_count => false
  | .hart_start_finish => false
  | .check_count_offsets => decide (st.entry_count_offset = 0 ∨ st.init_count_offset = 0)
  | .hart_resume_start => false
  | .hart_reinit => decide ((env.sbi_hart_reinit st.world).1 ≠ 0)
  | .hart_resume_finish => false

/-- Result of a sequence of statements: all done, or hung at a statement. -/
inductive RunResult (W : Type) where
  | ok (st : BootState W)
  | hang (s : InitStep) (st : BootState W)

/-- The state carried by the result of a run. -/
def RunResult.state {W : Type} : RunResult W → BootState W
  | .ok st => st
  | .hang _ st => st

/-- Statements in sequence; the first one that hangs ends the run. -/
def run_steps {W : Type} (cfg : BootConfig) (env : BootEnv W) (hartid : Nat) (cold : Bool) :
    List InitStep → BootState W → RunResult W
  | [], st => .ok st
  | s :: rest, st =>
      match exec_step cfg env hartid cold s st with
      | .ok st1 => run_steps cfg env hartid cold rest st1
      | .hang st1 => .hang s st1

/-- The statements of `init_coldboot` up to and including the last diagnostic
dump, in source order. -/
def cold_init_steps : List InitStep :=
  [.scratch_init, .domain_init, .alloc_entry_count, .alloc_init_count, .incr_entry_count,
   .hsm_init, .platform_early_init, .hart_init, .console_init, .pmu_init, .print_banner,
   .irqchip_init, .ipi_init, .tlb_init, .timer_init, .ecall_init, .domain_finalize,
   .pmp_configure, .platform_final_init, .print_general, .print_domains, .print_hart]

/-- The statements of `init_coldboot` from `wake_coldboot_harts` on. -/
def cold_tail_steps : List InitStep :=
  [.wake_coldboot_harts, .incr_init_count, .hart_start_finish]

/-- The statements of `init_coldboot`, in source order. -/
def cold_steps : List InitStep := cold_init_steps ++ cold_tail_steps

/-- The statements of `init_warm_startup`, in source order. -/
def warm_startup_steps : List InitStep :=
  [.check_count_offsets, .incr_entry_count, .hsm_init, .platform_early_init, .hart_init,
   .pmu_init, .irqchip_init, .ipi_init, .tlb_init, .timer_init, .pmp_configure,
   .platform_final_init, .incr_init_count, .hart_start_finish]

/-- The statements of `init_warm_resume`, in source order. -/
def warm_resume_steps : List InitStep :=
  [.hart_resume_start, .hart_reinit, .pmp_configure, .hart_resume_finish]

/-- How a hart leaves (or fails to leave) the boot code: hung in
`sbi_hart_hang()` (at a statement of an init path, or before one), parked in
the `wfi` loop of `wait_for_coldboot` with its saved `mie`, handed off to
`sbi_hsm_hart_start_finish`, or handed off to `sbi_hsm_hart_resume_finish`. -/
inductive BootOutcome (W : Type) where
  | hung (at_step : Option InitStep) (st : BootState W)
  | waiting (hartid saved_mie : Nat) (st : BootState W)
  | started (st : BootState W)
  | resumed (st : BootState W)

/-- The state carried by an outcome. -/
def BootOutcome.state {W : Type} : BootOutcome W → BootState W
  | .hung _ st => st
  | .waiting _ _ st => st
  | .started st => st
  | .resumed st => st

/-- Says whether the hart was handed off to `sbi_hsm_hart_start_finish`. -/
def BootOutcome.is_started {W : Type} : BootOutcome W → Bool
  | .started _ => true
  | _ => false

/-- Says whether the hart is hung. -/
def BootOutcome.is_hung {W : Type} : BootOutcome W → Bool
  | .hung _ _ => true
  | _ => false

/-- The function `init_coldboot`. -/
def init_coldboot {W : Type} (cfg : BootConfig) (env : BootEnv W) (hartid : Nat)
    (st : BootState W) : BootOutcome W :=
  match run_steps cfg env hartid true cold_steps st with
  | .ok st1 => .started st1
  | .hang s st1 => .hung (some s) st1

/-- The function `init_warm_startup`. -/
def init_warm_startup {W : Type} (cfg : BootConfig) (env : BootEnv W) (hartid : Nat)
    (st : BootState W) : BootOutcome W :=
  match run_steps cfg env hartid false warm_startup_steps st with
  | .ok st1 => .started st1
  | .hang s st1 => .hung (some s) st1

/-- The function `init_warm_resume`. -/
def init_warm_resume {W : Type} (cfg : BootConfig) (env : BootEnv W) (hartid : Nat)
    (st : BootState W) : BootOutcome W :=
  match run_steps cfg env hartid false warm_resume_steps st with
  | .ok st1 => .resumed st1
  | .hang s st1 => .hung (some s) st1

/-- The part of `wait_for_coldboot` before the wait loop: enable the software
and external interrupt bits in `mie`, then join the wait mask under the lock. -/
def wait_for_coldboot_enter {W : Type} (cfg : BootConfig) (hartid : Nat)
    (st : BootState W) : BootState W :=
  let st1 := { st with
    mie := fun h => if h = hartid then st.mie h ||| (cfg.MIP_MSIP ||| cfg.MIP_MEIP)
                    else st.mie h }
  let st2 := st1.emit .spin_lock
  let st3 := { st2 with
    coldboot_wait_hmask := sbi_hartmask_set_hart cfg hartid st2.coldboot_wait_hmask }
  st3.emit .spin_unlock

/-- The part of `wait_for_coldboot` after the wait loop: leave the wait mask
under the lock, then restore `mie`. -/
def wait_for_coldboot_leave {W : Type} (cfg : BootConfig) (hartid saved_mie : Nat)
    (st : BootState W) : BootState W :=
  let st1 := st.emit .spin_lock
  let st2 := { st1 with
    coldboot_wait_hmask := sbi_hartmask_clear_hart cfg hartid st1.coldboot_wait_hmask }
  let st3 := st2.emit .spin_unlock
  { st3 with mie := fun h => if h = hartid then saved_mie else st3.mie h }

/-- The part of `init_warmboot` after `wait_for_coldboot` has returned. -/
def init_warmboot_after_wait {W : Type} (cfg : BootConfig) (env : BootEnv W) (hartid : Nat)
    (st : BootState W) : BootOutcome W :=
  let hstate := env.sbi_hsm_hart_get_state hartid st.world
  if hstate < 0 then .hung none (sbi_hart_hang st)
  else if hstate = cfg.SBI_HSM_STATE_SUSPENDED then init_warm_resume cfg env hartid st
  else
    init_warm_startup cfg env hartid
      { (st.emit (.ipi_raw_clear hartid)) with world := env.sbi_ipi_raw_clear hartid st.world }

/-- The function `init_warmboot` up to the first test of `coldboot_done`: when
the flag is still clear the hart parks in `wfi`. -/
def init_warmboot {W : Type} (cfg : BootConfig) (env : BootEnv W) (hartid : Nat)
    (st : BootState W) : BootOutcome W :=
  let saved_mie := st.mie hartid
  let st1 := wait_for_coldboot_enter cfg hartid st
  if st1.coldboot_done ≠ 0 then
    init_warmboot_after_wait cfg env hartid (wait_for_coldboot_leave cfg hartid saved_mie st1)
  else .waiting hartid saved_mie st1

/-- A hart parked in the wait loop comes out of `wfi` and reads `cmip` from the
`mip` CSR: without a pending software or external interrupt it goes back to
`wfi`; with one it tests `coldboot_done` again. -/
def init_warmboot_wakeup {W : Type} (cfg : BootConfig) (env : BootEnv W)
    (hartid saved_mie cmip : Nat) (st : BootState W) : BootOutcome W :=
  if cmip &&& (cfg.MIP_MSIP ||| cfg.MIP_MEIP) = 0 then .waiting hartid saved_mie st
  else if st.coldboot_done ≠ 0 then
    init_warmboot_after_wait cfg env hartid (wait_for_coldboot_leave cfg hartid saved_mie st)
  else .waiting hartid saved_mie st

/-- The primitive `atomic_xchg(&v, newval)`: the old value and the stored value. -/
def atomic_xchg (v newval : Int) : Int × Int := (v, newval)

/-- The expression `atomic_xchg(&coldboot_lottery, 1) == 0`. -/
def lottery_draw {W : Type} (st : BootState W) : Bool × BootState W :=
  let r := atomic_xchg st.coldboot_lottery 1
  (decide (r.1 = 0), { (st.emit (.atomic_xchg_lottery r.1)) with coldboot_lottery := r.2 })

/-- The `switch (scratch->next_mode)` of `sbi_init`: `none` is the `default:`
branch (hang), otherwise the value of `next_mode_supported`. -/
def next_mode_check {W : Type} (cfg : BootConfig) (env : BootEnv W) (w : W) : Option Bool :=
  if env.next_mode w = cfg.PRV_M then some true
  else if env.next_mode w = cfg.PRV_S then some (env.misa_extension 'S' w)
  else if env.next_mode w = cfg.PRV_U then some (env.misa_extension 'U' w)
  else none

/-- The election in `sbi_init`: the lottery is drawn only by a hart that is
allowed to cold boot and supports the next mode. -/
def coldboot_election {W : Type} (env : BootEnv W) (hartid : Nat) (next_mode_supported : Bool)
    (st : BootState W) : Bool × BootState W :=
  if env.sbi_platform_cold_boot_allowed hartid st.world then
    if next_mode_supported then lottery_draw st else (false, st)
  else (false, st)

/-- The function `sbi_init`, run by one hart. -/
def sbi_init {W : Type} (cfg : BootConfig) (env : BootEnv W) (st : BootState W) :
    BootOutcome W :=
  let hartid := env.current_hartid st.world
  if cfg.SBI_HARTMASK_MAX_BITS ≤ hartid ∨ env.sbi_platform_hart_invalid hartid st.world = true
  then .hung none (sbi_hart_hang st)
  else
    match next_mode_check cfg env st.world with
    | none => .hung none (sbi_hart_hang st)
    | some next_mode_supported =>
        let e := coldboot_election env hartid next_mode_supported st
        let r := env.sbi_platform_nascent_init e.2.world
        let st2 := { e.2 with world := r.2 }
        if r.1 ≠ 0 then .hung none (sbi_hart_hang st2)
        else if e.1 then init_coldboot cfg env hartid st2
        else init_warmboot cfg env hartid st2

/-- The part of `sbi_init` up to and including the lottery: `none` when the hart
hangs before it (hart id out of range or rejected by the platform, or a next
mode that is none of the recognised values), otherwise the value of `coldboot`
the hart obtains and the state it leaves. -/
def sbi_init_election {W : Type} (cfg : BootConfig) (env : BootEnv W) (st : BootState W) :
    Option (Bool × BootState W) :=
  let hartid := env.current_hartid st.world
  if cfg.SBI_HARTMASK_MAX_BITS ≤ hartid ∨ env.sbi_platform_hart_invalid hartid st.world = true
  then none
  else
    match next_mode_check cfg env st.world with
    | none => none
    | some next_mode_supported => some (coldboot_election env hartid next_mode_supported st)

/-- Says whether a hart, in world `w`, performs the atomic exchange on the
lottery in `sbi_init`: its id passes the checks, the platform allows it to cold
boot, and it supports the next mode. -/
def draws_lottery {W : Type} (cfg : BootConfig) (env : BootEnv W) (w : W) : Bool :=
  !(decide (cfg.SBI_HARTMASK_MAX_BITS ≤ env.current_hartid w) ||
      env.sbi_platform_hart_invalid (env.current_hartid w) w) &&
    env.sbi_platform_cold_boot_allowed (env.current_hartid w) w &&
    (next_mode_check cfg env w == some true)

/-- Booting harts reaching the lottery of `sbi_init` one after another, each
with its own view of the collaborators, in the order in which their accesses
to `coldboot_lottery` take effect: for every hart the value of `coldboot` it
obtains (`none` when it hangs before the lottery), and the state afterwards. -/
def election_race {W : Type} (cfg : BootConfig) :
    List (BootEnv W) → BootState W → List (Option Bool) × BootState W
  | [], st => ([], st)
  | env :: rest, st =>
      match sbi_init_election cfg env st with
      | none => (none :: (election_race cfg rest st).1, (election_race cfg rest st).2)
      | some r => (some r.1 :: (election_race cfg rest r.2).1, (election_race cfg rest r.2).2)

/-- The `step` event a statement leaves in the trace when hart `hartid` runs it
with `is_coldboot = cold`. -/
def step_event (cfg : BootConfig) (hartid : Nat) (cold : Bool) (s : InitStep) : BootEvent :=
  .step s (step_args cfg hartid cold s)

/-- The cold init order in the words of the specification: scratch-area init,
domain init, allocation of the two per-hart counters, hart-state-manager init,
platform early init, hart/core init, console init, performance-monitoring
init, banner print, interrupt-controller init, inter-processor-interrupt init,
TLB-shootdown init, timer init, privileged-call subsystem init, domain
finalize, PMP configuration, platform final init, the diagnostic dumps
(platform, domains, boot hart), `signal_coldboot_done`, increment of the init
counter, hand-off to hart-start completion. -/
def spec_cold_order : List InitStep :=
  [.scratch_init, .domain_init, .alloc_entry_count, .alloc_init_count,
   .hsm_init, .platform_early_init, .hart_init, .console_init, .pmu_init, .print_banner,
   .irqchip_init, .ipi_init, .tlb_init, .timer_init, .ecall_init, .domain_finalize,
   .pmp_configure, .platform_final_init, .print_general, .print_domains, .print_hart,
   .wake_coldboot_harts, .incr_init_count, .hart_start_finish]

/-! ### Concrete instances used to evaluate the boot code -/

/-- A concrete choice of the constants: RV64, 128 hart bits, the RISC-V
privilege encodings, `SBI_HSM_STATE_SUSPENDED = 4`, `MIP_MSIP = 8` and
`MIP_MEIP = 2048`. -/
def demo_boot_config : BootConfig where
  xlen := 64
  SBI_HARTMASK_MAX_BITS := 128
  PRV_M := 3
  PRV_S := 1
  PRV_U := 0
  SBI_HSM_STATE_SUSPENDED := 4
  MIP_MSIP := 8
  MIP_MEIP := 2048

/-- The return code of a collaborator that fails exactly when it belongs to the
statement `fail`. -/
def demo_rc (fail : Option InitStep) (s : InitStep) : Int :=
  if fail = some s then -1 else 0

/-- A concrete set of collaborators over the world `Nat` (the scratch
allocation pointer): the current hart is `hartid`, its next mode is `mode`, it
has neither the `S` nor the `U` extension, boot prints are on, every hart may
cold boot, harts `0 .. 3` have a scratch area, and every collaborator
succeeds except the one of statement `fail`. -/
def demo_boot_env (hartid mode : Nat) (fail : Option InitStep) : BootEnv Nat where
  current_hartid := fun _ => hartid
  next_mode := fun _ => mode
  no_boot_prints := fun _ => false
  sbi_platform_hart_invalid := fun _ _ => false
  misa_extension := fun _ _ => false
  sbi_platform_cold_boot_allowed := fun _ _ => true
  sbi_platform_nascent_init := fun w => (0, w)
  sbi_scratch_init := fun w => (demo_rc fail .scratch_init, w)
  sbi_domain_init := fun _ w => (demo_rc fail .domain_init, w)
  sbi_scratch_alloc_offset := fun size w => (w + size, w + size)
  sbi_hsm_init := fun _ _ w => (demo_rc fail .hsm_init, w)
  sbi_platform_early_init := fun _ w => (demo_rc fail .platform_early_init, w)
  sbi_hart_init := fun _ w => (demo_rc fail .hart_init, w)
  sbi_console_init := fun w => (demo_rc fail .console_init, w)
  sbi_pmu_init := fun _ w => (demo_rc fail .pmu_init, w)
  sbi_irqchip_init := fun _ w => (demo_rc fail .irqchip_init, w)
  sbi_ipi_init := fun _ w => (demo_rc fail .ipi_init, w)
  sbi_tlb_init := fun _ w => (demo_rc fail .tlb_init, w)
  sbi_timer_init := fun _ w => (demo_rc fail .timer_init, w)
  sbi_ecall_init := fun w => (demo_rc fail .ecall_init, w)
  sbi_domain_finalize := fun _ w => (demo_rc fail .domain_finalize, w)
  sbi_hart_pmp_configure := fun w => (demo_rc fail .pmp_configure, w)
  sbi_platform_final_init := fun _ w => (demo_rc fail .platform_final_init, w)
  sbi_domain_dump_all := fun w => w
  sbi_hart_delegation_dump := fun w => w
  misa_xlen := fun _ => 64
  sbi_scratch_last_hartid := fun _ => 3
  sbi_ipi_raw_send := fun _ w => w
  sbi_ipi_raw_clear := fun _ w => w
  sbi_hsm_hart_get_state := fun _ _ => 0
  sbi_hsm_hart_resume_start := fun w => w
  sbi_hart_reinit := fun w => (demo_rc fail .hart_reinit, w)
  sbi_hsm_hart_start_finish := fun _ w => w
  sbi_hsm_hart_resume_finish := fun _ w => w

/-- A boot state with the given lottery value, `coldboot_done` flag and wait
mask; no counter offsets allocated, all counters and `mie` zero, empty trace. -/
def demo_boot_state (lottery : Int) (done : Nat) (waiters : sbi_hartmask) : BootState Nat where
  coldboot_lottery := lottery
  coldboot_done := done
  coldboot_wait_hmask := waiters
  entry_count_offset := 0
  init_count_offset := 0
  scratch_mem := fun _ _ => 0
  mie := fun _ => 0
  trace := []
  world := 0

/-- A boot state after a completed cold boot: lottery claimed, `coldboot_done`
set, counter offsets 8 and 16 allocated, the given wait mask. -/
def demo_booted_state (waiters : sbi_hartmask) : BootState Nat where
  coldboot_lottery := 1
  coldboot_done := 1
  coldboot_wait_hmask := waiters
  entry_count_offset := 8
  init_count_offset := 16
  scratch_mem := fun _ _ => 0
  mie := fun _ => 0
  trace := []
  world := 16

/-! ### Counter accessors and wake targets -/

/-- The function `sbi_entry_count(hartid)`; `has_scratch` says for which harts
`sbi_hartid_to_scratch` yields a scratch area. -/
def sbi_entry_count {W : Type} (has_scratch : Nat → Bool) (hartid : Nat)
    (st : BootState W) : Nat :=
  if st.entry_count_offset = 0 then 0
  else if has_scratch hartid = false then 0
  else st.scratch_mem hartid st.entry_count_offset

/-- The function `sbi_init_count(hartid)`; `has_scratch` says for which harts
`sbi_hartid_to_scratch` yields a scratch area. -/
def sbi_init_count {W : Type} (has_scratch : Nat → Bool) (hartid : Nat)
    (st : BootState W) : Nat :=
  if st.init_count_offset = 0 then 0
  else if has_scratch hartid = false then 0
  else st.scratch_mem hartid st.init_count_offset

/-- Says whether a statement is one of the two counter increments `(*count)++`. -/
def InitStep.is_incr : InitStep → Bool
  | .incr_entry_count => true
  | .incr_init_count => true
  | _ => false

/-- Says whether a statement is one of the two calls of `sbi_scratch_alloc_offset`. -/
def InitStep.is_alloc : InitStep → Bool
  | .alloc_entry_count => true
  | .alloc_init_count => true
  | _ => false

/-- Says whether the hart was handed off to `sbi_hsm_hart_resume_finish`. -/
def BootOutcome.is_resumed {W : Type} : BootOutcome W → Bool
  | .resumed _ => true
  | _ => false

/-- The harts for which the loop of `wake_coldboot_harts(hartid)` calls
`sbi_ipi_raw_send`, in loop order: `i = 0 .. last` with `i != hartid` and
`sbi_hartmask_test_hart(i, &coldboot_wait_hmask)`. -/
def wake_targets (cfg : BootConfig) (last hartid : Nat) (m : sbi_hartmask) : List Nat :=
  (List.range (last + 1)).filter
    (fun i => decide (i ≠ hartid) && sbi_hartmask_test_hart cfg i m)

/-- A boot state after a completed cold boot in which every counter of every
hart holds the largest `unsigned long` value of RV64. -/
def demo_saturated_state : BootState Nat where
  coldboot_lottery := 1
  coldboot_done := 1
  coldboot_wait_hmask := ∅
  entry_count_offset := 8
  init_count_offset := 16
  scratch_mem := fun _ _ => 2 ^ 64 - 1
  mie := fun _ => 0
  trace := []
  world := 16

/-! ## Theorems about the dispatcher -/

/-- An in-range value is not changed by the conversion to `unsigned long`. -/
theorem to_ulong_of_lt (xlen n : Nat) (h : n < 2 ^ xlen) : to_ulong xlen (n : Int) = n := by
  unfold to_ulong
  have h1 : ((n : Int)) % 2 ^ xlen = n := by
    apply Int.emod_eq_of_lt (Int.natCast_nonneg n)
    exact_mod_cast h
  rw [h1]
  simp

/-- The conversion to `unsigned long` yields the residue modulo `2 ^ xlen`. -/
theorem to_ulong_cast (xlen : Nat) (v : Int) : ((to_ulong xlen v : Nat) : Int) = v % 2 ^ xlen := by
  unfold to_ulong
  exact Int.toNat_of_nonneg (Int.emod_nonneg _ (by positivity))

/-- Advancing the program counter adds four modulo `2 ^ xlen`. -/
theorem mepc_advance_mepc (c : EbiConfig) (regs : sbi_trap_regs) :
    (mepc_advance c regs).mepc = (regs.mepc + 4) % 2 ^ c.xlen := by
  have h := to_ulong_cast c.xlen ((regs.mepc : Int) + 4)
  show to_ulong c.xlen ((regs.mepc : Int) + 4) = _
  have h2 : (((regs.mepc + 4) % 2 ^ c.xlen : Nat) : Int) = ((regs.mepc : Int) + 4) % 2 ^ c.xlen := by
    push_cast
    rfl
  exact_mod_cast h.trans h2.symm

/-- Subtracting four after adding four gives back an in-range program counter. -/
theorem mepc_restore_advance (c : EbiConfig) (regs : sbi_trap_regs)
    (h : regs.mepc < 2 ^ c.xlen) : mepc_restore c (mepc_advance c regs) = regs := by
  have key : to_ulong c.xlen (((to_ulong c.xlen ((regs.mepc : Int) + 4) : Nat) : Int) - 4)
      = regs.mepc := by
    have h1 := to_ulong_cast c.xlen ((regs.mepc : Int) + 4)
    have h2 : (((regs.mepc : Int) + 4) % 2 ^ c.xlen - 4) % 2 ^ c.xlen
        = ((regs.mepc : Int) + 4 - 4) % 2 ^ c.xlen :=
      (Int.mod_modEq _ _).sub_right 4
    have h3 : to_ulong c.xlen (((regs.mepc : Int) + 4) % 2 ^ c.xlen - 4)
        = to_ulong c.xlen (regs.mepc : Int) := by
      unfold to_ulong
      rw [h2]
      simp
    rw [h1, h3]
    exact to_ulong_of_lt _ _ h
  cases regs
  simp only [mepc_restore, mepc_advance] at key ⊢
  simp only [key]

/-- The restore step touches no field but `mepc`. -/
theorem mepc_restore_fields (c : EbiConfig) (regs : sbi_trap_regs) :
    (mepc_restore c regs).a0 = regs.a0 ∧ (mepc_restore c regs).a1 = regs.a1 ∧
    (mepc_restore c regs).a2 = regs.a2 ∧ (mepc_restore c regs).a6 = regs.a6 ∧
    (mepc_restore c regs).rest = regs.rest :=
  ⟨rfl, rfl, rfl, rfl, rfl⟩

/-- A value in the range of `int` is not changed by the conversion to `int`. -/
theorem to_int_of_range (v : Int) (h1 : -(2 ^ 31) ≤ v) (h2 : v < 2 ^ 31) : to_int v = v := by
  unfold to_int
  omega

/-- The result encoding for a value that fits `int`: a non-negative value is
written to `a0` with return code `0`, a negative one is returned unchanged and
`a0` is left alone. -/
theorem ebi_finish_faithful {W : Type} (c : EbiConfig) (ret : Int) (regs : sbi_trap_regs)
    (g : EbiGlobals W) (hx : 31 ≤ c.xlen) (h2 : ret < 2 ^ 31) :
    (0 ≤ ret → ebi_finish c ret regs g
        = .returned 0 { mepc_restore c regs with a0 := ret.toNat } g) ∧
    (ret < 0 → ebi_finish c ret regs g = .returned ret (mepc_restore c regs) g) := by
  constructor
  · intro h0
    have hlt : ret.toNat < 2 ^ c.xlen := by
      have : (2 : Nat) ^ 31 ≤ 2 ^ c.xlen := Nat.pow_le_pow_right (by norm_num) hx
      have : ret.toNat < 2 ^ 31 := by omega
      omega
    have hv : to_ulong c.xlen ret = ret.toNat := by
      have := to_ulong_of_lt c.xlen ret.toNat hlt
      rwa [Int.toNat_of_nonneg h0] at this
    simp [ebi_finish, h0, hv]
  · intro h0
    simp [ebi_finish, not_le.mpr h0]

/-- The tail after the `switch` leaves the globals alone. -/
theorem ebi_after_switch_globals {W : Type} (c : EbiConfig) (o : EbiOutcome W) :
    (ebi_after_switch c o).globals = o.globals := by
  cases o with
  | returned ret regs g =>
      simp only [ebi_after_switch, ebi_finish]
      split <;> rfl
  | halted regs g => rfl

/-- The tail after the `switch` halts exactly when the `switch` did. -/
theorem ebi_after_switch_halted {W : Type} (c : EbiConfig) (o : EbiOutcome W) :
    (ebi_after_switch c o).is_halted = o.is_halted := by
  cases o with
  | returned ret regs g =>
      simp only [ebi_after_switch, ebi_finish]
      split <;> rfl
  | halted regs g => rfl

/-- The program counter after the tail: restored when the operation came back,
untouched when the hart stopped. -/
theorem ebi_after_switch_mepc {W : Type} (c : EbiConfig) (o : EbiOutcome W) :
    (ebi_after_switch c o).frame.mepc
      = if o.is_halted then o.frame.mepc else (mepc_restore c o.frame).mepc := by
  cases o with
  | returned ret regs g =>
      simp only [ebi_after_switch, ebi_finish]
      split <;> rfl
  | halted regs g => rfl

/-- The `switch` stops the hart exactly for "get timer" outside the host. -/
theorem ebi_switch_halted {W : Type} (c : EbiConfig) (env : EbiEnv W) (eid funcid : Nat)
    (regs : sbi_trap_regs) (g : EbiGlobals W) :
    (ebi_switch c env eid funcid regs g).is_halted = true ↔
      (c.decode funcid = some .EVAL_GET_TIMER ∧ eid ≠ c.HOST_EID) := by
  unfold ebi_switch
  split <;> rename_i hd <;>
    simp [hd, sbi_panic, run_handler, run_value, run_value_u64, run_void, EbiOutcome.is_halted]
  · by_cases h : eid = c.HOST_EID <;> simp [h, EbiOutcome.is_halted]
  · by_cases h : regs.a0 = 0 ∨ c.NUM_ENCLAVE < regs.a0 <;> simp [h, EbiOutcome.is_halted]

/-- The `switch` leaves `mepc` alone when no handler rewrites it. -/
theorem ebi_switch_mepc {W : Type} (c : EbiConfig) (env : EbiEnv W) (eid funcid : Nat)
    (regs : sbi_trap_regs) (g : EbiGlobals W) (hp : env.preserves_mepc) :
    (ebi_switch c env eid funcid regs g).frame.mepc = regs.mepc := by
  have h1 := fun r w => (hp r w).1
  have h2 := fun r w => (hp r w).2.1
  have h3 := fun r w => (hp r w).2.2.1
  have h4 := fun r w => (hp r w).2.2.2.1
  have h5 := fun r w => (hp r w).2.2.2.2.1
  have h6 := fun r w => (hp r w).2.2.2.2.2.1
  have h7 := fun r w => (hp r w).2.2.2.2.2.2.1
  have h8 := fun r w => (hp r w).2.2.2.2.2.2.2.1
  have h9 := fun r w => (hp r w).2.2.2.2.2.2.2.2.1
  have h10 := fun r w => (hp r w).2.2.2.2.2.2.2.2.2.1
  have h11 := fun r w => (hp r w).2.2.2.2.2.2.2.2.2.2.1
  have h12 := fun r w => (hp r w).2.2.2.2.2.2.2.2.2.2.2
  unfold ebi_switch
  split <;>
    simp [sbi_panic, run_handler, run_value, run_value_u64, run_void, EbiOutcome.frame, *]
  · by_cases h : eid = c.HOST_EID <;> simp [h, EbiOutcome.frame]
  · by_cases h : regs.a0 = 0 ∨ c.NUM_ENCLAVE < regs.a0 <;> simp [h, EbiOutcome.frame]

/-- The `switch` never writes the activation flag. -/
theorem ebi_switch_flag {W : Type} (c : EbiConfig) (env : EbiEnv W) (eid funcid : Nat)
    (regs : sbi_trap_regs) (g : EbiGlobals W) :
    (ebi_switch c env eid funcid regs g).globals.ebi_called = g.ebi_called := by
  unfold ebi_switch
  split <;>
    simp [sbi_panic, run_handler, run_value, run_value_u64, run_void, EbiOutcome.globals, EbiGlobals.emit]
  · by_cases h : eid = c.HOST_EID <;> simp [h, EbiOutcome.globals]
  · by_cases h : regs.a0 = 0 ∨ c.NUM_ENCLAVE < regs.a0 <;> simp [h, EbiOutcome.globals]

/-- The `switch` only appends to the trace. -/
theorem ebi_switch_trace_prefix {W : Type} (c : EbiConfig) (env : EbiEnv W) (eid funcid : Nat)
    (regs : sbi_trap_regs) (g : EbiGlobals W) :
    g.trace <+: (ebi_switch c env eid funcid regs g).globals.trace := by
  unfold ebi_switch
  split <;>
    simp [sbi_panic, run_handler, run_value, run_value_u64, run_void, EbiOutcome.globals, EbiGlobals.emit,
      List.append_assoc]
  · by_cases h : eid = c.HOST_EID <;> simp [h, EbiOutcome.globals]
  · by_cases h : regs.a0 = 0 ∨ c.NUM_ENCLAVE < regs.a0 <;> simp [h, EbiOutcome.globals]

/-- The `switch` sends no post-boot broadcast. -/
theorem ebi_switch_no_postboot {W : Type} (c : EbiConfig) (env : EbiEnv W) (eid funcid : Nat)
    (regs : sbi_trap_regs) (g : EbiGlobals W) :
    (ebi_switch c env eid funcid regs g).globals.trace.filter EbiEvent.is_postboot
      = g.trace.filter EbiEvent.is_postboot := by
  unfold ebi_switch
  split <;>
    simp [sbi_panic, run_handler, run_value, run_value_u64, run_void, EbiOutcome.globals, EbiGlobals.emit,
      List.filter_append, EbiEvent.is_postboot]
  · by_cases h : eid = c.HOST_EID <;>
      simp [h, EbiOutcome.globals, List.filter_append, EbiEvent.is_postboot]
  · by_cases h : regs.a0 = 0 ∨ c.NUM_ENCLAVE < regs.a0 <;>
      simp [h, EbiOutcome.globals, List.filter_append, EbiEvent.is_postboot]

/-- The `switch` never stores to the activation flag. -/
theorem ebi_switch_no_store {W : Type} (c : EbiConfig) (env : EbiEnv W) (eid funcid : Nat)
    (regs : sbi_trap_regs) (g : EbiGlobals W) :
    (ebi_switch c env eid funcid regs g).globals.trace.filter EbiEvent.is_store
      = g.trace.filter EbiEvent.is_store := by
  unfold ebi_switch
  split <;>
    simp [sbi_panic, run_handler, run_value, run_value_u64, run_void, EbiOutcome.globals, EbiGlobals.emit,
      List.filter_append, EbiEvent.is_store]
  · by_cases h : eid = c.HOST_EID <;>
      simp [h, EbiOutcome.globals, List.filter_append, EbiEvent.is_store]
  · by_cases h : regs.a0 = 0 ∨ c.NUM_ENCLAVE < regs.a0 <;>
      simp [h, EbiOutcome.globals, List.filter_append, EbiEvent.is_store]

/-- The activation hook on a set flag does nothing. -/
theorem ebi_activate_called {W : Type} (env : EbiEnv W) (g : EbiGlobals W)
    (h : g.ebi_called = true) : ebi_activate env g = g := by
  simp [ebi_activate, h]

/-- The activation hook on an unset flag broadcasts, then stores the flag. -/
theorem ebi_activate_fresh {W : Type} (env : EbiEnv W) (g : EbiGlobals W)
    (h : g.ebi_called = false) :
    ebi_activate env g =
      { g with
        ebi_called := true
        trace := g.trace ++ [.ipi_postboot_init (-1), .store_ebi_called]
        world := env.ipi_send_ebi_postboot_init (-1) g.world } := by
  simp [ebi_activate, h, EbiGlobals.emit]

/-- After the activation hook the flag is set. -/
theorem ebi_activate_flag {W : Type} (env : EbiEnv W) (g : EbiGlobals W) :
    (ebi_activate env g).ebi_called = true := by
  cases h : g.ebi_called
  · rw [ebi_activate_fresh env g h]
  · rw [ebi_activate_called env g h]; exact h

/-- The globals after a dispatcher call are those left by the `switch`. -/
theorem sbi_ebi_handler_globals {W : Type} (c : EbiConfig) (env : EbiEnv W)
    (regs : sbi_trap_regs) (g : EbiGlobals W) :
    (sbi_ebi_handler c env regs g).globals
      = (ebi_switch c env (ebi_entry_eid env g) regs.a6 (mepc_advance c regs)
          (ebi_activate env g)).globals :=
  ebi_after_switch_globals c _

/-- After any dispatcher call the activation flag is set. -/
theorem sbi_ebi_handler_flag {W : Type} (c : EbiConfig) (env : EbiEnv W)
    (regs : sbi_trap_regs) (g : EbiGlobals W) :
    (sbi_ebi_handler c env regs g).globals.ebi_called = true := by
  rw [sbi_ebi_handler_globals, ebi_switch_flag]
  exact ebi_activate_flag env g

/-- A dispatcher call on a set flag adds no broadcast and no store of the flag. -/
theorem sbi_ebi_handler_called_quiet {W : Type} (c : EbiConfig) (env : EbiEnv W)
    (regs : sbi_trap_regs) (g : EbiGlobals W) (h : g.ebi_called = true) :
    (sbi_ebi_handler c env regs g).globals.trace.filter EbiEvent.is_postboot
        = g.trace.filter EbiEvent.is_postboot ∧
    (sbi_ebi_handler c env regs g).globals.trace.filter EbiEvent.is_store
        = g.trace.filter EbiEvent.is_store := by
  rw [sbi_ebi_handler_globals, ebi_switch_no_postboot, ebi_switch_no_store,
    ebi_activate_called env g h]
  exact ⟨rfl, rfl⟩

/-! ### Result encoding -/

/-- C1, evaluated at the failing inputs: with the selector "get enclave id" and
the current enclave id `2 ^ 31` (a non-negative 64-bit value) the dispatcher
returns the failure code `-2147483648` and leaves `a0` at its old content `7`;
with the enclave id `2 ^ 32 + 5` it reports success but writes `5` to `a0`.
The value is narrowed to the 32-bit `int ret` before it is encoded. -/
theorem ebi_get_eid_narrowed :
    demo_config.decode (demo_regs 22 7).a6 = some Selector.GET_EID ∧
    demo_env.get_current_eid (demo_globals true (2 ^ 31)).world = 2147483648 ∧
    (sbi_ebi_handler demo_config demo_env (demo_regs 22 7)
        (demo_globals true (2 ^ 31))).ret? = some (-2147483648) ∧
    (sbi_ebi_handler demo_config demo_env (demo_regs 22 7)
        (demo_globals true (2 ^ 31))).frame.a0 = 7 ∧
    demo_env.get_current_eid (demo_globals true (2 ^ 32 + 5)).world = 4294967301 ∧
    (sbi_ebi_handler demo_config demo_env (demo_regs 22 7)
        (demo_globals true (2 ^ 32 + 5))).ret? = some 0 ∧
    (sbi_ebi_handler demo_config demo_env (demo_regs 22 7)
        (demo_globals true (2 ^ 32 + 5))).frame.a0 = 5 := by
  decide

/-! ### Program counter -/

/-- C2 as stated fails: a call entered at call site `0x1000` comes back with
`mepc = 0x1000`, not `0x1004`. -/
theorem ebi_mepc_plus_four_refuted :
    (demo_regs 24 7).mepc = 4096 ∧
    demo_env.preserves_mepc ∧
    (sbi_ebi_handler demo_config demo_env (demo_regs 24 7)
        (demo_globals true 0)).is_halted = false ∧
    (sbi_ebi_handler demo_config demo_env (demo_regs 24 7)
        (demo_globals true 0)).frame.mepc = 4096 ∧
    (sbi_ebi_handler demo_config demo_env (demo_regs 24 7)
        (demo_globals true 0)).frame.mepc ≠ (4096 + 4) % 2 ^ demo_config.xlen := by
  refine ⟨by decide, ?_, by decide, by decide, by decide⟩
  intro r w
  exact ⟨rfl, rfl, rfl, rfl, rfl, rfl, rfl, rfl, rfl, rfl, rfl, rfl⟩

/-- C2, amended: for every selector, with collaborators that do not rewrite
`mepc` and a call-site address `p = regs.mepc` in range, the selected operation
runs on a frame whose `mepc` is `p + 4` modulo `2 ^ xlen`: every handler that
receives the trap frame is applied to the caller's frame with `mepc` advanced
by four and nothing else changed, and the value and frame it gives back are
what the tail of the dispatcher encodes.  The hart stops inside the operation
exactly for "get timer" outside the host, and then `mepc` stays `p + 4`; in
every other case the handler comes back and the final `mepc` is `p` again, the
adjustment being reverted. -/
theorem ebi_mepc_reverted {W : Type} (c : EbiConfig) (env : EbiEnv W)
    (regs : sbi_trap_regs) (g : EbiGlobals W)
    (hx : regs.mepc < 2 ^ c.xlen) (hp : env.preserves_mepc) :
    sbi_ebi_handler c env regs g
      = ebi_after_switch c (ebi_switch c env (ebi_entry_eid env g) regs.a6
          (mepc_advance c regs) (ebi_activate env g)) ∧
    (mepc_advance c regs).mepc = (regs.mepc + 4) % 2 ^ c.xlen ∧
    ((sbi_ebi_handler c env regs g).is_halted = true ↔
      (c.decode regs.a6 = some .EVAL_GET_TIMER ∧ ebi_entry_eid env g ≠ c.HOST_EID)) ∧
    ((sbi_ebi_handler c env regs g).is_halted = true →
      (sbi_ebi_handler c env regs g).frame.mepc = (regs.mepc + 4) % 2 ^ c.xlen) ∧
    ((sbi_ebi_handler c env regs g).is_halted = false →
      (sbi_ebi_handler c env regs g).frame.mepc = regs.mepc) ∧
    (c.decode regs.a6 = some .CREATE →
      ∀ r, r = env.ebi_create_handler (mepc_advance c regs) (ebi_activate env g).world →
        sbi_ebi_handler c env regs g
          = ebi_finish c (to_int r.1) r.2.1 (sbi_ebi_handler c env regs g).globals ∧
        (sbi_ebi_handler c env regs g).globals.world = r.2.2) ∧
    (c.decode regs.a6 = some .ENTER →
      ∀ r, r = env.ebi_enter_handler (mepc_advance c regs) (ebi_activate env g).world →
        sbi_ebi_handler c env regs g
          = ebi_finish c (to_int r.1) r.2.1 (sbi_ebi_handler c env regs g).globals ∧
        (sbi_ebi_handler c env regs g).globals.world = r.2.2) ∧
    (c.decode regs.a6 = some .EXIT →
      ∀ r, r = env.ebi_exit_handler (mepc_advance c regs) (ebi_activate env g).world →
        sbi_ebi_handler c env regs g
          = ebi_finish c (to_int r.1) r.2.1 (sbi_ebi_handler c env regs g).globals ∧
        (sbi_ebi_handler c env regs g).globals.world = r.2.2) ∧
    (c.decode regs.a6 = some .EXIT_THREAD →
      ∀ r, r = env.ebi_exit_thread_handler (mepc_advance c regs) (ebi_activate env g).world →
        sbi_ebi_handler c env regs g
          = ebi_finish c (to_int r.1) r.2.1 (sbi_ebi_handler c env regs g).globals ∧
        (sbi_ebi_handler c env regs g).globals.world = r.2.2) ∧
    (c.decode regs.a6 = some .SUSPEND →
      ∀ r, r = env.ebi_suspend_handler (mepc_advance c regs) (ebi_activate env g).world →
        sbi_ebi_handler c env regs g
          = ebi_finish c (to_int r.1) r.2.1 (sbi_ebi_handler c env regs g).globals ∧
        (sbi_ebi_handler c env regs g).globals.world = r.2.2) ∧
    (c.decode regs.a6 = some .RESUME →
      ∀ r, r = env.ebi_resume_handler (mepc_advance c regs) (ebi_activate env g).world →
        sbi_ebi_handler c env regs g
          = ebi_finish c (to_int r.1) r.2.1 (sbi_ebi_handler c env regs g).globals ∧
        (sbi_ebi_handler c env regs g).globals.world = r.2.2) ∧
    (c.decode regs.a6 = some .MEM_ALLOC →
      ∀ r, r = env.ebi_mem_alloc_handler (mepc_advance c regs) (env.start_timer "mem_alloc" (ebi_entry_eid env g) (ebi_activate env g).world) →
        sbi_ebi_handler c env regs g
          = ebi_finish c (to_int r.1) r.2.1 (sbi_ebi_handler c env regs g).globals ∧
        (sbi_ebi_handler c env regs g).globals.world = env.stop_timer "mem_alloc" (ebi_entry_eid env g) r.2.2) ∧
    (c.decode regs.a6 = some .BLOCK_THREAD →
      ∀ r, r = env.ebi_block_thread_handler (mepc_advance c regs) (ebi_activate env g).world →
        sbi_ebi_handler c env regs g
          = ebi_finish c (to_int r.1) r.2.1 (sbi_ebi_handler c env regs g).globals ∧
        (sbi_ebi_handler c env regs g).globals.world = r.2.2) ∧
    (c.decode regs.a6 = some .UNBLOCK_THREADS →
      ∀ r, r = env.ebi_unblock_threads_handler (mepc_advance c regs) (ebi_activate env g).world →
        sbi_ebi_handler c env regs g
          = ebi_finish c (to_int r.1) r.2.1 (sbi_ebi_handler c env regs g).globals ∧
        (sbi_ebi_handler c env regs g).globals.world = r.2.2) ∧
    (c.decode regs.a6 = some .LISTEN_MESSAGE →
      ∀ r, r = env.ebi_listen_message_handler (mepc_advance c regs) (ebi_activate env g).world →
        sbi_ebi_handler c env regs g
          = ebi_finish c (to_int r.1) r.2.1 (sbi_ebi_handler c env regs g).globals ∧
        (sbi_ebi_handler c env regs g).globals.world = r.2.2) ∧
    (c.decode regs.a6 = some .SEND_MESSAGE →
      ∀ r, r = env.ebi_send_message_handler (mepc_advance c regs) (ebi_activate env g).world →
        sbi_ebi_handler c env regs g
          = ebi_finish c (to_int r.1) r.2.1 (sbi_ebi_handler c env regs g).globals ∧
        (sbi_ebi_handler c env regs g).globals.world = r.2.2) ∧
    (c.decode regs.a6 = some .STOP_LISTEN →
      ∀ r, r = env.ebi_stop_listen_handler (mepc_advance c regs) (ebi_activate env g).world →
        sbi_ebi_handler c env regs g
          = ebi_finish c (to_int r.1) r.2.1 (sbi_ebi_handler c env regs g).globals ∧
        (sbi_ebi_handler c env regs g).globals.world = r.2.2) := by
  have hm := ebi_switch_mepc c env (ebi_entry_eid env g) regs.a6 (mepc_advance c regs)
    (ebi_activate env g) hp
  have hh : (sbi_ebi_handler c env regs g).is_halted
      = (ebi_switch c env (ebi_entry_eid env g) regs.a6 (mepc_advance c regs)
          (ebi_activate env g)).is_halted := ebi_after_switch_halted c _
  have hf : (sbi_ebi_handler c env regs g).frame.mepc = _ := ebi_after_switch_mepc c _
  refine ⟨rfl, mepc_advance_mepc c regs, ?h1, ?h2, ?h3,
    ?_, ?_, ?_, ?_, ?_, ?_, ?_, ?_, ?_, ?_, ?_, ?_⟩
  case h1 =>
    rw [hh]
    exact ebi_switch_halted c env _ _ _ _
  case h2 =>
    intro h
    rw [hh] at h
    rw [hf, h, if_pos rfl, hm]
    exact mepc_advance_mepc c regs
  case h3 =>
    intro h
    rw [hh] at h
    rw [hf, h]
    have hr := congrArg sbi_trap_regs.mepc (mepc_restore_advance c regs hx)
    simp only [mepc_restore] at hr ⊢
    simp only [Bool.false_eq_true, if_false, hm]
    exact hr
  all_goals
    intro hd r hr
    subst hr
    unfold sbi_ebi_handler
    simp only [ebi_switch, hd, run_handler, ebi_after_switch, ebi_finish, EbiGlobals.emit]
    split <;> simp_all [EbiOutcome.globals]

/-- C2, amended, at a concrete call: "get blocked threads" at call site `0x1000`. -/
theorem ebi_mepc_reverted_witness :
    (demo_regs 25 7).mepc < 2 ^ demo_config.xlen ∧
    ((sbi_ebi_handler demo_config demo_env (demo_regs 25 7)
        (demo_globals false 3)).is_halted = false →
      (sbi_ebi_handler demo_config demo_env (demo_regs 25 7)
        (demo_globals false 3)).frame.mepc = (demo_regs 25 7).mepc) :=
  ⟨by decide,
   (ebi_mepc_reverted demo_config demo_env (demo_regs 25 7) (demo_globals false 3)
      (by decide)
      (fun _ _ => ⟨rfl, rfl, rfl, rfl, rfl, rfl, rfl, rfl, rfl, rfl, rfl, rfl⟩)).2.2.2.2.1⟩

/-! ### Unknown selectors -/

/-- C3 as stated fails: on the very first dispatcher call an unknown selector
still sets the activation flag and sends the post-boot broadcast. -/
theorem ebi_unknown_first_call_mutates :
    demo_config.decode (demo_regs 0 7).a6 = none ∧
    (demo_globals false 0).ebi_called = false ∧
    (sbi_ebi_handler demo_config demo_env (demo_regs 0 7)
        (demo_globals false 0)).ret? = some demo_config.SBI_ENOTSUPP ∧
    (sbi_ebi_handler demo_config demo_env (demo_regs 0 7)
        (demo_globals false 0)).globals.ebi_called ≠ (demo_globals false 0).ebi_called ∧
    (sbi_ebi_handler demo_config demo_env (demo_regs 0 7)
        (demo_globals false 0)).globals.trace.filter EbiEvent.is_ipi
      ≠ (demo_globals false 0).trace.filter EbiEvent.is_ipi := by
  decide

/-- C3, amended: for every selector outside the catalogue the handler returns
`SBI_ENOTSUPP` and gives back the call frame unchanged; the globals are those
left by the activation hook plus the log line.  When the activation flag is
already set the hook changes nothing, so only the log line is added; when the
flag is still unset the hook additionally sends the post-boot broadcast and
sets the flag, and nothing else (the runtime configuration included) changes. -/
theorem ebi_unknown_selector {W : Type} (c : EbiConfig) (env : EbiEnv W)
    (regs : sbi_trap_regs) (g : EbiGlobals W)
    (hdec : c.decode regs.a6 = none) (hneg : c.SBI_ENOTSUPP < 0)
    (hx : regs.mepc < 2 ^ c.xlen) :
    sbi_ebi_handler c env regs g
      = .returned c.SBI_ENOTSUPP regs
          ((ebi_activate env g).emit (.error "Unknown extension ID: %lu\n" regs.a6)) ∧
    (g.ebi_called = true → ebi_activate env g = g) ∧
    (g.ebi_called = false →
      ebi_activate env g =
        { g with
          ebi_called := true
          trace := g.trace ++ [.ipi_postboot_init (-1), .store_ebi_called]
          world := env.ipi_send_ebi_postboot_init (-1) g.world }) := by
  refine ⟨?_, ebi_activate_called env g, ebi_activate_fresh env g⟩
  have hs : ebi_switch c env (ebi_entry_eid env g) regs.a6 (mepc_advance c regs)
      (ebi_activate env g)
      = .returned c.SBI_ENOTSUPP (mepc_advance c regs)
          ((ebi_activate env g).emit (.error "Unknown extension ID: %lu\n" regs.a6)) := by
    unfold ebi_switch
    rw [hdec]
  unfold sbi_ebi_handler
  simp only [hs, ebi_after_switch, ebi_finish, not_le.mpr hneg, if_false,
    mepc_restore_advance c regs hx]

/-- C3, amended, at a concrete call with the activation flag already set. -/
theorem ebi_unknown_selector_witness :
    demo_config.decode (demo_regs 0 7).a6 = none ∧ demo_config.SBI_ENOTSUPP < 0 ∧
    (demo_regs 0 7).mepc < 2 ^ demo_config.xlen ∧
    sbi_ebi_handler demo_config demo_env (demo_regs 0 7) (demo_globals true 0)
      = .returned demo_config.SBI_ENOTSUPP (demo_regs 0 7)
          ((ebi_activate demo_env (demo_globals true 0)).emit
            (.error "Unknown extension ID: %lu\n" (demo_regs 0 7).a6)) :=
  ⟨by decide, by decide, by decide,
   (ebi_unknown_selector demo_config demo_env (demo_regs 0 7) (demo_globals true 0)
      (by decide) (by decide) (by decide)).1⟩

/-- The activation hook invokes no collaborator that is logged as a call. -/
theorem ebi_activate_no_call {W : Type} (env : EbiEnv W) (g : EbiGlobals W) (fn : String) :
    (ebi_activate env g).trace.filter (EbiEvent.is_call fn)
      = g.trace.filter (EbiEvent.is_call fn) := by
  cases h : g.ebi_called
  · rw [ebi_activate_fresh env g h]
    simp [List.filter_append, EbiEvent.is_call]
  · rw [ebi_activate_called env g h]

/-! ### Enclave status lookup -/

/-- The routing of the "get enclave status" selector: an index `a0 = 0` or
`a0 > NUM_ENCLAVE` yields success with the value `0` in `a0` and no invocation
of `get_enclave_status`; an index `1 ≤ a0 ≤ NUM_ENCLAVE` invokes
`get_enclave_status` exactly once, with index `a0`, and the tail of the
dispatcher receives its result narrowed to `int`. -/
theorem ebi_get_status {W : Type} (c : EbiConfig) (env : EbiEnv W)
    (regs : sbi_trap_regs) (g : EbiGlobals W)
    (hdec : c.decode regs.a6 = some .GET_STATUS) :
    ((regs.a0 = 0 ∨ regs.a0 > c.NUM_ENCLAVE) →
      sbi_ebi_handler c env regs g
        = .returned 0 { mepc_restore c (mepc_advance c regs) with a0 := 0 }
            (ebi_activate env g) ∧
      (sbi_ebi_handler c env regs g).globals.trace.filter
          (EbiEvent.is_call "get_enclave_status")
        = g.trace.filter (EbiEvent.is_call "get_enclave_status")) ∧
    ((1 ≤ regs.a0 ∧ regs.a0 ≤ c.NUM_ENCLAVE) →
      sbi_ebi_handler c env regs g
        = ebi_finish c
            (to_int (to_u64 (env.get_enclave_status regs.a0 (ebi_activate env g).world).1))
            (mepc_advance c regs)
            { ((ebi_activate env g).emit (.call "get_enclave_status" [regs.a0])) with
              world := (env.get_enclave_status regs.a0 (ebi_activate env g).world).2 } ∧
      (sbi_ebi_handler c env regs g).globals.trace.filter
          (EbiEvent.is_call "get_enclave_status")
        = g.trace.filter (EbiEvent.is_call "get_enclave_status")
            ++ [.call "get_enclave_status" [regs.a0]]) := by
  have ha0 : (mepc_advance c regs).a0 = regs.a0 := rfl
  constructor
  · intro h
    have hs : ebi_switch c env (ebi_entry_eid env g) regs.a6 (mepc_advance c regs)
        (ebi_activate env g) = .returned 0 (mepc_advance c regs) (ebi_activate env g) := by
      unfold ebi_switch
      rw [hdec]
      simp only [ha0, if_pos h]
    have hh : sbi_ebi_handler c env regs g
        = .returned 0 { mepc_restore c (mepc_advance c regs) with a0 := 0 }
            (ebi_activate env g) := by
      unfold sbi_ebi_handler
      simp [hs, ebi_after_switch, ebi_finish, to_ulong]
    refine ⟨hh, ?_⟩
    rw [hh]
    exact ebi_activate_no_call env g _
  · intro h
    have hn : ¬ (regs.a0 = 0 ∨ regs.a0 > c.NUM_ENCLAVE) := by omega
    have hs : ebi_switch c env (ebi_entry_eid env g) regs.a6 (mepc_advance c regs)
        (ebi_activate env g)
        = .returned
            (to_int (to_u64 (env.get_enclave_status regs.a0 (ebi_activate env g).world).1))
            (mepc_advance c regs)
            { ((ebi_activate env g).emit (.call "get_enclave_status" [regs.a0])) with
              world := (env.get_enclave_status regs.a0 (ebi_activate env g).world).2 } := by
      unfold ebi_switch
      rw [hdec]
      simp only [ha0, if_neg hn, run_value_u64]
    refine ⟨?_, ?_⟩
    · unfold sbi_ebi_handler
      simp only [hs, ebi_after_switch]
    rw [sbi_ebi_handler_globals, hs]
    simp only [EbiOutcome.globals, EbiGlobals.emit, List.filter_append,
      ebi_activate_no_call env g]
    simp [EbiEvent.is_call]

/-- The routing of "get enclave status" at a concrete call: index
`9 > NUM_ENCLAVE = 8` gives `0` without a lookup. -/
theorem ebi_get_status_witness :
    demo_config.decode (demo_regs 29 9).a6 = some Selector.GET_STATUS ∧
    ((demo_regs 29 9).a0 = 0 ∨ (demo_regs 29 9).a0 > demo_config.NUM_ENCLAVE) ∧
    (sbi_ebi_handler demo_config demo_env (demo_regs 29 9)
        (demo_globals false 0)).globals.trace.filter (EbiEvent.is_call "get_enclave_status")
      = (demo_globals false 0).trace.filter (EbiEvent.is_call "get_enclave_status") :=
  ⟨by decide, by decide,
   ((ebi_get_status demo_config demo_env (demo_regs 29 9) (demo_globals false 0)
      (by decide)).1 (by decide)).2⟩

/-! ### Host-only timer query -/

/-- The routing of the "get timer" selector: when the enclave id read on entry
differs from `HOST_EID` the hart stops inside `sbi_panic` (the handler does not
come back) and `get_timer` is not invoked; when it equals `HOST_EID` the
handler does not stop, invokes `get_timer(a0, a1)` once, and the tail of the
dispatcher receives its result narrowed to `int`. -/
theorem ebi_get_timer {W : Type} (c : EbiConfig) (env : EbiEnv W)
    (regs : sbi_trap_regs) (g : EbiGlobals W)
    (hdec : c.decode regs.a6 = some .EVAL_GET_TIMER) :
    (ebi_entry_eid env g ≠ c.HOST_EID →
      sbi_ebi_handler c env regs g
        = sbi_panic "Cannot get timer in enclaves\n" (mepc_advance c regs)
            (ebi_activate env g) ∧
      (sbi_ebi_handler c env regs g).ret? = none ∧
      (sbi_ebi_handler c env regs g).globals.trace.filter (EbiEvent.is_call "get_timer")
        = g.trace.filter (EbiEvent.is_call "get_timer")) ∧
    (ebi_entry_eid env g = c.HOST_EID →
      sbi_ebi_handler c env regs g
        = ebi_finish c
            (to_int (env.get_timer regs.a0 regs.a1 (ebi_activate env g).world).1)
            (mepc_advance c regs)
            { ((ebi_activate env g).emit (.call "get_timer" [regs.a0, regs.a1])) with
              world := (env.get_timer regs.a0 regs.a1 (ebi_activate env g).world).2 } ∧
      (sbi_ebi_handler c env regs g).is_halted = false ∧
      (sbi_ebi_handler c env regs g).globals.trace.filter (EbiEvent.is_call "get_timer")
        = g.trace.filter (EbiEvent.is_call "get_timer")
            ++ [.call "get_timer" [regs.a0, regs.a1]]) := by
  have ha0 : (mepc_advance c regs).a0 = regs.a0 := rfl
  have ha1 : (mepc_advance c regs).a1 = regs.a1 := rfl
  constructor
  · intro h
    have hs : ebi_switch c env (ebi_entry_eid env g) regs.a6 (mepc_advance c regs)
        (ebi_activate env g)
        = .halted (mepc_advance c regs)
            ((ebi_activate env g).emit (.panic "Cannot get timer in enclaves\n")) := by
      unfold ebi_switch
      rw [hdec]
      simp only [if_pos h, sbi_panic]
    have hh : sbi_ebi_handler c env regs g
        = .halted (mepc_advance c regs)
            ((ebi_activate env g).emit (.panic "Cannot get timer in enclaves\n")) := by
      unfold sbi_ebi_handler
      simp only [hs, ebi_after_switch]
    refine ⟨hh, ?_, ?_⟩
    · rw [hh]; rfl
    · rw [hh]
      simp only [EbiOutcome.globals, EbiGlobals.emit, List.filter_append,
        ebi_activate_no_call env g]
      simp [EbiEvent.is_call]
  · intro h
    have hs : ebi_switch c env (ebi_entry_eid env g) regs.a6 (mepc_advance c regs)
        (ebi_activate env g)
        = .returned
            (to_int (env.get_timer regs.a0 regs.a1 (ebi_activate env g).world).1)
            (mepc_advance c regs)
            { ((ebi_activate env g).emit (.call "get_timer" [regs.a0, regs.a1])) with
              world := (env.get_timer regs.a0 regs.a1 (ebi_activate env g).world).2 } := by
      unfold ebi_switch
      rw [hdec]
      simp only [ha0, ha1, h, ne_eq, not_true_eq_false, if_false, run_value]
    refine ⟨?_, ?_, ?_⟩
    · unfold sbi_ebi_handler
      simp only [hs, ebi_after_switch]
    · have := ebi_after_switch_halted c (ebi_switch c env (ebi_entry_eid env g) regs.a6
        (mepc_advance c regs) (ebi_activate env g))
      unfold sbi_ebi_handler
      rw [this, hs]
      rfl
    · rw [sbi_ebi_handler_globals, hs]
      simp only [EbiOutcome.globals, EbiGlobals.emit, List.filter_append,
        ebi_activate_no_call env g]
      simp [EbiEvent.is_call]

/-- The routing of "get timer" at a concrete call issued while enclave 5 is
current. -/
theorem ebi_get_timer_witness :
    demo_config.decode (demo_regs 19 9).a6 = some Selector.EVAL_GET_TIMER ∧
    ebi_entry_eid demo_env (demo_globals false 5) ≠ demo_config.HOST_EID ∧
    (sbi_ebi_handler demo_config demo_env (demo_regs 19 9) (demo_globals false 5)).ret?
      = none :=
  ⟨by decide, by decide,
   ((ebi_get_timer demo_config demo_env (demo_regs 19 9) (demo_globals false 5)
      (by decide)).1 (by decide)).2.1⟩

/-- C7, evaluated at the failing input: with the selector "get enclave status",
the in-range index `3` and a lookup result of `2 ^ 31`, the lookup is invoked
once but its result is not what is encoded: `int ret` receives
`-2147483648`, which the handler returns as a failure code while `a0` keeps the
index `3`.  A result that fits `int` is encoded as it is (`107` for index `7`). -/
theorem ebi_get_status_narrowed :
    demo_config.decode (demo_regs 29 3).a6 = some Selector.GET_STATUS ∧
    1 ≤ (demo_regs 29 3).a0 ∧ (demo_regs 29 3).a0 ≤ demo_config.NUM_ENCLAVE ∧
    ((demo_env_status (2 ^ 31)).get_enclave_status (demo_regs 29 3).a0
        (demo_globals true 0).world).1 = 2147483648 ∧
    (sbi_ebi_handler demo_config (demo_env_status (2 ^ 31)) (demo_regs 29 3)
        (demo_globals true 0)).globals.trace = [.call "get_enclave_status" [3]] ∧
    (sbi_ebi_handler demo_config (demo_env_status (2 ^ 31)) (demo_regs 29 3)
        (demo_globals true 0)).ret? = some (-2147483648) ∧
    (sbi_ebi_handler demo_config (demo_env_status (2 ^ 31)) (demo_regs 29 3)
        (demo_globals true 0)).frame.a0 = 3 ∧
    (sbi_ebi_handler demo_config demo_env (demo_regs 29 7) (demo_globals true 0)).ret?
      = some 0 ∧
    (sbi_ebi_handler demo_config demo_env (demo_regs 29 7) (demo_globals true 0)).frame.a0
      = 107 := by
  decide

/-- C8, evaluated at the failing input: "get timer" issued from the host with
`a0 = 2147483643` and `a1 = 5`, for which `get_timer` yields `2 ^ 31`.  The
handler does not stop and invokes `get_timer`, but the value is not encoded:
`int ret` receives `-2147483648`, which the handler returns as a failure code
while `a0` keeps its old content. -/
theorem ebi_get_timer_narrowed :
    demo_config.decode (demo_regs 19 2147483643).a6 = some Selector.EVAL_GET_TIMER ∧
    ebi_entry_eid demo_env (demo_globals true 0) = demo_config.HOST_EID ∧
    (demo_env.get_timer (demo_regs 19 2147483643).a0 (demo_regs 19 2147483643).a1
        (demo_globals true 0).world).1 = 2147483648 ∧
    (sbi_ebi_handler demo_config demo_env (demo_regs 19 2147483643)
        (demo_globals true 0)).globals.trace = [.call "get_timer" [2147483643, 5]] ∧
    (sbi_ebi_handler demo_config demo_env (demo_regs 19 2147483643)
        (demo_globals true 0)).ret? = some (-2147483648) ∧
    (sbi_ebi_handler demo_config demo_env (demo_regs 19 2147483643)
        (demo_globals true 0)).frame.a0 = 2147483643 := by
  decide

/-! ### One-time activation -/

/-- The first dispatcher call on an unset flag: the broadcast, then the store
of the flag, then events that are neither. -/
theorem sbi_ebi_handler_fresh_trace {W : Type} (c : EbiConfig) (env : EbiEnv W)
    (regs : sbi_trap_regs) (g : EbiGlobals W) (h0 : g.ebi_called = false) :
    ∃ tail, (sbi_ebi_handler c env regs g).globals.trace
        = g.trace ++ [.ipi_postboot_init (-1), .store_ebi_called] ++ tail ∧
      tail.filter EbiEvent.is_postboot = [] ∧ tail.filter EbiEvent.is_store = [] := by
  obtain ⟨tail, ht⟩ := ebi_switch_trace_prefix c env (ebi_entry_eid env g) regs.a6
    (mepc_advance c regs) (ebi_activate env g)
  have hp := ebi_switch_no_postboot c env (ebi_entry_eid env g) regs.a6
    (mepc_advance c regs) (ebi_activate env g)
  have hs := ebi_switch_no_store c env (ebi_entry_eid env g) regs.a6
    (mepc_advance c regs) (ebi_activate env g)
  rw [← ht, List.filter_append] at hp hs
  have hact : (ebi_activate env g).trace
      = g.trace ++ [.ipi_postboot_init (-1), .store_ebi_called] := by
    rw [ebi_activate_fresh env g h0]
  refine ⟨tail, ?_, ?_, ?_⟩
  · rw [sbi_ebi_handler_globals, ← ht, hact]
  · simpa using hp
  · simpa using hs

/-- A hart that runs alone takes the accesses of `sbi_ebi_handler` one after
another and ends where the function as a whole ends: same globals, same frame,
same return value, stopped exactly when the function does not come back. -/
theorem ebi_interleave_alone {W : Type} (c : EbiConfig) (env : EbiEnv W)
    (regs : sbi_trap_regs) (g : EbiGlobals W) :
    (ebi_interleave c [0, 0, 0, 0, 0] ([EbiHart.enter env regs], g)).2
      = (sbi_ebi_handler c env regs g).globals ∧
    (ebi_interleave c [0, 0, 0, 0, 0] ([EbiHart.enter env regs], g)).1.map (fun h => h.regs)
      = [(sbi_ebi_handler c env regs g).frame] ∧
    (ebi_interleave c [0, 0, 0, 0, 0] ([EbiHart.enter env regs], g)).1.map (fun h => h.pc)
      = [if (sbi_ebi_handler c env regs g).is_halted then EbiPc.stopped else EbiPc.done] ∧
    ((sbi_ebi_handler c env regs g).is_halted = false →
      (ebi_interleave c [0, 0, 0, 0, 0] ([EbiHart.enter env regs], g)).1.map
          (fun h => some h.ret)
        = [(sbi_ebi_handler c env regs g).ret?]) := by
  cases hc : g.ebi_called
  · have ha := ebi_activate_fresh env g hc
    simp only [EbiGlobals.emit] at ha
    cases ho : ebi_after_switch c (ebi_switch c env (ebi_entry_eid env g) regs.a6
        (mepc_advance c regs) (ebi_activate env g)) with
    | returned ret r1 g1 =>
        rw [ha] at ho
        simp [ebi_interleave, ebi_hart_step, EbiHart.enter, hc, sbi_ebi_handler, ha, ho,
          EbiGlobals.emit, EbiOutcome.globals, EbiOutcome.frame, EbiOutcome.is_halted,
          EbiOutcome.ret?]
    | halted r1 g1 =>
        rw [ha] at ho
        simp [ebi_interleave, ebi_hart_step, EbiHart.enter, hc, sbi_ebi_handler, ha, ho,
          EbiGlobals.emit, EbiOutcome.globals, EbiOutcome.frame, EbiOutcome.is_halted,
          EbiOutcome.ret?]
  · have ha := ebi_activate_called env g hc
    cases ho : ebi_after_switch c (ebi_switch c env (ebi_entry_eid env g) regs.a6
        (mepc_advance c regs) (ebi_activate env g)) with
    | returned ret r1 g1 =>
        rw [ha] at ho
        simp [ebi_interleave, ebi_hart_step, EbiHart.enter, hc, sbi_ebi_handler, ha, ho,
          EbiOutcome.globals, EbiOutcome.frame, EbiOutcome.is_halted, EbiOutcome.ret?]
    | halted r1 g1 =>
        rw [ha] at ho
        simp [ebi_interleave, ebi_hart_step, EbiHart.enter, hc, sbi_ebi_handler, ha, ho,
          EbiOutcome.globals, EbiOutcome.frame, EbiOutcome.is_halted, EbiOutcome.ret?]

/-- C9, evaluated at the failing input: two harts make their first dispatcher
call while the activation flag is unset, and both evaluate `!ebi_is_called()`
before either stores the flag (schedule: hart 0 and hart 1 enter, hart 0 tests,
hart 1 tests, hart 0 broadcasts and stores, hart 1 broadcasts and stores, both
finish).  The post-boot broadcast is sent twice and the flag is stored twice;
both calls come back with success. -/
theorem ebi_activation_race :
    (demo_globals false 0).ebi_called = false ∧
    (ebi_interleave demo_config [0, 1, 0, 1, 0, 0, 1, 1, 0, 1]
        ([EbiHart.enter demo_env (demo_regs 24 0), EbiHart.enter demo_env (demo_regs 23 0)],
         demo_globals false 0)).2.trace
      = [.ipi_postboot_init (-1), .store_ebi_called,
         .ipi_postboot_init (-1), .store_ebi_called] ∧
    ((ebi_interleave demo_config [0, 1, 0, 1, 0, 0, 1, 1, 0, 1]
        ([EbiHart.enter demo_env (demo_regs 24 0), EbiHart.enter demo_env (demo_regs 23 0)],
         demo_globals false 0)).2.trace.filter EbiEvent.is_postboot).length = 2 ∧
    (ebi_interleave demo_config [0, 1, 0, 1, 0, 0, 1, 1, 0, 1]
        ([EbiHart.enter demo_env (demo_regs 24 0), EbiHart.enter demo_env (demo_regs 23 0)],
         demo_globals false 0)).2.ebi_called = true ∧
    (ebi_interleave demo_config [0, 1, 0, 1, 0, 0, 1, 1, 0, 1]
        ([EbiHart.enter demo_env (demo_regs 24 0), EbiHart.enter demo_env (demo_regs 23 0)],
         demo_globals false 0)).1.map (fun h => (h.pc, h.ret))
      = [(EbiPc.done, 0), (EbiPc.done, 0)] := by
  decide

/-! ## Theorems about the boot code -/

/-- The wake loop leaves `step` events, the lottery and the wait mask alone,
and adds no exchange on the lottery and no store to `coldboot_done`. -/
theorem wake_loop_frame {W : Type} (cfg : BootConfig) (env : BootEnv W) (hartid : Nat)
    (l : List Nat) (st : BootState W) :
    ((l.foldl (wake_one cfg env hartid) st).trace.filter BootEvent.is_step
        = st.trace.filter BootEvent.is_step) ∧
    ((l.foldl (wake_one cfg env hartid) st).trace.filter BootEvent.is_xchg
        = st.trace.filter BootEvent.is_xchg) ∧
    ((l.foldl (wake_one cfg env hartid) st).trace.filter BootEvent.is_done_store
        = st.trace.filter BootEvent.is_done_store) ∧
    (l.foldl (wake_one cfg env hartid) st).coldboot_lottery = st.coldboot_lottery ∧
    (l.foldl (wake_one cfg env hartid) st).coldboot_done = st.coldboot_done ∧
    (l.foldl (wake_one cfg env hartid) st).coldboot_wait_hmask = st.coldboot_wait_hmask := by
  induction l generalizing st with
  | nil => simp
  | cons i rest ih =>
      simp only [List.foldl_cons]
      obtain ⟨h1, h2, h3, h4, h5, h6⟩ := ih (wake_one cfg env hartid st i)
      rw [h1, h2, h3, h4, h5, h6]
      unfold wake_one
      split <;>
        simp [BootState.emit, List.filter_append, BootEvent.is_step, BootEvent.is_xchg,
          BootEvent.is_done_store]

/-- Every statement leaves exactly its own `step` event. -/
theorem exec_step_step_events {W : Type} (cfg : BootConfig) (env : BootEnv W)
    (hartid : Nat) (cold : Bool) (s : InitStep) (st : BootState W) :
    (exec_step cfg env hartid cold s st).state.trace.filter BootEvent.is_step
      = st.trace.filter BootEvent.is_step ++ [step_event cfg hartid cold s] := by
  have hw := fun l st0 => (wake_loop_frame cfg env hartid l st0).1
  cases s <;> cases cold <;>
    simp only [exec_step, check_rc, fail_msg, sbi_hart_hang, sbi_boot_print_banner, sbi_boot_print_general,
      sbi_boot_print_domains, sbi_boot_print_hart, wake_coldboot_harts, scratch_count_incr,
      step_event] <;>
    (repeat' split) <;>
    simp [StepResult.state, BootState.emit, BootState.print, List.filter_append,
      BootEvent.is_step, hw]

/-- No statement touches the lottery. -/
theorem exec_step_lottery {W : Type} (cfg : BootConfig) (env : BootEnv W)
    (hartid : Nat) (cold : Bool) (s : InitStep) (st : BootState W) :
    (exec_step cfg env hartid cold s st).state.coldboot_lottery = st.coldboot_lottery ∧
    (exec_step cfg env hartid cold s st).state.trace.filter BootEvent.is_xchg
      = st.trace.filter BootEvent.is_xchg := by
  have hw := fun l st0 => (wake_loop_frame cfg env hartid l st0).2.1
  have hl := fun l st0 => (wake_loop_frame cfg env hartid l st0).2.2.2.1
  cases s <;> cases cold <;>
    simp only [exec_step, check_rc, fail_msg, sbi_hart_hang, sbi_boot_print_banner, sbi_boot_print_general,
      sbi_boot_print_domains, sbi_boot_print_hart, wake_coldboot_harts, scratch_count_incr] <;>
    (repeat' split) <;>
    simp [StepResult.state, BootState.emit, BootState.print, List.filter_append,
      BootEvent.is_xchg, hw, hl]

/-- Every statement other than `wake_coldboot_harts` leaves `coldboot_done`
alone, stores nothing to it and sends no wake signal. -/
theorem exec_step_quiet {W : Type} (cfg : BootConfig) (env : BootEnv W)
    (hartid : Nat) (cold : Bool) (s : InitStep) (st : BootState W)
    (hs : s ≠ .wake_coldboot_harts) :
    (exec_step cfg env hartid cold s st).state.coldboot_done = st.coldboot_done ∧
    (exec_step cfg env hartid cold s st).state.trace.filter BootEvent.is_done_store
      = st.trace.filter BootEvent.is_done_store ∧
    (exec_step cfg env hartid cold s st).state.trace.filter BootEvent.is_wake
      = st.trace.filter BootEvent.is_wake := by
  cases s <;> first | exact absurd rfl hs | skip
  all_goals
    cases cold <;>
    simp only [exec_step, check_rc, fail_msg, sbi_hart_hang, sbi_boot_print_banner, sbi_boot_print_general,
      sbi_boot_print_domains, sbi_boot_print_hart, scratch_count_incr] <;>
    (repeat' split) <;>
    simp [StepResult.state, BootState.emit, BootState.print, List.filter_append,
      BootEvent.is_done_store, BootEvent.is_wake]

/-- Running a concatenation: the second part runs only when the first is done. -/
theorem run_steps_append {W : Type} (cfg : BootConfig) (env : BootEnv W)
    (hartid : Nat) (cold : Bool) (l1 l2 : List InitStep) (st : BootState W) :
    run_steps cfg env hartid cold (l1 ++ l2) st
      = match run_steps cfg env hartid cold l1 st with
        | .ok st1 => run_steps cfg env hartid cold l2 st1
        | .hang s st1 => .hang s st1 := by
  induction l1 generalizing st with
  | nil => rfl
  | cons s rest ih =>
      simp only [List.cons_append, run_steps]
      cases exec_step cfg env hartid cold s st with
      | ok st1 => exact ih st1
      | hang st1 => rfl

/-- A run, done or hung, leaves the lottery alone. -/
theorem run_steps_lottery {W : Type} (cfg : BootConfig) (env : BootEnv W)
    (hartid : Nat) (cold : Bool) (l : List InitStep) (st : BootState W) :
    (∀ st1, run_steps cfg env hartid cold l st = .ok st1 →
      st1.coldboot_lottery = st.coldboot_lottery ∧
      st1.trace.filter BootEvent.is_xchg = st.trace.filter BootEvent.is_xchg) ∧
    (∀ s st1, run_steps cfg env hartid cold l st = .hang s st1 →
      st1.coldboot_lottery = st.coldboot_lottery ∧
      st1.trace.filter BootEvent.is_xchg = st.trace.filter BootEvent.is_xchg) := by
  induction l generalizing st with
  | nil =>
      constructor
      · intro st1 h
        simp only [run_steps, RunResult.ok.injEq] at h
        subst h
        exact ⟨rfl, rfl⟩
      · intro s st1 h
        simp [run_steps] at h
  | cons s rest ih =>
      have hl := exec_step_lottery cfg env hartid cold s st
      simp only [run_steps]
      cases he : exec_step cfg env hartid cold s st with
      | ok st2 =>
          rw [he] at hl
          simp only [StepResult.state] at hl
          constructor
          · intro st1 h
            have := (ih st2).1 st1 h
            exact ⟨this.1.trans hl.1, this.2.trans hl.2⟩
          · intro s1 st1 h
            have := (ih st2).2 s1 st1 h
            exact ⟨this.1.trans hl.1, this.2.trans hl.2⟩
      | hang st2 =>
          rw [he] at hl
          simp only [StepResult.state] at hl
          constructor
          · intro st1 h
            simp at h
          · intro s1 st1 h
            simp only [RunResult.hang.injEq] at h
            obtain ⟨_, h2⟩ := h
            subst h2
            exact hl

/-- A run without `wake_coldboot_harts`, done or hung: `coldboot_done` is as
before, nothing was stored to it, no wake signal was sent, and the `step`
events are those of the statements reached. -/
theorem run_steps_quiet {W : Type} (cfg : BootConfig) (env : BootEnv W)
    (hartid : Nat) (cold : Bool) (l : List InitStep) (st : BootState W)
    (hl : InitStep.wake_coldboot_harts ∉ l) :
    (∀ st1, run_steps cfg env hartid cold l st = .ok st1 →
      st1.coldboot_done = st.coldboot_done ∧
      st1.trace.filter BootEvent.is_done_store = st.trace.filter BootEvent.is_done_store ∧
      st1.trace.filter BootEvent.is_wake = st.trace.filter BootEvent.is_wake) ∧
    (∀ s st1, run_steps cfg env hartid cold l st = .hang s st1 →
      st1.coldboot_done = st.coldboot_done ∧
      st1.trace.filter BootEvent.is_done_store = st.trace.filter BootEvent.is_done_store ∧
      st1.trace.filter BootEvent.is_wake = st.trace.filter BootEvent.is_wake) := by
  induction l generalizing st with
  | nil =>
      constructor
      · intro st1 h
        simp only [run_steps, RunResult.ok.injEq] at h
        subst h
        exact ⟨rfl, rfl, rfl⟩
      · intro s st1 h
        simp [run_steps] at h
  | cons s rest ih =>
      have hs : s ≠ .wake_coldboot_harts := fun h => hl (h ▸ List.mem_cons_self _ _)
      have hr : InitStep.wake_coldboot_harts ∉ rest := fun h => hl (List.mem_cons_of_mem _ h)
      have hq := exec_step_quiet cfg env hartid cold s st hs
      simp only [run_steps]
      cases he : exec_step cfg env hartid cold s st with
      | ok st2 =>
          rw [he] at hq
          simp only [StepResult.state] at hq
          constructor
          · intro st1 h
            have := (ih st2 hr).1 st1 h
            exact ⟨this.1.trans hq.1, this.2.1.trans hq.2.1, this.2.2.trans hq.2.2⟩
          · intro s1 st1 h
            have := (ih st2 hr).2 s1 st1 h
            exact ⟨this.1.trans hq.1, this.2.1.trans hq.2.1, this.2.2.trans hq.2.2⟩
      | hang st2 =>
          rw [he] at hq
          simp only [StepResult.state] at hq
          constructor
          · intro st1 h
            simp at h
          · intro s1 st1 h
            simp only [RunResult.hang.injEq] at h
            obtain ⟨_, h2⟩ := h
            subst h2
            exact hq

/-- The `step` events of a completed run are those of its statements, in order. -/
theorem run_steps_ok_events {W : Type} (cfg : BootConfig) (env : BootEnv W)
    (hartid : Nat) (cold : Bool) (l : List InitStep) (st st1 : BootState W)
    (h : run_steps cfg env hartid cold l st = .ok st1) :
    st1.trace.filter BootEvent.is_step
      = st.trace.filter BootEvent.is_step ++ l.map (step_event cfg hartid cold) := by
  induction l generalizing st with
  | nil =>
      simp only [run_steps, RunResult.ok.injEq] at h
      subst h
      simp
  | cons s rest ih =>
      have hev := exec_step_step_events cfg env hartid cold s st
      simp only [run_steps] at h
      cases he : exec_step cfg env hartid cold s st with
      | ok st2 =>
          rw [he] at h hev
          simp only [StepResult.state] at hev
          rw [ih st2 h, hev]
          simp
      | hang st2 =>
          rw [he] at h
          simp at h

/-! ### The coldboot lottery -/

/-- In `sbi_init`, the election of a hart that may cold boot and supports the
next mode is the lottery exchange. -/
theorem coldboot_election_eligible {W : Type} (env : BootEnv W) (hartid : Nat)
    (st : BootState W) (h : env.sbi_platform_cold_boot_allowed hartid st.world = true) :
    coldboot_election env hartid true st = lottery_draw st := by
  simp [coldboot_election, h]

/-- A hart that performs the exchange obtains from the election of `sbi_init`
what the exchange yields. -/
theorem sbi_init_election_draws {W : Type} (cfg : BootConfig) (env : BootEnv W)
    (st : BootState W) (hd : draws_lottery cfg env st.world = true) :
    sbi_init_election cfg env st = some (lottery_draw st) := by
  simp only [draws_lottery, Bool.and_eq_true, Bool.not_eq_true', Bool.or_eq_false_iff,
    decide_eq_false_iff_not, beq_iff_eq] at hd
  obtain ⟨⟨⟨h1, h2⟩, h3⟩, h4⟩ := hd
  have hv : ¬ (cfg.SBI_HARTMASK_MAX_BITS ≤ env.current_hartid st.world ∨
      env.sbi_platform_hart_invalid (env.current_hartid st.world) st.world = true) := by
    simp [h1, h2]
  simp only [sbi_init_election, if_neg hv, h4, coldboot_election, h3, if_true]

/-- Once the lottery holds `1`, every later exchange obtains `coldboot = false`
and leaves `1`. -/
theorem election_race_lost {W : Type} (cfg : BootConfig) (envs : List (BootEnv W))
    (st : BootState W) (h1 : st.coldboot_lottery = 1)
    (hd : ∀ e ∈ envs, draws_lottery cfg e st.world = true) :
    (election_race cfg envs st).1 = envs.map (fun _ => some false) ∧
    (election_race cfg envs st).2.coldboot_lottery = 1 := by
  induction envs generalizing st with
  | nil => exact ⟨rfl, h1⟩
  | cons e rest ih =>
      have he := sbi_init_election_draws cfg e st (hd e (List.mem_cons_self _ _))
      have hl : (lottery_draw st).2.coldboot_lottery = 1 := rfl
      have hw : (lottery_draw st).2.world = st.world := rfl
      have hb : (lottery_draw st).1 = false := by
        simp [lottery_draw, atomic_xchg, h1]
      have hr := ih (lottery_draw st).2 hl
        (fun x hx => by rw [hw]; exact hd x (List.mem_cons_of_mem _ hx))
      simp only [election_race, he, hb, hr.1, hr.2, List.map_cons, and_self]

/-- C4: starting from `coldboot_lottery = 0`, whatever the number `N ≥ 1` of
booting harts that perform the atomic exchange of `sbi_init` and whatever the
order in which their exchanges take effect, the first one obtains
`coldboot = true` and every other one `coldboot = false`, so exactly one does;
the lottery holds `1` after the first exchange and after every later one.  The
value of `coldboot` obtained there is the one that sends the hart, after the
nascent init, into `init_coldboot` or into `init_warmboot`. -/
theorem sbi_init_lottery_one_winner {W : Type} (cfg : BootConfig) (env : BootEnv W)
    (rest : List (BootEnv W)) (st : BootState W) (h0 : st.coldboot_lottery = 0)
    (hd : ∀ e ∈ env :: rest, draws_lottery cfg e st.world = true) :
    (election_race cfg (env :: rest) st).1 = some true :: rest.map (fun _ => some false) ∧
    ((election_race cfg (env :: rest) st).1.filter (fun b => b == some true)).length = 1 ∧
    (∀ n : Nat, (election_race cfg ((env :: rest).take (n + 1)) st).2.coldboot_lottery = 1) ∧
    (∀ (e : BootEnv W) (s : BootState W),
      sbi_init cfg e s
        = match sbi_init_election cfg e s with
          | none => .hung none (sbi_hart_hang s)
          | some r =>
              if (e.sbi_platform_nascent_init r.2.world).1 ≠ 0 then
                .hung none
                  (sbi_hart_hang
                    { r.2 with world := (e.sbi_platform_nascent_init r.2.world).2 })
              else if r.1 then
                init_coldboot cfg e (e.current_hartid s.world)
                  { r.2 with world := (e.sbi_platform_nascent_init r.2.world).2 }
              else
                init_warmboot cfg e (e.current_hartid s.world)
                  { r.2 with world := (e.sbi_platform_nascent_init r.2.world).2 }) ∧
    (∀ (e : BootEnv W) (w : W),
      draws_lottery cfg e w = true ↔
        (e.current_hartid w < cfg.SBI_HARTMASK_MAX_BITS ∧
         e.sbi_platform_hart_invalid (e.current_hartid w) w = false ∧
         e.sbi_platform_cold_boot_allowed (e.current_hartid w) w = true ∧
         (e.next_mode w = cfg.PRV_M ∨
          (e.next_mode w = cfg.PRV_S ∧ e.misa_extension 'S' w = true) ∨
          (e.next_mode w ≠ cfg.PRV_S ∧ e.next_mode w = cfg.PRV_U ∧
            e.misa_extension 'U' w = true)))) := by
  have he := sbi_init_election_draws cfg env st (hd env (List.mem_cons_self _ _))
  have hl : (lottery_draw st).2.coldboot_lottery = 1 := rfl
  have hw : (lottery_draw st).2.world = st.world := rfl
  have hb : (lottery_draw st).1 = true := by
    simp [lottery_draw, atomic_xchg, h0]
  have hrest : ∀ l : List (BootEnv W), (∀ x ∈ l, x ∈ rest) →
      (election_race cfg l (lottery_draw st).2).1 = l.map (fun _ => some false) ∧
      (election_race cfg l (lottery_draw st).2).2.coldboot_lottery = 1 := by
    intro l hsub
    exact election_race_lost cfg l (lottery_draw st).2 hl
      (fun x hx => by rw [hw]; exact hd x (List.mem_cons_of_mem _ (hsub x hx)))
  have hres : (election_race cfg (env :: rest) st).1
      = some true :: rest.map (fun _ => some false) := by
    simp only [election_race, he, hb, (hrest rest (fun _ hx => hx)).1]
  refine ⟨hres, ?_, ?_, ?_, ?_⟩
  · rw [hres]
    simp [List.filter_map]
  · intro n
    simp only [List.take_succ_cons, election_race, he]
    exact (hrest (rest.take n) (fun x hx => List.mem_of_mem_take hx)).2
  · intro e s
    unfold sbi_init sbi_init_election
    simp only
    split
    · rfl
    · split <;> rfl
  · intro e w
    unfold draws_lottery next_mode_check
    by_cases hM : e.next_mode w = cfg.PRV_M
    · simp [hM, and_assoc]
    · by_cases hS : e.next_mode w = cfg.PRV_S
      · have hM2 : ¬ cfg.PRV_S = cfg.PRV_M := hS ▸ hM
        simp [hS, hM2, and_assoc]
      · by_cases hU : e.next_mode w = cfg.PRV_U
        · have hM2 : ¬ cfg.PRV_U = cfg.PRV_M := hU ▸ hM
          have hS2 : ¬ cfg.PRV_U = cfg.PRV_S := hU ▸ hS
          simp [hU, hM2, hS2, and_assoc]
        · simp [hM, hS, hU]

/-- C4 at a concrete race: harts 3, 1, 2 and 0, all with next mode `M`, reach the
lottery in this order. -/
theorem sbi_init_lottery_one_winner_witness :
    (demo_boot_state 0 0 ∅).coldboot_lottery = 0 ∧
    (election_race demo_boot_config
        (demo_boot_env 3 3 none ::
          [demo_boot_env 1 3 none, demo_boot_env 2 3 none, demo_boot_env 0 3 none])
        (demo_boot_state 0 0 ∅)).1
      = some true ::
          [demo_boot_env 1 3 none, demo_boot_env 2 3 none, demo_boot_env 0 3 none].map
            (fun _ => some false) :=
  ⟨rfl,
   (sbi_init_lottery_one_winner demo_boot_config (demo_boot_env 3 3 none)
      [demo_boot_env 1 3 none, demo_boot_env 2 3 none, demo_boot_env 0 3 none]
      (demo_boot_state 0 0 ∅) rfl
      (by
        intro e he
        simp only [List.mem_cons, List.mem_singleton, List.not_mem_nil, or_false] at he
        rcases he with h | h | h | h <;> subst h <;> rfl)).1⟩

/-! ### Fail-stop cold initialisation -/

/-- The statements before `wake_coldboot_harts` do not contain it. -/
theorem wake_not_in_cold_init : InitStep.wake_coldboot_harts ∉ cold_init_steps := by
  decide

/-- After the statements before it have succeeded, the tail of `init_coldboot`
cannot hang and leaves `coldboot_done = 1`. -/
theorem cold_tail_ok {W : Type} (cfg : BootConfig) (env : BootEnv W) (hartid : Nat)
    (st : BootState W) :
    ∃ st2, run_steps cfg env hartid true cold_tail_steps st = .ok st2 ∧
      st2.coldboot_done = 1 := by
  have hd := fun l st0 => (wake_loop_frame cfg env hartid l st0).2.2.2.2.1
  refine ⟨_, rfl, ?_⟩
  simp [exec_step, wake_coldboot_harts, scratch_count_incr, BootState.emit, hd]

/-- A statement hangs exactly when it fails. -/
theorem exec_step_hang_iff {W : Type} (cfg : BootConfig) (env : BootEnv W)
    (hartid : Nat) (cold : Bool) (s : InitStep) (st : BootState W) :
    (exec_step cfg env hartid cold s st).is_hang = step_fails cfg env hartid cold s st := by
  cases s <;> cases cold <;>
    simp only [exec_step, check_rc, fail_msg, sbi_hart_hang, sbi_boot_print_banner,
      sbi_boot_print_general, sbi_boot_print_domains, sbi_boot_print_hart,
      wake_coldboot_harts, scratch_count_incr, step_fails] <;>
    (repeat' split) <;>
    simp_all [StepResult.is_hang, BootState.emit, BootState.print]

/-- A run that hangs at `s` has completed the statements before `s` and hung in
`s` itself. -/
theorem run_steps_hang_split {W : Type} (cfg : BootConfig) (env : BootEnv W)
    (hartid : Nat) (cold : Bool) (l : List InitStep) (st stf : BootState W) (s : InitStep)
    (h : run_steps cfg env hartid cold l st = .hang s stf) :
    ∃ pre post stk, l = pre ++ s :: post ∧
      run_steps cfg env hartid cold pre st = .ok stk ∧
      exec_step cfg env hartid cold s stk = .hang stf := by
  induction l generalizing st with
  | nil => simp [run_steps] at h
  | cons x rest ih =>
      simp only [run_steps] at h
      cases he : exec_step cfg env hartid cold x st with
      | ok st1 =>
          rw [he] at h
          obtain ⟨pre, post, stk, h1, h2, h3⟩ := ih st1 h
          refine ⟨x :: pre, post, stk, by rw [h1]; rfl, ?_, h3⟩
          simp only [run_steps, he, h2]
      | hang st1 =>
          rw [he] at h
          simp only [RunResult.hang.injEq] at h
          obtain ⟨hx, hst⟩ := h
          subst hx hst
          exact ⟨[], rest, st, rfl, rfl, he⟩

/-- C5: in `init_coldboot`, `coldboot_done` is stored (by `wake_coldboot_harts`)
only if every statement before it returned success in the state in which it
ran, and when they all do the hart is not hung and `coldboot_done` is `1`;
conversely, for every statement `s` of the cold init sequence, if the
statements before it have run and `s` fails (its collaborator returns a
non-zero code, `sbi_scratch_alloc_offset` returns `0`, or `misa_xlen()` is below
one while printing the boot hart), the hart is hung at `s`, the statements
reached are exactly those up to `s`, `coldboot_done` keeps its value, nothing is
stored to it and no wake signal is sent. -/
theorem cold_init_fail_stop {W : Type} (cfg : BootConfig) (env : BootEnv W) (hartid : Nat)
    (st : BootState W) :
    ((init_coldboot cfg env hartid st).state.trace.filter BootEvent.is_done_store
        ≠ st.trace.filter BootEvent.is_done_store →
      ∀ (pre : List InitStep) (s : InitStep) (post : List InitStep) (stk : BootState W),
        cold_init_steps = pre ++ s :: post →
        run_steps cfg env hartid true pre st = .ok stk →
        step_fails cfg env hartid true s stk = false) ∧
    ((∀ (pre : List InitStep) (s : InitStep) (post : List InitStep) (stk : BootState W),
        cold_init_steps = pre ++ s :: post →
        run_steps cfg env hartid true pre st = .ok stk →
        step_fails cfg env hartid true s stk = false) →
      (init_coldboot cfg env hartid st).is_hung = false ∧
      (init_coldboot cfg env hartid st).state.coldboot_done = 1) ∧
    (∀ (pre : List InitStep) (s : InitStep) (post : List InitStep) (stk : BootState W),
      cold_init_steps = pre ++ s :: post →
      run_steps cfg env hartid true pre st = .ok stk →
      step_fails cfg env hartid true s stk = true →
      ∃ stf, init_coldboot cfg env hartid st = .hung (some s) stf ∧
        stf.trace.filter BootEvent.is_step
          = st.trace.filter BootEvent.is_step
              ++ (pre ++ [s]).map (step_event cfg hartid true) ∧
        stf.coldboot_done = st.coldboot_done ∧
        stf.trace.filter BootEvent.is_done_store
          = st.trace.filter BootEvent.is_done_store ∧
        stf.trace.filter BootEvent.is_wake = st.trace.filter BootEvent.is_wake) ∧
    (∀ stk : BootState W,
      (step_fails cfg env hartid true .scratch_init stk = true ↔
        (env.sbi_scratch_init stk.world).1 ≠ 0) ∧
      (step_fails cfg env hartid true .domain_init stk = true ↔
        (env.sbi_domain_init hartid stk.world).1 ≠ 0) ∧
      (step_fails cfg env hartid true .alloc_entry_count stk = true ↔
        (env.sbi_scratch_alloc_offset (cfg.xlen / 8) stk.world).1 = 0) ∧
      (step_fails cfg env hartid true .alloc_init_count stk = true ↔
        (env.sbi_scratch_alloc_offset (cfg.xlen / 8) stk.world).1 = 0) ∧
      (step_fails cfg env hartid true .incr_entry_count stk = true ↔
        False) ∧
      (step_fails cfg env hartid true .hsm_init stk = true ↔
        (env.sbi_hsm_init hartid true stk.world).1 ≠ 0) ∧
      (step_fails cfg env hartid true .platform_early_init stk = true ↔
        (env.sbi_platform_early_init true stk.world).1 ≠ 0) ∧
      (step_fails cfg env hartid true .hart_init stk = true ↔
        (env.sbi_hart_init true stk.world).1 ≠ 0) ∧
      (step_fails cfg env hartid true .console_init stk = true ↔
        (env.sbi_console_init stk.world).1 ≠ 0) ∧
      (step_fails cfg env hartid true .pmu_init stk = true ↔
        (env.sbi_pmu_init true stk.world).1 ≠ 0) ∧
      (step_fails cfg env hartid true .print_banner stk = true ↔
        False) ∧
      (step_fails cfg env hartid true .irqchip_init stk = true ↔
        (env.sbi_irqchip_init true stk.world).1 ≠ 0) ∧
      (step_fails cfg env hartid true .ipi_init stk = true ↔
        (env.sbi_ipi_init true stk.world).1 ≠ 0) ∧
      (step_fails cfg env hartid true .tlb_init stk = true ↔
        (env.sbi_tlb_init true stk.world).1 ≠ 0) ∧
      (step_fails cfg env hartid true .timer_init stk = true ↔
        (env.sbi_timer_init true stk.world).1 ≠ 0) ∧
      (step_fails cfg env hartid true .ecall_init stk = true ↔
        (env.sbi_ecall_init stk.world).1 ≠ 0) ∧
      (step_fails cfg env hartid true .domain_finalize stk = true ↔
        (env.sbi_domain_finalize hartid stk.world).1 ≠ 0) ∧
      (step_fails cfg env hartid true .pmp_configure stk = true ↔
        (env.sbi_hart_pmp_configure stk.world).1 ≠ 0) ∧
      (step_fails cfg env hartid true .platform_final_init stk = true ↔
        (env.sbi_platform_final_init true stk.world).1 ≠ 0) ∧
      (step_fails cfg env hartid true .print_general stk = true ↔
        False) ∧
      (step_fails cfg env hartid true .print_domains stk = true ↔
        False) ∧
      (step_fails cfg env hartid true .print_hart stk = true ↔
        (env.no_boot_prints stk.world = false ∧ env.misa_xlen stk.world < 1))) := by
  have happ := run_steps_append cfg env hartid true cold_init_steps cold_tail_steps st
  refine ⟨?_, ?_, ?_, ?_⟩
  · intro hne pre s post stk hsplit hpre
    cases hr : run_steps cfg env hartid true cold_init_steps st with
    | ok st1 =>
        rw [hsplit, run_steps_append, hpre] at hr
        simp only [run_steps] at hr
        have hh := exec_step_hang_iff cfg env hartid true s stk
        cases he : exec_step cfg env hartid true s stk with
        | ok st2 =>
            rw [he] at hh
            exact hh.symm
        | hang st2 =>
            rw [he] at hr
            simp at hr
    | hang s1 st1 =>
        exfalso
        apply hne
        have hq := (run_steps_quiet cfg env hartid true cold_init_steps st
          wake_not_in_cold_init).2 s1 st1 hr
        have : init_coldboot cfg env hartid st = .hung (some s1) st1 := by
          unfold init_coldboot cold_steps
          rw [happ, hr]
        rw [this]
        exact hq.2.1
  · intro hall
    cases hr : run_steps cfg env hartid true cold_init_steps st with
    | ok st1 =>
        obtain ⟨st2, h2, hd⟩ := cold_tail_ok cfg env hartid st1
        have : init_coldboot cfg env hartid st = .started st2 := by
          unfold init_coldboot cold_steps
          rw [happ, hr]
          simp only [h2]
        rw [this]
        exact ⟨rfl, hd⟩
    | hang s1 st1 =>
        exfalso
        obtain ⟨pre, post, stk, h1, h2, h3⟩ :=
          run_steps_hang_split cfg env hartid true cold_init_steps st st1 s1 hr
        have hh := exec_step_hang_iff cfg env hartid true s1 stk
        rw [h3, hall pre s1 post stk h1 h2] at hh
        simp [StepResult.is_hang] at hh
  · intro pre s post stk hsplit hpre hfails
    have hh := exec_step_hang_iff cfg env hartid true s stk
    rw [hfails] at hh
    cases hfail : exec_step cfg env hartid true s stk with
    | ok st2 =>
        rw [hfail] at hh
        simp [StepResult.is_hang] at hh
    | hang stf =>
        have hrun : run_steps cfg env hartid true (pre ++ s :: post) st = .hang s stf := by
          rw [run_steps_append, hpre]
          simp only [run_steps, hfail]
        have hpre_nw : InitStep.wake_coldboot_harts ∉ pre := by
          intro hm
          apply wake_not_in_cold_init
          rw [hsplit]
          exact List.mem_append_left _ hm
        have hs_nw : s ≠ .wake_coldboot_harts := by
          intro hm
          apply wake_not_in_cold_init
          rw [hsplit, hm]
          simp
        have hq1 := (run_steps_quiet cfg env hartid true pre st hpre_nw).1 stk hpre
        have hq2 := exec_step_quiet cfg env hartid true s stk hs_nw
        have he1 := run_steps_ok_events cfg env hartid true pre st stk hpre
        have he2 := exec_step_step_events cfg env hartid true s stk
        rw [hfail] at hq2 he2
        simp only [StepResult.state] at hq2 he2
        refine ⟨stf, ?_, ?_, hq2.1.trans hq1.1, hq2.2.1.trans hq1.2.1,
          hq2.2.2.trans hq1.2.2⟩
        · unfold init_coldboot cold_steps
          rw [happ, hsplit, hrun]
        · rw [he2, he1]
          simp
  · intro stk
    simp [step_fails]

/-- C5 at a concrete failure: `sbi_tlb_init` returns `-1` on the cold path. -/
theorem cold_init_fail_stop_witness :
    ((demo_boot_env 0 3 (some .tlb_init)).sbi_tlb_init true
        (run_steps demo_boot_config (demo_boot_env 0 3 (some .tlb_init)) 0 true
          [.scratch_init, .domain_init, .alloc_entry_count, .alloc_init_count,
           .incr_entry_count, .hsm_init, .platform_early_init, .hart_init, .console_init,
           .pmu_init, .print_banner, .irqchip_init, .ipi_init]
          (demo_boot_state 1 0 {1, 2})).state.world).1 = -1 ∧
    ∃ stf, init_coldboot demo_boot_config (demo_boot_env 0 3 (some .tlb_init)) 0
          (demo_boot_state 1 0 {1, 2}) = .hung (some .tlb_init) stf ∧
        stf.coldboot_done = (demo_boot_state 1 0 {1, 2}).coldboot_done ∧
        stf.trace.filter BootEvent.is_wake
          = (demo_boot_state 1 0 {1, 2}).trace.filter BootEvent.is_wake :=
  have h := (cold_init_fail_stop demo_boot_config (demo_boot_env 0 3 (some .tlb_init)) 0
      (demo_boot_state 1 0 {1, 2})).2.2.1
    [.scratch_init, .domain_init, .alloc_entry_count, .alloc_init_count,
     .incr_entry_count, .hsm_init, .platform_early_init, .hart_init, .console_init,
     .pmu_init, .print_banner, .irqchip_init, .ipi_init]
    .tlb_init
    [.timer_init, .ecall_init, .domain_finalize, .pmp_configure, .platform_final_init,
     .print_general, .print_domains, .print_hart]
    (run_steps demo_boot_config (demo_boot_env 0 3 (some .tlb_init)) 0 true
      [.scratch_init, .domain_init, .alloc_entry_count, .alloc_init_count,
       .incr_entry_count, .hsm_init, .platform_early_init, .hart_init, .console_init,
       .pmu_init, .print_banner, .irqchip_init, .ipi_init]
      (demo_boot_state 1 0 {1, 2})).state
    rfl rfl rfl
  ⟨rfl, h.elim (fun stf hs => ⟨stf, hs.1, hs.2.2.1, hs.2.2.2.2⟩)⟩

/-! ### Unsupported next mode -/

/-- The warm startup path leaves the lottery alone. -/
theorem init_warm_startup_lottery {W : Type} (cfg : BootConfig) (env : BootEnv W)
    (hartid : Nat) (st : BootState W) :
    (init_warm_startup cfg env hartid st).state.coldboot_lottery = st.coldboot_lottery ∧
    (init_warm_startup cfg env hartid st).state.trace.filter BootEvent.is_xchg
      = st.trace.filter BootEvent.is_xchg := by
  have hl := run_steps_lottery cfg env hartid false warm_startup_steps st
  unfold init_warm_startup
  cases hr : run_steps cfg env hartid false warm_startup_steps st with
  | ok st1 => exact hl.1 st1 hr
  | hang s st1 => exact hl.2 s st1 hr

/-- The warm resume path leaves the lottery alone. -/
theorem init_warm_resume_lottery {W : Type} (cfg : BootConfig) (env : BootEnv W)
    (hartid : Nat) (st : BootState W) :
    (init_warm_resume cfg env hartid st).state.coldboot_lottery = st.coldboot_lottery ∧
    (init_warm_resume cfg env hartid st).state.trace.filter BootEvent.is_xchg
      = st.trace.filter BootEvent.is_xchg := by
  have hl := run_steps_lottery cfg env hartid false warm_resume_steps st
  unfold init_warm_resume
  cases hr : run_steps cfg env hartid false warm_resume_steps st with
  | ok st1 => exact hl.1 st1 hr
  | hang s st1 => exact hl.2 s st1 hr

/-- The warm boot path after the barrier leaves the lottery alone. -/
theorem init_warmboot_after_wait_lottery {W : Type} (cfg : BootConfig) (env : BootEnv W)
    (hartid : Nat) (st : BootState W) :
    (init_warmboot_after_wait cfg env hartid st).state.coldboot_lottery
      = st.coldboot_lottery ∧
    (init_warmboot_after_wait cfg env hartid st).state.trace.filter BootEvent.is_xchg
      = st.trace.filter BootEvent.is_xchg := by
  unfold init_warmboot_after_wait
  simp only
  split
  · simp [BootOutcome.state, sbi_hart_hang, BootState.emit, List.filter_append, BootEvent.is_xchg]
  · split
    · exact init_warm_resume_lottery cfg env hartid st
    · have h := init_warm_startup_lottery cfg env hartid
        { (st.emit (.ipi_raw_clear hartid)) with
          world := env.sbi_ipi_raw_clear hartid st.world }
      rw [h.1, h.2]
      simp [BootState.emit, List.filter_append, BootEvent.is_xchg]

/-- The warm boot path leaves the lottery alone. -/
theorem init_warmboot_lottery {W : Type} (cfg : BootConfig) (env : BootEnv W)
    (hartid : Nat) (st : BootState W) :
    (init_warmboot cfg env hartid st).state.coldboot_lottery = st.coldboot_lottery ∧
    (init_warmboot cfg env hartid st).state.trace.filter BootEvent.is_xchg
      = st.trace.filter BootEvent.is_xchg := by
  unfold init_warmboot
  simp only
  split
  · have h := init_warmboot_after_wait_lottery cfg env hartid
      (wait_for_coldboot_leave cfg hartid (st.mie hartid)
        (wait_for_coldboot_enter cfg hartid st))
    rw [h.1, h.2]
    simp [wait_for_coldboot_leave, wait_for_coldboot_enter, BootState.emit,
      List.filter_append, BootEvent.is_xchg]
  · simp [BootOutcome.state, wait_for_coldboot_enter, BootState.emit,
      List.filter_append, BootEvent.is_xchg]

/-- C6 as stated fails: a hart whose next mode is supervisor and that lacks the
`S` extension is not halted.  While the cold boot is still running it parks in
the barrier as a member of the wait mask; once the cold boot is done it runs
the warm startup sequence to the end. -/
theorem sbi_init_unsupported_mode_not_halted :
    (demo_boot_env 2 1 none).next_mode (demo_boot_state 0 0 ∅).world
      = demo_boot_config.PRV_S ∧
    (demo_boot_env 2 1 none).misa_extension 'S' (demo_boot_state 0 0 ∅).world = false ∧
    (sbi_init demo_boot_config (demo_boot_env 2 1 none) (demo_boot_state 0 0 ∅)).is_hung
      = false ∧
    2 ∈ (sbi_init demo_boot_config (demo_boot_env 2 1 none)
          (demo_boot_state 0 0 ∅)).state.coldboot_wait_hmask ∧
    (sbi_init demo_boot_config (demo_boot_env 2 1 none) (demo_booted_state ∅)).is_started
      = true ∧
    (sbi_init demo_boot_config (demo_boot_env 2 1 none)
        (demo_booted_state ∅)).state.trace.filter BootEvent.is_step
      = warm_startup_steps.map (step_event demo_boot_config 2 false) := by
  decide

/-- The `switch (scratch->next_mode)` for a next mode that is none of the
recognised values. -/
theorem next_mode_check_unrecognised {W : Type} (cfg : BootConfig) (env : BootEnv W) (w : W)
    (hM : env.next_mode w ≠ cfg.PRV_M) (hS : env.next_mode w ≠ cfg.PRV_S)
    (hU : env.next_mode w ≠ cfg.PRV_U) :
    next_mode_check cfg env w = none := by
  simp [next_mode_check, hM, hS, hU]

/-- The `switch (scratch->next_mode)` for supervisor or user mode on a hart that
lacks the extension. -/
theorem next_mode_check_unsupported {W : Type} (cfg : BootConfig) (env : BootEnv W) (w : W)
    (hMS : cfg.PRV_M ≠ cfg.PRV_S) (hMU : cfg.PRV_M ≠ cfg.PRV_U) (hSU : cfg.PRV_S ≠ cfg.PRV_U)
    (hm : (env.next_mode w = cfg.PRV_S ∧ env.misa_extension 'S' w = false) ∨
          (env.next_mode w = cfg.PRV_U ∧ env.misa_extension 'U' w = false)) :
    next_mode_check cfg env w = some false := by
  rcases hm with ⟨h1, h2⟩ | ⟨h1, h2⟩
  · have : ¬ cfg.PRV_S = cfg.PRV_M := fun h => hMS h.symm
    simp [next_mode_check, h1, h2, this]
  · have h3 : ¬ cfg.PRV_U = cfg.PRV_M := fun h => hMU h.symm
    have h4 : ¬ cfg.PRV_U = cfg.PRV_S := fun h => hSU h.symm
    simp [next_mode_check, h1, h2, h3, h4]

/-- C6, amended: for a hart with a valid id whose `next_mode` is none of `PRV_M`,
`PRV_S`, `PRV_U`, `sbi_init` hangs at once, without any access to shared state.
For a hart whose `next_mode` is `PRV_S` or `PRV_U` and that lacks the `S` or `U`
extension, `sbi_init` does not hang for that reason: the hart never performs
the lottery exchange; if the nascent init fails it hangs; otherwise it enters
`wait_for_coldboot` and joins the wait mask; while `coldboot_done` is clear it
stays parked there; once `coldboot_done` is set it leaves the wait mask and
goes on as `init_warmboot` does: it hangs when the hart state is negative,
runs `init_warm_resume` when the state is `SBI_HSM_STATE_SUSPENDED`, and
otherwise clears its IPI and runs `init_warm_startup`.  It never runs
`init_coldboot`. -/
theorem sbi_init_unsupported_mode {W : Type} (cfg : BootConfig) (env : BootEnv W)
    (st : BootState W)
    (hv : ¬ (cfg.SBI_HARTMASK_MAX_BITS ≤ env.current_hartid st.world ∨
          env.sbi_platform_hart_invalid (env.current_hartid st.world) st.world = true))
    (hMS : cfg.PRV_M ≠ cfg.PRV_S) (hMU : cfg.PRV_M ≠ cfg.PRV_U) (hSU : cfg.PRV_S ≠ cfg.PRV_U) :
    (env.next_mode st.world ≠ cfg.PRV_M → env.next_mode st.world ≠ cfg.PRV_S →
      env.next_mode st.world ≠ cfg.PRV_U →
      sbi_init cfg env st = .hung none (sbi_hart_hang st)) ∧
    (((env.next_mode st.world = cfg.PRV_S ∧ env.misa_extension 'S' st.world = false) ∨
        (env.next_mode st.world = cfg.PRV_U ∧ env.misa_extension 'U' st.world = false)) →
      ∀ (hartid : Nat) (rc : Int) (w2 : W) (st2 st3 st4 : BootState W),
        hartid = env.current_hartid st.world →
        env.sbi_platform_nascent_init st.world = (rc, w2) →
        st2 = { st with world := w2 } →
        st3 = wait_for_coldboot_enter cfg hartid st2 →
        st4 = wait_for_coldboot_leave cfg hartid (st.mie hartid) st3 →
        (rc ≠ 0 → sbi_init cfg env st = .hung none (sbi_hart_hang st2)) ∧
        (rc = 0 → st.coldboot_done = 0 →
          sbi_init cfg env st = .waiting hartid (st.mie hartid) st3) ∧
        (rc = 0 → st.coldboot_done ≠ 0 → env.sbi_hsm_hart_get_state hartid w2 < 0 →
          sbi_init cfg env st = .hung none (sbi_hart_hang st4)) ∧
        (rc = 0 → st.coldboot_done ≠ 0 → 0 ≤ env.sbi_hsm_hart_get_state hartid w2 →
          env.sbi_hsm_hart_get_state hartid w2 = cfg.SBI_HSM_STATE_SUSPENDED →
          sbi_init cfg env st = init_warm_resume cfg env hartid st4) ∧
        (rc = 0 → st.coldboot_done ≠ 0 → 0 ≤ env.sbi_hsm_hart_get_state hartid w2 →
          env.sbi_hsm_hart_get_state hartid w2 ≠ cfg.SBI_HSM_STATE_SUSPENDED →
          sbi_init cfg env st
            = init_warm_startup cfg env hartid
                { (st4.emit (.ipi_raw_clear hartid)) with
                  world := env.sbi_ipi_raw_clear hartid w2 }) ∧
        sbi_hartmask_test_hart cfg hartid st3.coldboot_wait_hmask = true ∧
        sbi_hartmask_test_hart cfg hartid st4.coldboot_wait_hmask = false ∧
        (sbi_init cfg env st).state.coldboot_lottery = st.coldboot_lottery ∧
        (sbi_init cfg env st).state.trace.filter BootEvent.is_xchg
          = st.trace.filter BootEvent.is_xchg ∧
        (∀ (cmip : Nat) (s : BootState W),
          ((cmip &&& (cfg.MIP_MSIP ||| cfg.MIP_MEIP) = 0 ∨ s.coldboot_done = 0) →
            init_warmboot_wakeup cfg env hartid (st.mie hartid) cmip s
              = .waiting hartid (st.mie hartid) s) ∧
          (cmip &&& (cfg.MIP_MSIP ||| cfg.MIP_MEIP) ≠ 0 → s.coldboot_done ≠ 0 →
            init_warmboot_wakeup cfg env hartid (st.mie hartid) cmip s
              = (if env.sbi_hsm_hart_get_state hartid s.world < 0 then
                  .hung none
                    (sbi_hart_hang (wait_for_coldboot_leave cfg hartid (st.mie hartid) s))
                else if env.sbi_hsm_hart_get_state hartid s.world
                    = cfg.SBI_HSM_STATE_SUSPENDED then
                  init_warm_resume cfg env hartid
                    (wait_for_coldboot_leave cfg hartid (st.mie hartid) s)
                else
                  init_warm_startup cfg env hartid
                    { ((wait_for_coldboot_leave cfg hartid (st.mie hartid) s).emit
                        (.ipi_raw_clear hartid)) with
                      world := env.sbi_ipi_raw_clear hartid s.world })))) := by
  constructor
  · intro hM hS hU
    have hn := next_mode_check_unrecognised cfg env st.world hM hS hU
    unfold sbi_init
    simp only [if_neg hv, hn]
  · intro hm hartid rc w2 st2 st3 st4 hh hr h2 h3 h4
    subst hh h2 h3 h4
    have hn := next_mode_check_unsupported cfg env st.world hMS hMU hSU hm
    have he : coldboot_election env (env.current_hartid st.world) false st = (false, st) := by
      unfold coldboot_election
      split <;> simp
    have hr1 : (env.sbi_platform_nascent_init st.world).1 = rc := by rw [hr]
    have hr2 : (env.sbi_platform_nascent_init st.world).2 = w2 := by rw [hr]
    have heq : sbi_init cfg env st
        = (if rc ≠ 0 then .hung none (sbi_hart_hang { st with world := w2 })
          else init_warmboot cfg env (env.current_hartid st.world) { st with world := w2 }) := by
      unfold sbi_init
      simp only [if_neg hv, hn, he, hr1, hr2]
      split <;> simp
    have hlt : env.current_hartid st.world < cfg.SBI_HARTMASK_MAX_BITS := by
      have : ¬ cfg.SBI_HARTMASK_MAX_BITS ≤ env.current_hartid st.world := fun h => hv (Or.inl h)
      omega
    have hwb : init_warmboot cfg env (env.current_hartid st.world) { st with world := w2 }
        = (if st.coldboot_done ≠ 0 then
            init_warmboot_after_wait cfg env (env.current_hartid st.world)
              (wait_for_coldboot_leave cfg (env.current_hartid st.world)
                (st.mie (env.current_hartid st.world))
                (wait_for_coldboot_enter cfg (env.current_hartid st.world)
                  { st with world := w2 }))
          else
            .waiting (env.current_hartid st.world) (st.mie (env.current_hartid st.world))
              (wait_for_coldboot_enter cfg (env.current_hartid st.world)
                { st with world := w2 })) := rfl
    have haw : init_warmboot_after_wait cfg env (env.current_hartid st.world)
          (wait_for_coldboot_leave cfg (env.current_hartid st.world)
            (st.mie (env.current_hartid st.world))
            (wait_for_coldboot_enter cfg (env.current_hartid st.world)
              { st with world := w2 }))
        = (if env.sbi_hsm_hart_get_state (env.current_hartid st.world) w2 < 0 then
            .hung none (sbi_hart_hang
              (wait_for_coldboot_leave cfg (env.current_hartid st.world)
                (st.mie (env.current_hartid st.world))
                (wait_for_coldboot_enter cfg (env.current_hartid st.world)
                  { st with world := w2 })))
          else if env.sbi_hsm_hart_get_state (env.current_hartid st.world) w2
              = cfg.SBI_HSM_STATE_SUSPENDED then
            init_warm_resume cfg env (env.current_hartid st.world)
              (wait_for_coldboot_leave cfg (env.current_hartid st.world)
                (st.mie (env.current_hartid st.world))
                (wait_for_coldboot_enter cfg (env.current_hartid st.world)
                  { st with world := w2 }))
          else
            init_warm_startup cfg env (env.current_hartid st.world)
              { ((wait_for_coldboot_leave cfg (env.current_hartid st.world)
                    (st.mie (env.current_hartid st.world))
                    (wait_for_coldboot_enter cfg (env.current_hartid st.world)
                      { st with world := w2 })).emit
                  (.ipi_raw_clear (env.current_hartid st.world))) with
                world := env.sbi_ipi_raw_clear (env.current_hartid st.world) w2 }) := rfl
    have hq : (sbi_init cfg env st).state.coldboot_lottery = st.coldboot_lottery ∧
        (sbi_init cfg env st).state.trace.filter BootEvent.is_xchg
          = st.trace.filter BootEvent.is_xchg := by
      rw [heq]
      split
      · simp [BootOutcome.state, sbi_hart_hang, BootState.emit, List.filter_append,
          BootEvent.is_xchg]
      · exact init_warmboot_lottery cfg env (env.current_hartid st.world)
          { st with world := w2 }
    refine ⟨?_, ?_, ?_, ?_, ?_, ?_, ?_, hq.1, hq.2, ?_⟩
    · intro hrc
      rw [heq, if_pos hrc]
    · intro hrc hd
      rw [heq, hwb]
      simp [hrc, hd]
    · intro hrc hd hs
      rw [heq, hwb, haw]
      simp [hrc, hd, hs]
    · intro hrc hd hs0 hs
      have h1 : ¬ rc ≠ 0 := fun h => h hrc
      have h2 : ¬ env.sbi_hsm_hart_get_state (env.current_hartid st.world) w2 < 0 := by omega
      rw [heq, if_neg h1, hwb, if_pos hd, haw, if_neg h2, if_pos hs]
    · intro hrc hd hs0 hs
      have h1 : ¬ rc ≠ 0 := fun h => h hrc
      have h2 : ¬ env.sbi_hsm_hart_get_state (env.current_hartid st.world) w2 < 0 := by omega
      rw [heq, if_neg h1, hwb, if_pos hd, haw, if_neg h2, if_neg hs]
    · simp [wait_for_coldboot_enter, BootState.emit, sbi_hartmask_set_hart,
        sbi_hartmask_test_hart, hlt]
    · simp [wait_for_coldboot_leave, wait_for_coldboot_enter, BootState.emit,
        sbi_hartmask_clear_hart, sbi_hartmask_set_hart, sbi_hartmask_test_hart, hlt]
    · intro cmip s
      constructor
      · intro h
        unfold init_warmboot_wakeup
        rcases h with h | h
        · rw [if_pos h]
        · by_cases hc : cmip &&& (cfg.MIP_MSIP ||| cfg.MIP_MEIP) = 0
          · rw [if_pos hc]
          · rw [if_neg hc, if_neg (fun hn => hn h)]
      · intro h1 h2
        unfold init_warmboot_wakeup
        rw [if_neg h1, if_pos h2]
        rfl

/-- C6, amended, at two concrete harts: next mode `7` is none of the recognised
values, and the hart hangs at once; next mode supervisor on a hart without the
`S` extension, while the cold boot is still running, parks in the wait loop. -/
theorem sbi_init_unsupported_mode_witness :
    (demo_boot_env 2 7 none).next_mode (demo_boot_state 0 0 ∅).world
      ≠ demo_boot_config.PRV_M ∧
    (demo_boot_env 2 7 none).next_mode (demo_boot_state 0 0 ∅).world
      ≠ demo_boot_config.PRV_S ∧
    (demo_boot_env 2 7 none).next_mode (demo_boot_state 0 0 ∅).world
      ≠ demo_boot_config.PRV_U ∧
    sbi_init demo_boot_config (demo_boot_env 2 7 none) (demo_boot_state 0 0 ∅)
      = .hung none (sbi_hart_hang (demo_boot_state 0 0 ∅)) ∧
    (demo_boot_env 2 1 none).next_mode (demo_boot_state 0 0 ∅).world
      = demo_boot_config.PRV_S ∧
    (demo_boot_env 2 1 none).misa_extension 'S' (demo_boot_state 0 0 ∅).world = false ∧
    sbi_init demo_boot_config (demo_boot_env 2 1 none) (demo_boot_state 0 0 ∅)
      = .waiting 2 ((demo_boot_state 0 0 ∅).mie 2)
          (wait_for_coldboot_enter demo_boot_config 2 (demo_boot_state 0 0 ∅)) :=
  ⟨by decide, by decide, by decide,
   (sbi_init_unsupported_mode demo_boot_config (demo_boot_env 2 7 none)
      (demo_boot_state 0 0 ∅) (by decide) (by decide) (by decide) (by decide)).1
      (by decide) (by decide) (by decide),
   by decide, by decide,
   ((sbi_init_unsupported_mode demo_boot_config (demo_boot_env 2 1 none)
      (demo_boot_state 0 0 ∅) (by decide) (by decide) (by decide) (by decide)).2
      (Or.inl ⟨by decide, by decide⟩) 2 0 (demo_boot_state 0 0 ∅).world
      (demo_boot_state 0 0 ∅)
      (wait_for_coldboot_enter demo_boot_config 2 (demo_boot_state 0 0 ∅))
      (wait_for_coldboot_leave demo_boot_config 2 ((demo_boot_state 0 0 ∅).mie 2)
        (wait_for_coldboot_enter demo_boot_config 2 (demo_boot_state 0 0 ∅)))
      rfl rfl rfl rfl rfl).2.1 rfl rfl⟩

/-! ### Waking the waiting harts -/

/-- The loop body of `wake_coldboot_harts` leaves the wait mask alone. -/
theorem wake_one_hmask {W : Type} (cfg : BootConfig) (env : BootEnv W) (hartid : Nat)
    (st : BootState W) (i : Nat) :
    (wake_one cfg env hartid st i).coldboot_wait_hmask = st.coldboot_wait_hmask := by
  unfold wake_one
  split <;> rfl

/-- The wake loop over `l` appends one `sbi_ipi_raw_send` per hart of `l` that
is not the caller and is in the wait mask, in the order of `l`. -/
theorem wake_loop_trace {W : Type} (cfg : BootConfig) (env : BootEnv W) (hartid : Nat)
    (l : List Nat) (st : BootState W) :
    (l.foldl (wake_one cfg env hartid) st).trace
      = st.trace ++ (l.filter (fun i => decide (i ≠ hartid) &&
          sbi_hartmask_test_hart cfg i st.coldboot_wait_hmask)).map BootEvent.ipi_raw_send := by
  induction l generalizing st with
  | nil => simp
  | cons i rest ih =>
      simp only [List.foldl_cons]
      rw [ih (wake_one cfg env hartid st i), wake_one_hmask]
      by_cases hc : i ≠ hartid ∧ sbi_hartmask_test_hart cfg i st.coldboot_wait_hmask = true
      · have hp : (decide (i ≠ hartid) &&
            sbi_hartmask_test_hart cfg i st.coldboot_wait_hmask) = true := by
          simp [hc.1, hc.2]
        simp only [wake_one, if_pos hc, BootState.emit, List.filter_cons, hp, if_true,
          List.map_cons, List.append_assoc, List.singleton_append]
      · have hp : (decide (i ≠ hartid) &&
            sbi_hartmask_test_hart cfg i st.coldboot_wait_hmask) = false := by
          by_cases h1 : i = hartid
          · simp [h1]
          · have h2 : sbi_hartmask_test_hart cfg i st.coldboot_wait_hmask = false := by
              cases ht : sbi_hartmask_test_hart cfg i st.coldboot_wait_hmask
              · rfl
              · exact absurd ⟨h1, ht⟩ hc
            simp [h2]
        simp only [wake_one, if_neg hc, List.filter_cons, hp]
        simp

/-- The effects of `wake_coldboot_harts(hartid)` for an arbitrary wait mask: the
store `coldboot_done = 1` comes first, then, under `coldboot_lock`, one
`sbi_ipi_raw_send` for every hart `i ≤ sbi_scratch_last_hartid()` that is in the
wait mask and is not the caller, in increasing order; the wait mask is only
read. -/
theorem wake_coldboot_harts_signals {W : Type} (cfg : BootConfig) (env : BootEnv W)
    (hartid : Nat) (st : BootState W) :
    (wake_coldboot_harts cfg env hartid st).trace
      = st.trace ++ [.store_coldboot_done 1, .spin_lock]
          ++ (wake_targets cfg (env.sbi_scratch_last_hartid st.world) hartid
                st.coldboot_wait_hmask).map BootEvent.ipi_raw_send
          ++ [.spin_unlock] ∧
    (wake_coldboot_harts cfg env hartid st).coldboot_done = 1 ∧
    (wake_coldboot_harts cfg env hartid st).coldboot_wait_hmask = st.coldboot_wait_hmask ∧
    (wake_targets cfg (env.sbi_scratch_last_hartid st.world) hartid
        st.coldboot_wait_hmask).Nodup ∧
    (∀ i : Nat,
      i ∈ wake_targets cfg (env.sbi_scratch_last_hartid st.world) hartid
            st.coldboot_wait_hmask ↔
        (i ≤ env.sbi_scratch_last_hartid st.world ∧ i ≠ hartid ∧
          sbi_hartmask_test_hart cfg i st.coldboot_wait_hmask = true)) := by
  refine ⟨?_, ?_, ?_, ?_, ?_⟩
  · simp only [wake_coldboot_harts, BootState.emit, wake_loop_trace, wake_targets]
    simp
  · have hd := fun l st0 => (wake_loop_frame cfg env hartid l st0).2.2.2.2.1
    simp [wake_coldboot_harts, BootState.emit, hd]
  · have hm := fun l st0 => (wake_loop_frame cfg env hartid l st0).2.2.2.2.2
    simp [wake_coldboot_harts, BootState.emit, hm]
  · exact (List.nodup_range _).filter _
  · intro i
    simp [wake_targets, List.mem_filter, List.mem_range, Nat.lt_succ_iff]

/-- The wake loop over `l` hands the world to `sbi_ipi_raw_send` once for every
hart of `l` that is not the caller and is in the wait mask, in the order of
`l`. -/
theorem wake_loop_world {W : Type} (cfg : BootConfig) (env : BootEnv W) (hartid : Nat)
    (l : List Nat) (st : BootState W) :
    (l.foldl (wake_one cfg env hartid) st).world
      = (l.filter (fun i => decide (i ≠ hartid) &&
          sbi_hartmask_test_hart cfg i st.coldboot_wait_hmask)).foldl
          (fun w i => env.sbi_ipi_raw_send i w) st.world := by
  induction l generalizing st with
  | nil => simp
  | cons i rest ih =>
      simp only [List.foldl_cons]
      rw [ih (wake_one cfg env hartid st i), wake_one_hmask]
      by_cases hc : i ≠ hartid ∧ sbi_hartmask_test_hart cfg i st.coldboot_wait_hmask = true
      · have hp : (decide (i ≠ hartid) &&
            sbi_hartmask_test_hart cfg i st.coldboot_wait_hmask) = true := by
          simp [hc.1, hc.2]
        simp only [wake_one, if_pos hc, BootState.emit, List.filter_cons, hp, if_true,
          List.foldl_cons]
      · have hp : (decide (i ≠ hartid) &&
            sbi_hartmask_test_hart cfg i st.coldboot_wait_hmask) = false := by
          by_cases h1 : i = hartid
          · simp [h1]
          · have h2 : sbi_hartmask_test_hart cfg i st.coldboot_wait_hmask = false := by
              cases ht : sbi_hartmask_test_hart cfg i st.coldboot_wait_hmask
              · rfl
              · exact absurd ⟨h1, ht⟩ hc
            simp [h2]
        simp only [wake_one, if_neg hc, List.filter_cons, hp]
        simp

/-- The world after `wake_coldboot_harts(hartid)`: `sbi_ipi_raw_send` has acted on
it once for every wake target, in loop order. -/
theorem wake_coldboot_harts_world {W : Type} (cfg : BootConfig) (env : BootEnv W)
    (hartid : Nat) (st : BootState W) :
    (wake_coldboot_harts cfg env hartid st).world
      = (wake_targets cfg (env.sbi_scratch_last_hartid st.world) hartid
          st.coldboot_wait_hmask).foldl (fun w i => env.sbi_ipi_raw_send i w) st.world := by
  simp only [wake_coldboot_harts, BootState.emit, wake_loop_world, wake_targets]

/-- Joining the wait mask keeps every waiter at or below a bound that the
joining hart respects. -/
theorem wait_for_coldboot_enter_bound {W : Type} (cfg : BootConfig) (hartid last : Nat)
    (st : BootState W) (hh : hartid ≤ last)
    (hm : ∀ i, sbi_hartmask_test_hart cfg i st.coldboot_wait_hmask = true → i ≤ last) :
    ∀ i, sbi_hartmask_test_hart cfg i
        (wait_for_coldboot_enter cfg hartid st).coldboot_wait_hmask = true → i ≤ last := by
  intro i hi
  simp only [wait_for_coldboot_enter, BootState.emit, sbi_hartmask_set_hart,
    sbi_hartmask_test_hart, decide_eq_true_eq] at hi hm
  split at hi
  · rcases Finset.mem_insert.mp hi.2 with h | h
    · omega
    · exact hm i ⟨hi.1, h⟩
  · exact hm i hi

/-- C12: for every wait mask whose members have a scratch area (their ids are at
most `sbi_scratch_last_hartid()`, as holds for every hart that has joined the
mask from `sbi_init`) and every caller `hartid`, `wake_coldboot_harts(hartid)`
first stores `coldboot_done = 1` and then, under `coldboot_lock`, calls
`sbi_ipi_raw_send` exactly once for every hart that is in the wait mask and is
not the caller, and for no other hart; it leaves the wait mask unchanged. -/
theorem wake_coldboot_harts_waiters {W : Type} (cfg : BootConfig) (env : BootEnv W)
    (hartid : Nat) (st : BootState W)
    (hm : ∀ i, sbi_hartmask_test_hart cfg i st.coldboot_wait_hmask = true →
      i ≤ env.sbi_scratch_last_hartid st.world) :
    (∃ targets : List Nat,
      (wake_coldboot_harts cfg env hartid st).trace
        = st.trace ++ [.store_coldboot_done 1, .spin_lock]
            ++ targets.map BootEvent.ipi_raw_send ++ [.spin_unlock] ∧
      (wake_coldboot_harts cfg env hartid st).world
        = targets.foldl (fun w i => env.sbi_ipi_raw_send i w) st.world ∧
      targets.Nodup ∧
      (∀ i : Nat, i ∈ targets ↔
        (sbi_hartmask_test_hart cfg i st.coldboot_wait_hmask = true ∧ i ≠ hartid))) ∧
    (wake_coldboot_harts cfg env hartid st).coldboot_done = 1 ∧
    (wake_coldboot_harts cfg env hartid st).coldboot_wait_hmask = st.coldboot_wait_hmask := by
  obtain ⟨ht, hd, hk, hn, hmem⟩ := wake_coldboot_harts_signals cfg env hartid st
  refine ⟨⟨_, ht, wake_coldboot_harts_world cfg env hartid st, hn, ?_⟩, hd, hk⟩
  intro i
  rw [hmem i]
  constructor
  · rintro ⟨_, h2, h3⟩
    exact ⟨h3, h2⟩
  · rintro ⟨h3, h2⟩
    exact ⟨hm i h3, h2, h3⟩

/-- C12 at a concrete wake-up: harts 0, 1 and 3 wait, hart 0 is the caller and
hart 3 is the last hart having a scratch area. -/
theorem wake_coldboot_harts_waiters_witness :
    (∀ i, sbi_hartmask_test_hart demo_boot_config i
        (demo_boot_state 1 0 {0, 1, 3}).coldboot_wait_hmask = true →
      i ≤ (demo_boot_env 0 3 none).sbi_scratch_last_hartid
            (demo_boot_state 1 0 {0, 1, 3}).world) ∧
    (wake_coldboot_harts demo_boot_config (demo_boot_env 0 3 none) 0
        (demo_boot_state 1 0 {0, 1, 3})).coldboot_done = 1 ∧
    (wake_coldboot_harts demo_boot_config (demo_boot_env 0 3 none) 0
        (demo_boot_state 1 0 {0, 1, 3})).trace
      = [.store_coldboot_done 1, .spin_lock, .ipi_raw_send 1, .ipi_raw_send 3,
          .spin_unlock] :=
  have hb : ∀ i, sbi_hartmask_test_hart demo_boot_config i
      (demo_boot_state 1 0 {0, 1, 3}).coldboot_wait_hmask = true →
      i ≤ (demo_boot_env 0 3 none).sbi_scratch_last_hartid
            (demo_boot_state 1 0 {0, 1, 3}).world := by
    intro i hi
    simp only [sbi_hartmask_test_hart, demo_boot_state, decide_eq_true_eq] at hi
    have h2 := hi.2
    simp only [Finset.mem_insert, Finset.mem_singleton] at h2
    show i ≤ 3
    omega
  ⟨hb,
   (wake_coldboot_harts_waiters demo_boot_config (demo_boot_env 0 3 none) 0
      (demo_boot_state 1 0 {0, 1, 3}) hb).2.1,
   by decide⟩

/-! ### The per-hart counters -/

/-- The wake loop touches neither the counters nor their offsets. -/
theorem wake_loop_counters {W : Type} (cfg : BootConfig) (env : BootEnv W) (hartid : Nat)
    (l : List Nat) (st : BootState W) :
    (l.foldl (wake_one cfg env hartid) st).scratch_mem = st.scratch_mem ∧
    (l.foldl (wake_one cfg env hartid) st).entry_count_offset = st.entry_count_offset ∧
    (l.foldl (wake_one cfg env hartid) st).init_count_offset = st.init_count_offset := by
  induction l generalizing st with
  | nil => simp
  | cons i rest ih =>
      simp only [List.foldl_cons]
      obtain ⟨h1, h2, h3⟩ := ih (wake_one cfg env hartid st i)
      rw [h1, h2, h3]
      unfold wake_one
      split <;> simp [BootState.emit]

/-- A statement that is not a counter increment leaves every counter alone. -/
theorem exec_step_mem_frame {W : Type} (cfg : BootConfig) (env : BootEnv W)
    (hartid : Nat) (cold : Bool) (s : InitStep) (st : BootState W)
    (hs : s.is_incr = false) :
    (exec_step cfg env hartid cold s st).state.scratch_mem = st.scratch_mem := by
  have hw := fun l st0 => (wake_loop_counters cfg env hartid l st0).1
  cases s <;> first | exact absurd hs (by decide) | skip
  all_goals
    cases cold <;>
    simp only [exec_step, check_rc, fail_msg, sbi_hart_hang, sbi_boot_print_banner,
      sbi_boot_print_general, sbi_boot_print_domains, sbi_boot_print_hart,
      wake_coldboot_harts] <;>
    (repeat' split) <;>
    simp [StepResult.state, BootState.emit, BootState.print, hw]

/-- A statement that is not an allocation leaves both counter offsets alone. -/
theorem exec_step_offsets_frame {W : Type} (cfg : BootConfig) (env : BootEnv W)
    (hartid : Nat) (cold : Bool) (s : InitStep) (st : BootState W)
    (hs : s.is_alloc = false) :
    (exec_step cfg env hartid cold s st).state.entry_count_offset = st.entry_count_offset ∧
    (exec_step cfg env hartid cold s st).state.init_count_offset = st.init_count_offset := by
  have hw2 := fun l st0 => (wake_loop_counters cfg env hartid l st0).2.1
  have hw3 := fun l st0 => (wake_loop_counters cfg env hartid l st0).2.2
  cases s <;> first | exact absurd hs (by decide) | skip
  all_goals
    cases cold <;>
    simp only [exec_step, check_rc, fail_msg, sbi_hart_hang, sbi_boot_print_banner,
      sbi_boot_print_general, sbi_boot_print_domains, sbi_boot_print_hart,
      wake_coldboot_harts, scratch_count_incr] <;>
    (repeat' split) <;>
    simp [StepResult.state, BootState.emit, BootState.print, hw2, hw3]

/-- The statement `incr_entry_count` cannot hang; it bumps the entry counter of
the running hart. -/
theorem exec_step_incr_entry {W : Type} (cfg : BootConfig) (env : BootEnv W)
    (hartid : Nat) (cold : Bool) (st : BootState W) :
    ∃ st1, exec_step cfg env hartid cold .incr_entry_count st = .ok st1 ∧
      st1.entry_count_offset = st.entry_count_offset ∧
      st1.init_count_offset = st.init_count_offset ∧
      st1.scratch_mem = fun h o =>
        if h = hartid ∧ o = st.entry_count_offset then
          to_ulong cfg.xlen ((st.scratch_mem h o : Int) + 1)
        else st.scratch_mem h o :=
  ⟨_, rfl, rfl, rfl, rfl⟩

/-- The statement `incr_init_count` cannot hang; it bumps the init counter of
the running hart. -/
theorem exec_step_incr_init {W : Type} (cfg : BootConfig) (env : BootEnv W)
    (hartid : Nat) (cold : Bool) (st : BootState W) :
    ∃ st1, exec_step cfg env hartid cold .incr_init_count st = .ok st1 ∧
      st1.entry_count_offset = st.entry_count_offset ∧
      st1.init_count_offset = st.init_count_offset ∧
      st1.scratch_mem = fun h o =>
        if h = hartid ∧ o = st.init_count_offset then
          to_ulong cfg.xlen ((st.scratch_mem h o : Int) + 1)
        else st.scratch_mem h o :=
  ⟨_, rfl, rfl, rfl, rfl⟩

/-- A completed run of a concatenation is a completed run of each part. -/
theorem run_steps_ok_split {W : Type} (cfg : BootConfig) (env : BootEnv W)
    (hartid : Nat) (cold : Bool) (l1 l2 : List InitStep) (st stf : BootState W)
    (h : run_steps cfg env hartid cold (l1 ++ l2) st = .ok stf) :
    ∃ st1, run_steps cfg env hartid cold l1 st = .ok st1 ∧
      run_steps cfg env hartid cold l2 st1 = .ok stf := by
  rw [run_steps_append] at h
  cases hr : run_steps cfg env hartid cold l1 st with
  | ok st1 =>
      rw [hr] at h
      exact ⟨st1, rfl, h⟩
  | hang s st1 =>
      rw [hr] at h
      simp at h

/-- A run without counter increments, done or hung, leaves every counter alone. -/
theorem run_steps_mem_frame {W : Type} (cfg : BootConfig) (env : BootEnv W)
    (hartid : Nat) (cold : Bool) (l : List InitStep) (st : BootState W)
    (hl : ∀ s ∈ l, s.is_incr = false) :
    (run_steps cfg env hartid cold l st).state.scratch_mem = st.scratch_mem := by
  induction l generalizing st with
  | nil => rfl
  | cons s rest ih =>
      have hs := exec_step_mem_frame cfg env hartid cold s st (hl s (List.mem_cons_self _ _))
      have hr : ∀ x ∈ rest, x.is_incr = false := fun x hx => hl x (List.mem_cons_of_mem _ hx)
      simp only [run_steps]
      cases he : exec_step cfg env hartid cold s st with
      | ok st1 =>
          rw [he] at hs
          simp only [StepResult.state] at hs
          simp only [ih st1 hr, hs]
      | hang st1 =>
          rw [he] at hs
          exact hs

/-- A run without allocations, done or hung, leaves both counter offsets alone. -/
theorem run_steps_offsets_frame {W : Type} (cfg : BootConfig) (env : BootEnv W)
    (hartid : Nat) (cold : Bool) (l : List InitStep) (st : BootState W)
    (hl : ∀ s ∈ l, s.is_alloc = false) :
    (run_steps cfg env hartid cold l st).state.entry_count_offset = st.entry_count_offset ∧
    (run_steps cfg env hartid cold l st).state.init_count_offset = st.init_count_offset := by
  induction l generalizing st with
  | nil => exact ⟨rfl, rfl⟩
  | cons s rest ih =>
      have hs := exec_step_offsets_frame cfg env hartid cold s st
        (hl s (List.mem_cons_self _ _))
      have hr : ∀ x ∈ rest, x.is_alloc = false := fun x hx => hl x (List.mem_cons_of_mem _ hx)
      simp only [run_steps]
      cases he : exec_step cfg env hartid cold s st with
      | ok st1 =>
          rw [he] at hs
          simp only [StepResult.state] at hs
          have := ih st1 hr
          exact ⟨this.1.trans hs.1, this.2.trans hs.2⟩
      | hang st1 =>
          rw [he] at hs
          exact hs

/-- Adding one to a counter that is not at its largest value does not wrap. -/
theorem to_ulong_succ (xlen v : Nat) (h : v + 1 < 2 ^ xlen) :
    to_ulong xlen ((v : Int) + 1) = v + 1 := by
  have := to_ulong_of_lt xlen (v + 1) h
  rwa [Nat.cast_add, Nat.cast_one] at this

/-- One statement moves a counter up by at most one, and by nothing unless it
is a counter increment; short of wrap-around it never moves it down. -/
theorem exec_step_mem_bound {W : Type} (cfg : BootConfig) (env : BootEnv W)
    (hartid : Nat) (cold : Bool) (s : InitStep) (st : BootState W) (h o : Nat)
    (hb : st.scratch_mem h o + s.is_incr.toNat < 2 ^ cfg.xlen) :
    st.scratch_mem h o ≤ (exec_step cfg env hartid cold s st).state.scratch_mem h o ∧
    (exec_step cfg env hartid cold s st).state.scratch_mem h o
      ≤ st.scratch_mem h o + s.is_incr.toNat := by
  cases hi : s.is_incr
  · rw [exec_step_mem_frame cfg env hartid cold s st hi]
    simp
  · rw [hi] at hb
    simp only [Bool.toNat_true] at hb ⊢
    have hcase : s = .incr_entry_count ∨ s = .incr_init_count := by
      cases s <;> simp_all [InitStep.is_incr]
    rcases hcase with hs | hs
    · subst hs
      obtain ⟨st1, he, _, _, hm⟩ := exec_step_incr_entry cfg env hartid cold st
      rw [he]
      simp only [StepResult.state, hm]
      split
      · rw [to_ulong_succ _ _ hb]
        omega
      · omega
    · subst hs
      obtain ⟨st1, he, _, _, hm⟩ := exec_step_incr_init cfg env hartid cold st
      rw [he]
      simp only [StepResult.state, hm]
      split
      · rw [to_ulong_succ _ _ hb]
        omega
      · omega

/-- A run, done or hung, moves a counter up by at most the number of counter
increments it contains; short of wrap-around it never moves it down. -/
theorem run_steps_mem_bound {W : Type} (cfg : BootConfig) (env : BootEnv W)
    (hartid : Nat) (cold : Bool) (l : List InitStep) (st : BootState W) (h o : Nat)
    (hb : st.scratch_mem h o + l.countP InitStep.is_incr < 2 ^ cfg.xlen) :
    st.scratch_mem h o ≤ (run_steps cfg env hartid cold l st).state.scratch_mem h o ∧
    (run_steps cfg env hartid cold l st).state.scratch_mem h o
      ≤ st.scratch_mem h o + l.countP InitStep.is_incr := by
  induction l generalizing st with
  | nil => simp [run_steps, RunResult.state]
  | cons s rest ih =>
      have hc : (s :: rest).countP InitStep.is_incr
          = rest.countP InitStep.is_incr + s.is_incr.toNat := by
        rw [List.countP_cons]
        cases s.is_incr <;> simp
      rw [hc] at hb ⊢
      have hs := exec_step_mem_bound cfg env hartid cold s st h o (by omega)
      simp only [run_steps]
      cases he : exec_step cfg env hartid cold s st with
      | ok st1 =>
          rw [he] at hs
          simp only [StepResult.state] at hs
          have := ih st1 (by omega)
          dsimp only
          constructor <;> omega
      | hang st1 =>
          rw [he] at hs
          simp only [StepResult.state] at hs
          simp only [RunResult.state]
          constructor <;> omega

/-- A completed run of the shape `A`, entry-counter increment, `B`, init-counter
increment, `C`, where `A`, `B` and `C` contain no counter increment and `B` and
`C` no allocation: the offsets are fixed once `A` is done, and the counters are
those of the start with the entry counter and then the init counter of the
running hart bumped. -/
theorem run_steps_two_incr {W : Type} (cfg : BootConfig) (env : BootEnv W)
    (hartid : Nat) (cold : Bool) (A B C : List InitStep) (st stf : BootState W)
    (hA : ∀ s ∈ A, s.is_incr = false)
    (hB : ∀ s ∈ B, s.is_incr = false ∧ s.is_alloc = false)
    (hC : ∀ s ∈ C, s.is_incr = false ∧ s.is_alloc = false)
    (h : run_steps cfg env hartid cold
          (A ++ .incr_entry_count :: (B ++ .incr_init_count :: C)) st = .ok stf) :
    (∃ st1, run_steps cfg env hartid cold A st = .ok st1 ∧
      st1.entry_count_offset = stf.entry_count_offset ∧
      st1.init_count_offset = stf.init_count_offset) ∧
    stf.scratch_mem = fun h o =>
      if h = hartid ∧ o = stf.init_count_offset then
        to_ulong cfg.xlen
          (((if h = hartid ∧ o = stf.entry_count_offset then
              to_ulong cfg.xlen ((st.scratch_mem h o : Int) + 1)
            else st.scratch_mem h o : Nat) : Int) + 1)
      else
        if h = hartid ∧ o = stf.entry_count_offset then
          to_ulong cfg.xlen ((st.scratch_mem h o : Int) + 1)
        else st.scratch_mem h o := by
  obtain ⟨s1, h1, h1r⟩ := run_steps_ok_split cfg env hartid cold A _ st stf h
  obtain ⟨s2, he2, ho2e, ho2i, hm2⟩ := exec_step_incr_entry cfg env hartid cold s1
  simp only [run_steps, he2] at h1r
  obtain ⟨s3, h3, h3r⟩ := run_steps_ok_split cfg env hartid cold B _ s2 stf h1r
  obtain ⟨s4, he4, ho4e, ho4i, hm4⟩ := exec_step_incr_init cfg env hartid cold s3
  simp only [run_steps, he4] at h3r
  have m1 := run_steps_mem_frame cfg env hartid cold A st hA
  have m3 := run_steps_mem_frame cfg env hartid cold B s2 (fun s hs => (hB s hs).1)
  have o3 := run_steps_offsets_frame cfg env hartid cold B s2 (fun s hs => (hB s hs).2)
  have m5 := run_steps_mem_frame cfg env hartid cold C s4 (fun s hs => (hC s hs).1)
  have o5 := run_steps_offsets_frame cfg env hartid cold C s4 (fun s hs => (hC s hs).2)
  rw [h1] at m1
  rw [h3] at m3 o3
  rw [h3r] at m5 o5
  simp only [RunResult.state] at m1 m3 o3 m5 o5
  have hE : stf.entry_count_offset = s1.entry_count_offset := by
    rw [o5.1, ho4e, o3.1, ho2e]
  have hI : stf.init_count_offset = s1.init_count_offset := by
    rw [o5.2, ho4i, o3.2, ho2i]
  refine ⟨⟨s1, h1, hE.symm, hI.symm⟩, ?_⟩
  have hI3 : s3.init_count_offset = stf.init_count_offset := by
    rw [o5.2, ho4i]
  rw [m5, hm4, m3, hm2, m1, hI3, ← hE]

/-- The state in which `init_coldboot` ends is the one in which its statements end. -/
theorem init_coldboot_state {W : Type} (cfg : BootConfig) (env : BootEnv W) (hartid : Nat)
    (st : BootState W) :
    (init_coldboot cfg env hartid st).state
      = (run_steps cfg env hartid true cold_steps st).state := by
  unfold init_coldboot
  cases run_steps cfg env hartid true cold_steps st <;> rfl

/-- The state in which `init_warm_startup` ends is the one in which its statements end. -/
theorem init_warm_startup_state {W : Type} (cfg : BootConfig) (env : BootEnv W)
    (hartid : Nat) (st : BootState W) :
    (init_warm_startup cfg env hartid st).state
      = (run_steps cfg env hartid false warm_startup_steps st).state := by
  unfold init_warm_startup
  cases run_steps cfg env hartid false warm_startup_steps st <;> rfl

/-- The state in which `init_warm_resume` ends is the one in which its statements end. -/
theorem init_warm_resume_state {W : Type} (cfg : BootConfig) (env : BootEnv W)
    (hartid : Nat) (st : BootState W) :
    (init_warm_resume cfg env hartid st).state
      = (run_steps cfg env hartid false warm_resume_steps st).state := by
  unfold init_warm_resume
  cases run_steps cfg env hartid false warm_resume_steps st <;> rfl

/-- C11 as stated fails: a successful traversal of the warm-resume path leaves
the entry count and the init count of the hart as they were (here `0`), it does
not increment them; and a counter holding the largest `unsigned long` value
wraps to `0` on the warm-startup path, so it decreases. -/
theorem boot_counters_refuted :
    (init_warm_resume demo_boot_config (demo_boot_env 2 3 none) 2
        (demo_booted_state ∅)).is_resumed = true ∧
    sbi_entry_count (fun _ => true) 2 (demo_booted_state ∅) = 0 ∧
    sbi_entry_count (fun _ => true) 2
        (init_warm_resume demo_boot_config (demo_boot_env 2 3 none) 2
          (demo_booted_state ∅)).state = 0 ∧
    sbi_init_count (fun _ => true) 2 (demo_booted_state ∅) = 0 ∧
    sbi_init_count (fun _ => true) 2
        (init_warm_resume demo_boot_config (demo_boot_env 2 3 none) 2
          (demo_booted_state ∅)).state = 0 ∧
    (init_warm_startup demo_boot_config (demo_boot_env 2 3 none) 2
        demo_saturated_state).is_started = true ∧
    sbi_entry_count (fun _ => true) 2 demo_saturated_state = 2 ^ 64 - 1 ∧
    sbi_entry_count (fun _ => true) 2
        (init_warm_startup demo_boot_config (demo_boot_env 2 3 none) 2
          demo_saturated_state).state = 0 := by
  decide

/-- C11, amended: a successful traversal of the cold path or of the warm-startup
path increments the entry counter and the init counter of the running hart by
exactly one each, modulo `2 ^ xlen` (so by one unless the counter holds the
largest value), the two counters being distinct scratch cells; the warm-startup
path leaves the offsets of the counters alone; the warm-resume path leaves
every counter and both offsets as they were; and on none of the three paths,
whether it succeeds or hangs, does a counter that is at least two below
wrap-around decrease. -/
theorem boot_path_counters {W : Type} (cfg : BootConfig) (env : BootEnv W) (hartid : Nat)
    (st : BootState W) :
    (∀ stf, init_coldboot cfg env hartid st = .started stf →
      stf.entry_count_offset ≠ stf.init_count_offset →
      stf.scratch_mem hartid stf.entry_count_offset
        = to_ulong cfg.xlen ((st.scratch_mem hartid stf.entry_count_offset : Int) + 1) ∧
      stf.scratch_mem hartid stf.init_count_offset
        = to_ulong cfg.xlen ((st.scratch_mem hartid stf.init_count_offset : Int) + 1)) ∧
    (∀ stf, init_warm_startup cfg env hartid st = .started stf →
      st.entry_count_offset ≠ st.init_count_offset →
      stf.entry_count_offset = st.entry_count_offset ∧
      stf.init_count_offset = st.init_count_offset ∧
      stf.scratch_mem hartid st.entry_count_offset
        = to_ulong cfg.xlen ((st.scratch_mem hartid st.entry_count_offset : Int) + 1) ∧
      stf.scratch_mem hartid st.init_count_offset
        = to_ulong cfg.xlen ((st.scratch_mem hartid st.init_count_offset : Int) + 1)) ∧
    ((init_warm_resume cfg env hartid st).state.scratch_mem = st.scratch_mem ∧
      (init_warm_resume cfg env hartid st).state.entry_count_offset = st.entry_count_offset ∧
      (init_warm_resume cfg env hartid st).state.init_count_offset = st.init_count_offset) ∧
    (∀ v : Nat, v + 1 < 2 ^ cfg.xlen → to_ulong cfg.xlen ((v : Int) + 1) = v + 1) ∧
    (∀ h o : Nat, st.scratch_mem h o + 2 < 2 ^ cfg.xlen →
      st.scratch_mem h o ≤ (init_coldboot cfg env hartid st).state.scratch_mem h o ∧
      st.scratch_mem h o ≤ (init_warm_startup cfg env hartid st).state.scratch_mem h o ∧
      st.scratch_mem h o ≤ (init_warm_resume cfg env hartid st).state.scratch_mem h o) := by
  refine ⟨?_, ?_, ?_, fun v hv => to_ulong_succ cfg.xlen v hv, ?_⟩
  · intro stf h hne
    have hrun : run_steps cfg env hartid true
        ([.scratch_init, .domain_init, .alloc_entry_count, .alloc_init_count]
          ++ .incr_entry_count ::
            ([.hsm_init, .platform_early_init, .hart_init, .console_init, .pmu_init,
              .print_banner, .irqchip_init, .ipi_init, .tlb_init, .timer_init, .ecall_init,
              .domain_finalize, .pmp_configure, .platform_final_init, .print_general,
              .print_domains, .print_hart, .wake_coldboot_harts]
             ++ .incr_init_count :: [.hart_start_finish])) st = .ok stf := by
      unfold init_coldboot at h
      cases hr : run_steps cfg env hartid true cold_steps st with
      | ok st1 =>
          rw [hr] at h
          simp only [BootOutcome.started.injEq] at h
          rw [← h]
          exact hr
      | hang s st1 =>
          rw [hr] at h
          simp at h
    obtain ⟨_, hm⟩ := run_steps_two_incr cfg env hartid true _ _ _ st stf
      (by decide) (by decide) (by decide) hrun
    have he := congrFun (congrFun hm hartid) stf.entry_count_offset
    have hi := congrFun (congrFun hm hartid) stf.init_count_offset
    have hne2 : stf.init_count_offset ≠ stf.entry_count_offset := fun hh => hne hh.symm
    simp only [true_and, hne, if_false, if_true] at he
    simp only [true_and, hne2, if_false, if_true] at hi
    exact ⟨he, hi⟩
  · intro stf h hne
    have hrun : run_steps cfg env hartid false
        ([.check_count_offsets]
          ++ .incr_entry_count ::
            ([.hsm_init, .platform_early_init, .hart_init, .pmu_init, .irqchip_init,
              .ipi_init, .tlb_init, .timer_init, .pmp_configure, .platform_final_init]
             ++ .incr_init_count :: [.hart_start_finish])) st = .ok stf := by
      unfold init_warm_startup at h
      cases hr : run_steps cfg env hartid false warm_startup_steps st with
      | ok st1 =>
          rw [hr] at h
          simp only [BootOutcome.started.injEq] at h
          rw [← h]
          exact hr
      | hang s st1 =>
          rw [hr] at h
          simp at h
    obtain ⟨⟨st1, h1, hoe, hoi⟩, hm⟩ := run_steps_two_incr cfg env hartid false _ _ _ st stf
      (by decide) (by decide) (by decide) hrun
    have hof := run_steps_offsets_frame cfg env hartid false [.check_count_offsets] st
      (by decide)
    rw [h1] at hof
    simp only [RunResult.state] at hof
    have hE : stf.entry_count_offset = st.entry_count_offset := by rw [← hoe, hof.1]
    have hI : stf.init_count_offset = st.init_count_offset := by rw [← hoi, hof.2]
    rw [hE, hI] at hm
    have he := congrFun (congrFun hm hartid) st.entry_count_offset
    have hi := congrFun (congrFun hm hartid) st.init_count_offset
    have hne2 : st.init_count_offset ≠ st.entry_count_offset := fun hh => hne hh.symm
    simp only [true_and, hne, if_false, if_true] at he
    simp only [true_and, hne2, if_false, if_true] at hi
    exact ⟨hE, hI, he, hi⟩
  · rw [init_warm_resume_state]
    have hm := run_steps_mem_frame cfg env hartid false warm_resume_steps st (by decide)
    have ho := run_steps_offsets_frame cfg env hartid false warm_resume_steps st (by decide)
    exact ⟨hm, ho.1, ho.2⟩
  · intro h o hb
    rw [init_coldboot_state, init_warm_startup_state, init_warm_resume_state]
    have h1 := run_steps_mem_bound cfg env hartid true cold_steps st h o
      (by rw [show cold_steps.countP InitStep.is_incr = 2 from rfl]; exact hb)
    have h2 := run_steps_mem_bound cfg env hartid false warm_startup_steps st h o
      (by rw [show warm_startup_steps.countP InitStep.is_incr = 2 from rfl]; exact hb)
    have h3 := run_steps_mem_bound cfg env hartid false warm_resume_steps st h o
      (by rw [show warm_resume_steps.countP InitStep.is_incr = 0 from rfl]; omega)
    exact ⟨h1.1, h2.1, h3.1⟩

/-- C11, amended, at a concrete traversal: hart 2 takes the warm-startup path
after a completed cold boot; its entry counter at offset 8 goes from 0 to 1. -/
theorem boot_path_counters_witness :
    (demo_booted_state ∅).entry_count_offset ≠ (demo_booted_state ∅).init_count_offset ∧
    (init_warm_startup demo_boot_config (demo_boot_env 2 3 none) 2
        (demo_booted_state ∅)).state.scratch_mem 2 (demo_booted_state ∅).entry_count_offset
      = to_ulong demo_boot_config.xlen
          (((demo_booted_state ∅).scratch_mem 2 (demo_booted_state ∅).entry_count_offset : Int)
            + 1) :=
  ⟨by decide,
   ((boot_path_counters demo_boot_config (demo_boot_env 2 3 none) 2
      (demo_booted_state ∅)).2.1
      (init_warm_startup demo_boot_config (demo_boot_env 2 3 none) 2
        (demo_booted_state ∅)).state rfl (by decide)).2.2.1⟩

/-! ### Order of the cold initialisation -/

/-- A completed run of a non-empty sequence: its first statement completed, and
so did the rest from the state it left. -/
theorem run_steps_cons_ok {W : Type} (cfg : BootConfig) (env : BootEnv W)
    (hartid : Nat) (cold : Bool) (s : InitStep) (rest : List InitStep)
    (st stf : BootState W) (h : run_steps cfg env hartid cold (s :: rest) st = .ok stf) :
    ∃ st1, exec_step cfg env hartid cold s st = .ok st1 ∧
      run_steps cfg env hartid cold rest st1 = .ok stf := by
  simp only [run_steps] at h
  cases he : exec_step cfg env hartid cold s st with
  | ok st1 =>
      rw [he] at h
      exact ⟨st1, rfl, h⟩
  | hang st1 =>
      rw [he] at h
      simp at h

/-- A checked call that lets control go on returned `0`; only the world changed. -/
theorem check_rc_ok_inv {W : Type} (msg : Option String) (r : Int × W)
    (st st1 : BootState W) (h : check_rc msg r st = .ok st1) :
    r.1 = 0 ∧ st1 = { st with world := r.2 } := by
  unfold check_rc at h
  by_cases hr : r.1 = 0
  · simp only [hr, ne_eq, not_true_eq_false, if_false, StepResult.ok.injEq] at h
    exact ⟨hr, h.symm⟩
  · simp only [ne_eq, hr, not_false_eq_true, if_true] at h
    cases msg <;> simp at h

/-- A checked statement that completes: its collaborator, applied to the world
at hand, returned `0` and left the world of the next state; the trace gained
the event of the statement and nothing else changed. -/
theorem exec_rc_ok {W : Type} (cfg : BootConfig) (env : BootEnv W) (hartid : Nat)
    (s : InitStep) (msg : Option String) (f : W → Int × W)
    (hdef : ∀ st : BootState W, exec_step cfg env hartid true s st
      = check_rc msg (f st.world) (st.emit (step_event cfg hartid true s)))
    (st st1 : BootState W) (h : exec_step cfg env hartid true s st = .ok st1) :
    f st.world = (0, st1.world) ∧
    st1.trace = st.trace ++ [step_event cfg hartid true s] ∧
    st1.coldboot_wait_hmask = st.coldboot_wait_hmask ∧
    st1.entry_count_offset = st.entry_count_offset ∧
    st1.init_count_offset = st.init_count_offset := by
  rw [hdef] at h
  obtain ⟨h0, h1⟩ := check_rc_ok_inv _ _ _ _ h
  subst h1
  exact ⟨Prod.ext h0 rfl, rfl, rfl, rfl, rfl⟩

/-- The allocation of the entry counter, when it completes: the allocator
returned a non-zero offset, which is now `entry_count_offset`. -/
theorem exec_alloc_entry_ok {W : Type} (cfg : BootConfig) (env : BootEnv W) (hartid : Nat)
    (st st1 : BootState W)
    (h : exec_step cfg env hartid true .alloc_entry_count st = .ok st1) :
    env.sbi_scratch_alloc_offset (cfg.xlen / 8) st.world
      = (st1.entry_count_offset, st1.world) ∧
    st1.entry_count_offset ≠ 0 ∧
    st1.trace = st.trace ++ [.step .alloc_entry_count [cfg.xlen / 8]] ∧
    st1.coldboot_wait_hmask = st.coldboot_wait_hmask ∧
    st1.init_count_offset = st.init_count_offset := by
  simp only [exec_step, BootState.emit] at h
  split at h
  · simp at h
  · rename_i hne
    simp only [StepResult.ok.injEq] at h
    subst h
    exact ⟨rfl, hne, rfl, rfl, rfl⟩

/-- The allocation of the init counter, when it completes: the allocator
returned a non-zero offset, which is now `init_count_offset`. -/
theorem exec_alloc_init_ok {W : Type} (cfg : BootConfig) (env : BootEnv W) (hartid : Nat)
    (st st1 : BootState W)
    (h : exec_step cfg env hartid true .alloc_init_count st = .ok st1) :
    env.sbi_scratch_alloc_offset (cfg.xlen / 8) st.world
      = (st1.init_count_offset, st1.world) ∧
    st1.init_count_offset ≠ 0 ∧
    st1.trace = st.trace ++ [.step .alloc_init_count [cfg.xlen / 8]] ∧
    st1.coldboot_wait_hmask = st.coldboot_wait_hmask ∧
    st1.entry_count_offset = st.entry_count_offset := by
  simp only [exec_step, BootState.emit] at h
  split at h
  · simp at h
  · rename_i hne
    simp only [StepResult.ok.injEq] at h
    subst h
    exact ⟨rfl, hne, rfl, rfl, rfl⟩

/-- A counter increment leaves the world, the wait mask and the offsets alone
and adds its own event to the trace. -/
theorem exec_incr_ok {W : Type} (cfg : BootConfig) (env : BootEnv W) (hartid : Nat)
    (s : InitStep) (hs : s = .incr_entry_count ∨ s = .incr_init_count)
    (st st1 : BootState W) (h : exec_step cfg env hartid true s st = .ok st1) :
    st1.world = st.world ∧
    st1.trace = st.trace ++ [.step s []] ∧
    st1.coldboot_wait_hmask = st.coldboot_wait_hmask ∧
    st1.entry_count_offset = st.entry_count_offset ∧
    st1.init_count_offset = st.init_count_offset := by
  rcases hs with hs | hs <;> subst hs <;>
  · simp only [exec_step, scratch_count_incr, BootState.emit, StepResult.ok.injEq] at h
    subst h
    exact ⟨rfl, rfl, rfl, rfl, rfl⟩

/-- The banner print: no collaborator is called; the two banner lines are
printed unless the boot prints are off. -/
theorem exec_print_banner_ok {W : Type} (cfg : BootConfig) (env : BootEnv W) (hartid : Nat)
    (st st1 : BootState W) (h : exec_step cfg env hartid true .print_banner st = .ok st1) :
    st1.world = st.world ∧
    st1.trace = st.trace ++ [.step .print_banner []]
      ++ (if env.no_boot_prints st.world then []
          else [.printf "\nOpenSBI v%d.%d\n", .printf "BANNER"]) ∧
    st1.coldboot_wait_hmask = st.coldboot_wait_hmask ∧
    st1.entry_count_offset = st.entry_count_offset ∧
    st1.init_count_offset = st.init_count_offset := by
  simp only [exec_step, sbi_boot_print_banner, BootState.emit, BootState.print,
    StepResult.ok.injEq, step_args] at h
  subst h
  split <;> simp

/-- The platform dump: no world-changing collaborator is called; the platform,
firmware and SBI lines are printed unless the boot prints are off. -/
theorem exec_print_general_ok {W : Type} (cfg : BootConfig) (env : BootEnv W) (hartid : Nat)
    (st st1 : BootState W) (h : exec_step cfg env hartid true .print_general st = .ok st1) :
    st1.world = st.world ∧
    st1.trace = st.trace ++ [.step .print_general []]
      ++ (if env.no_boot_prints st.world then []
          else [.printf "Platform Name             : %s\n",
                .printf "Platform Features         : %s\n",
                .printf "Platform HART Count       : %u\n",
                .printf "Platform IPI Device       : %s\n",
                .printf "Platform Timer Device     : %s @ %luHz\n",
                .printf "Platform Console Device   : %s\n",
                .printf "Platform HSM Device       : %s\n",
                .printf "Platform PMU Device       : %s\n",
                .printf "Platform Reboot Device    : %s\n",
                .printf "Platform Shutdown Device  : %s\n",
                .printf "Platform Suspend Device   : %s\n",
                .printf "Platform CPPC Device      : %s\n",
                .printf "Firmware Base             : 0x%lx\n",
                .printf "Firmware Size             : %d KB\n",
                .printf "Firmware RW Offset        : 0x%lx\n",
                .printf "Runtime SBI Version       : %d.%d\n",
                .printf "\n"]) ∧
    st1.coldboot_wait_hmask = st.coldboot_wait_hmask ∧
    st1.entry_count_offset = st.entry_count_offset ∧
    st1.init_count_offset = st.init_count_offset := by
  simp only [exec_step, sbi_boot_print_general, BootState.emit, BootState.print,
    StepResult.ok.injEq, step_args] at h
  subst h
  split <;> simp

/-- The domain dump: `sbi_domain_dump_all` is called unless the boot prints are
off. -/
theorem exec_print_domains_ok {W : Type} (cfg : BootConfig) (env : BootEnv W) (hartid : Nat)
    (st st1 : BootState W) (h : exec_step cfg env hartid true .print_domains st = .ok st1) :
    st1.world = (if env.no_boot_prints st.world then st.world
      else env.sbi_domain_dump_all st.world) ∧
    st1.trace = st.trace ++ [.step .print_domains []]
      ++ (if env.no_boot_prints st.world then []
          else [.call "sbi_domain_dump_all" []]) ∧
    st1.coldboot_wait_hmask = st.coldboot_wait_hmask ∧
    st1.entry_count_offset = st.entry_count_offset ∧
    st1.init_count_offset = st.init_count_offset := by
  simp only [exec_step, sbi_boot_print_domains, BootState.emit, StepResult.ok.injEq,
    step_args] at h
  subst h
  split <;> simp

/-- The boot hart dump, when it completes: unless the boot prints are off,
`misa_xlen()` was at least one, the nine boot hart lines were printed and
`sbi_hart_delegation_dump` was called. -/
theorem exec_print_hart_ok {W : Type} (cfg : BootConfig) (env : BootEnv W) (hartid : Nat)
    (st st1 : BootState W) (h : exec_step cfg env hartid true .print_hart st = .ok st1) :
    (env.no_boot_prints st.world = false → 1 ≤ env.misa_xlen st.world) ∧
    st1.world = (if env.no_boot_prints st.world then st.world
      else env.sbi_hart_delegation_dump st.world) ∧
    st1.trace = st.trace ++ [.step .print_hart [hartid]]
      ++ (if env.no_boot_prints st.world then []
          else [.printf "Boot HART ID              : %u\n",
                .printf "Boot HART Domain          : %s\n",
                .printf "Boot HART Priv Version    : %s\n",
                .printf "Boot HART Base ISA        : %s\n",
                .printf "Boot HART ISA Extensions  : %s\n",
                .printf "Boot HART PMP Count       : %d\n",
                .printf "Boot HART PMP Granularity : %lu\n",
                .printf "Boot HART PMP Address Bits: %d\n",
                .printf "Boot HART MHPM Count      : %d\n",
                .call "sbi_hart_delegation_dump" []]) ∧
    st1.coldboot_wait_hmask = st.coldboot_wait_hmask ∧
    st1.entry_count_offset = st.entry_count_offset ∧
    st1.init_count_offset = st.init_count_offset := by
  simp only [exec_step, sbi_boot_print_hart, BootState.emit, BootState.print, step_args] at h
  by_cases hp : env.no_boot_prints st.world = true
  · simp only [hp, if_true, StepResult.ok.injEq] at h
    subst h
    simp [hp]
  · by_cases hx : env.misa_xlen st.world < 1
    · simp [hp, hx] at h
    · have hp2 : env.no_boot_prints st.world = false := by simpa using hp
      simp only [hp2, hx, if_false, Bool.false_eq_true, StepResult.ok.injEq] at h
      subst h
      refine ⟨fun _ => by omega, ?_, ?_, rfl, rfl, rfl⟩
      · simp [hp2]
      · simp [hp2]

/-- The statement `wake_coldboot_harts`: the store, then the lock, one signal
per wake target, and the unlock; the world has been handed to
`sbi_ipi_raw_send` once per wake target. -/
theorem exec_wake_ok {W : Type} (cfg : BootConfig) (env : BootEnv W) (hartid : Nat)
    (st st1 : BootState W)
    (h : exec_step cfg env hartid true .wake_coldboot_harts st = .ok st1) :
    st1.world = (wake_targets cfg (env.sbi_scratch_last_hartid st.world) hartid
        st.coldboot_wait_hmask).foldl (fun w i => env.sbi_ipi_raw_send i w) st.world ∧
    st1.trace = st.trace ++ [.step .wake_coldboot_harts [hartid], .store_coldboot_done 1,
        .spin_lock]
      ++ (wake_targets cfg (env.sbi_scratch_last_hartid st.world) hartid
            st.coldboot_wait_hmask).map BootEvent.ipi_raw_send
      ++ [.spin_unlock] ∧
    st1.coldboot_wait_hmask = st.coldboot_wait_hmask ∧
    st1.coldboot_done = 1 ∧
    st1.entry_count_offset = st.entry_count_offset ∧
    st1.init_count_offset = st.init_count_offset := by
  have e : wake_coldboot_harts cfg env hartid
      (st.emit (.step .wake_coldboot_harts [hartid])) = st1 := by
    simpa only [exec_step, StepResult.ok.injEq, step_args] using h
  subst e
  obtain ⟨ht, hd, hk, _, _⟩ := wake_coldboot_harts_signals cfg env hartid
    (st.emit (.step .wake_coldboot_harts [hartid]))
  have hw := wake_coldboot_harts_world cfg env hartid
    (st.emit (.step .wake_coldboot_harts [hartid]))
  have ho := wake_loop_counters cfg env hartid
  refine ⟨hw, ?_, hk, hd, ?_, ?_⟩
  · rw [ht]
    simp [BootState.emit]
  · simp [wake_coldboot_harts, BootState.emit, (ho _ _).2.1]
  · simp [wake_coldboot_harts, BootState.emit, (ho _ _).2.2]

/-- The hand-off: `sbi_hsm_hart_start_finish` is the last collaborator called. -/
theorem exec_start_finish_ok {W : Type} (cfg : BootConfig) (env : BootEnv W) (hartid : Nat)
    (st st1 : BootState W)
    (h : exec_step cfg env hartid true .hart_start_finish st = .ok st1) :
    st1.world = env.sbi_hsm_hart_start_finish hartid st.world ∧
    st1.trace = st.trace ++ [.step .hart_start_finish [hartid]] ∧
    st1.coldboot_wait_hmask = st.coldboot_wait_hmask ∧
    st1.entry_count_offset = st.entry_count_offset ∧
    st1.init_count_offset = st.init_count_offset := by
  simp only [exec_step, BootState.emit, StepResult.ok.injEq, step_args] at h
  subst h
  exact ⟨rfl, rfl, rfl, rfl, rfl⟩

/-- C10 as stated fails: on a run in which every statement succeeds, the
sequence of statements reached is not the sequence of the specification; the
entry counter is incremented between the allocation of the counters and the
hart-state-manager init. -/
theorem cold_init_spec_order_refuted :
    (init_coldboot demo_boot_config (demo_boot_env 0 3 none) 0
        (demo_boot_state 1 0 {1, 2})).is_started = true ∧
    (init_coldboot demo_boot_config (demo_boot_env 0 3 none) 0
        (demo_boot_state 1 0 {1, 2})).state.trace.filter BootEvent.is_step
      ≠ spec_cold_order.map (step_event demo_boot_config 0 true) ∧
    ((init_coldboot demo_boot_config (demo_boot_env 0 3 none) 0
        (demo_boot_state 1 0 {1, 2})).state.trace.filter BootEvent.is_step).take 6
      = [.step .scratch_init [], .step .domain_init [0], .step .alloc_entry_count [8],
         .step .alloc_init_count [8], .step .incr_entry_count [], .step .hsm_init [0, 1]] := by
  decide

/-- C10, amended: when every statement succeeds (the hart is handed off to
hart-start completion), `init_coldboot` reaches its statements in exactly this
order, each exactly once, and each one calls its own collaborator on the world
the previous one left, which returns success: scratch-area init, domain init,
allocation of the entry counter and of the init counter (both offsets
non-zero), increment of the entry counter, hart-state-manager init with
`is_coldboot = true`, platform early init, hart/core init, console init,
performance-monitoring init, banner print, interrupt-controller init,
inter-processor-interrupt init, TLB-shootdown init, timer init,
privileged-call subsystem init, domain finalize, PMP configuration, platform
final init, the three diagnostic dumps, `wake_coldboot_harts`, increment of
the init counter, hand-off to `sbi_hsm_hart_start_finish`. The trace of the
run is exactly the events of these statements, with the prints of the banner
and of the dumps when the boot prints are on, and the store, lock, signals and
unlock of `wake_coldboot_harts`. -/
theorem cold_init_order {W : Type} (cfg : BootConfig) (env : BootEnv W) (hartid : Nat)
    (st stf : BootState W) (h : init_coldboot cfg env hartid st = .started stf) :
    stf.trace.filter BootEvent.is_step
      = st.trace.filter BootEvent.is_step ++
        [.step .scratch_init [], .step .domain_init [hartid],
         .step .alloc_entry_count [cfg.xlen / 8], .step .alloc_init_count [cfg.xlen / 8],
         .step .incr_entry_count [],
         .step .hsm_init [hartid, 1], .step .platform_early_init [1], .step .hart_init [1],
         .step .console_init [], .step .pmu_init [1], .step .print_banner [],
         .step .irqchip_init [1], .step .ipi_init [1], .step .tlb_init [1],
         .step .timer_init [1], .step .ecall_init [], .step .domain_finalize [hartid],
         .step .pmp_configure [], .step .platform_final_init [1],
         .step .print_general [], .step .print_domains [], .step .print_hart [hartid],
         .step .wake_coldboot_harts [hartid], .step .incr_init_count [],
         .step .hart_start_finish [hartid]] ∧
    ∃ w1 w2 w3 w4 w5 w6 w7 w8 w9 w10 w11 w12 w13 w14 w15 w16 w17 w18 w19 w20 : W,
      env.sbi_scratch_init st.world = (0, w1) ∧
      env.sbi_domain_init hartid w1 = (0, w2) ∧
      env.sbi_scratch_alloc_offset (cfg.xlen / 8) w2 = (stf.entry_count_offset, w3) ∧
      stf.entry_count_offset ≠ 0 ∧
      env.sbi_scratch_alloc_offset (cfg.xlen / 8) w3 = (stf.init_count_offset, w4) ∧
      stf.init_count_offset ≠ 0 ∧
      env.sbi_hsm_init hartid true w4 = (0, w5) ∧
      env.sbi_platform_early_init true w5 = (0, w6) ∧
      env.sbi_hart_init true w6 = (0, w7) ∧
      env.sbi_console_init w7 = (0, w8) ∧
      env.sbi_pmu_init true w8 = (0, w9) ∧
      env.sbi_irqchip_init true w9 = (0, w10) ∧
      env.sbi_ipi_init true w10 = (0, w11) ∧
      env.sbi_tlb_init true w11 = (0, w12) ∧
      env.sbi_timer_init true w12 = (0, w13) ∧
      env.sbi_ecall_init w13 = (0, w14) ∧
      env.sbi_domain_finalize hartid w14 = (0, w15) ∧
      env.sbi_hart_pmp_configure w15 = (0, w16) ∧
      env.sbi_platform_final_init true w16 = (0, w17) ∧
      w18 = (if env.no_boot_prints w17 then w17 else env.sbi_domain_dump_all w17) ∧
      (env.no_boot_prints w18 = false → 1 ≤ env.misa_xlen w18) ∧
      w19 = (if env.no_boot_prints w18 then w18 else env.sbi_hart_delegation_dump w18) ∧
      w20 = (wake_targets cfg (env.sbi_scratch_last_hartid w19) hartid
          st.coldboot_wait_hmask).foldl (fun w i => env.sbi_ipi_raw_send i w) w19 ∧
      stf.world = env.sbi_hsm_hart_start_finish hartid w20 ∧
      stf.trace = st.trace ++
        [.step .scratch_init [], .step .domain_init [hartid],
         .step .alloc_entry_count [cfg.xlen / 8], .step .alloc_init_count [cfg.xlen / 8],
         .step .incr_entry_count [],
         .step .hsm_init [hartid, 1], .step .platform_early_init [1], .step .hart_init [1],
         .step .console_init [], .step .pmu_init [1], .step .print_banner []] ++
        (if env.no_boot_prints w9 then []
         else [.printf "\nOpenSBI v%d.%d\n", .printf "BANNER"]) ++
        [.step .irqchip_init [1], .step .ipi_init [1], .step .tlb_init [1],
         .step .timer_init [1], .step .ecall_init [], .step .domain_finalize [hartid],
         .step .pmp_configure [], .step .platform_final_init [1],
         .step .print_general []] ++
        (if env.no_boot_prints w17 then []
         else [.printf "Platform Name             : %s\n",
               .printf "Platform Features         : %s\n",
               .printf "Platform HART Count       : %u\n",
               .printf "Platform IPI Device       : %s\n",
               .printf "Platform Timer Device     : %s @ %luHz\n",
               .printf "Platform Console Device   : %s\n",
               .printf "Platform HSM Device       : %s\n",
               .printf "Platform PMU Device       : %s\n",
               .printf "Platform Reboot Device    : %s\n",
               .printf "Platform Shutdown Device  : %s\n",
               .printf "Platform Suspend Device   : %s\n",
               .printf "Platform CPPC Device      : %s\n",
               .printf "Firmware Base             : 0x%lx\n",
               .printf "Firmware Size             : %d KB\n",
               .printf "Firmware RW Offset        : 0x%lx\n",
               .printf "Runtime SBI Version       : %d.%d\n",
               .printf "\n"]) ++
        [.step .print_domains []] ++
        (if env.no_boot_prints w17 then [] else [.call "sbi_domain_dump_all" []]) ++
        [.step .print_hart [hartid]] ++
        (if env.no_boot_prints w18 then []
         else [.printf "Boot HART ID              : %u\n",
               .printf "Boot HART Domain          : %s\n",
               .printf "Boot HART Priv Version    : %s\n",
               .printf "Boot HART Base ISA        : %s\n",
               .printf "Boot HART ISA Extensions  : %s\n",
               .printf "Boot HART PMP Count       : %d\n",
               .printf "Boot HART PMP Granularity : %lu\n",
               .printf "Boot HART PMP Address Bits: %d\n",
               .printf "Boot HART MHPM Count      : %d\n",
               .call "sbi_hart_delegation_dump" []]) ++
        [.step .wake_coldboot_harts [hartid], .store_coldboot_done 1, .spin_lock] ++
        (wake_targets cfg (env.sbi_scratch_last_hartid w19) hartid
          st.coldboot_wait_hmask).map BootEvent.ipi_raw_send ++
        [.spin_unlock, .step .incr_init_count [], .step .hart_start_finish [hartid]] := by
  unfold init_coldboot at h
  cases hr : run_steps cfg env hartid true cold_steps st with
  | hang s st1 =>
      rw [hr] at h
      simp at h
  | ok st1 =>
      rw [hr] at h
      simp only [BootOutcome.started.injEq] at h
      rw [h] at hr
      clear h st1
      have hev := run_steps_ok_events cfg env hartid true cold_steps st stf hr
      have hr0 : run_steps cfg env hartid true
          [.scratch_init, .domain_init, .alloc_entry_count, .alloc_init_count,
           .incr_entry_count, .hsm_init, .platform_early_init, .hart_init, .console_init,
           .pmu_init, .print_banner, .irqchip_init, .ipi_init, .tlb_init, .timer_init,
           .ecall_init, .domain_finalize, .pmp_configure, .platform_final_init,
           .print_general, .print_domains, .print_hart, .wake_coldboot_harts,
           .incr_init_count, .hart_start_finish] st = .ok stf := hr
      clear hr
      obtain ⟨s1, e1, hr1⟩ := run_steps_cons_ok cfg env hartid true _ _ st stf hr0
      clear hr0
      obtain ⟨c1, t1, m1, oe1, oi1⟩ := exec_rc_ok cfg env hartid .scratch_init none
        (env.sbi_scratch_init) (fun _ => rfl) st s1 e1
      clear e1
      obtain ⟨s2, e2, hr2⟩ := run_steps_cons_ok cfg env hartid true _ _ s1 stf hr1
      clear hr1
      obtain ⟨c2, t2, m2, oe2, oi2⟩ := exec_rc_ok cfg env hartid .domain_init none
        (env.sbi_domain_init hartid) (fun _ => rfl) s1 s2 e2
      clear e2
      obtain ⟨s3, e3, hr3⟩ := run_steps_cons_ok cfg env hartid true _ _ s2 stf hr2
      clear hr2
      obtain ⟨c3, n3, t3, m3, oi3⟩ := exec_alloc_entry_ok cfg env hartid s2 s3 e3
      clear e3
      obtain ⟨s4, e4, hr4⟩ := run_steps_cons_ok cfg env hartid true _ _ s3 stf hr3
      clear hr3
      obtain ⟨c4, n4, t4, m4, oe4⟩ := exec_alloc_init_ok cfg env hartid s3 s4 e4
      clear e4
      obtain ⟨s5, e5, hr5⟩ := run_steps_cons_ok cfg env hartid true _ _ s4 stf hr4
      clear hr4
      obtain ⟨c5, t5, m5, oe5, oi5⟩ := exec_incr_ok cfg env hartid .incr_entry_count (by simp) s4 s5 e5
      clear e5
      obtain ⟨s6, e6, hr6⟩ := run_steps_cons_ok cfg env hartid true _ _ s5 stf hr5
      clear hr5
      obtain ⟨c6, t6, m6, oe6, oi6⟩ := exec_rc_ok cfg env hartid .hsm_init none
        (env.sbi_hsm_init hartid true) (fun _ => rfl) s5 s6 e6
      clear e6
      obtain ⟨s7, e7, hr7⟩ := run_steps_cons_ok cfg env hartid true _ _ s6 stf hr6
      clear hr6
      obtain ⟨c7, t7, m7, oe7, oi7⟩ := exec_rc_ok cfg env hartid .platform_early_init none
        (env.sbi_platform_early_init true) (fun _ => rfl) s6 s7 e7
      clear e7
      obtain ⟨s8, e8, hr8⟩ := run_steps_cons_ok cfg env hartid true _ _ s7 stf hr7
      clear hr7
      obtain ⟨c8, t8, m8, oe8, oi8⟩ := exec_rc_ok cfg env hartid .hart_init none
        (env.sbi_hart_init true) (fun _ => rfl) s7 s8 e8
      clear e8
      obtain ⟨s9, e9, hr9⟩ := run_steps_cons_ok cfg env hartid true _ _ s8 stf hr8
      clear hr8
      obtain ⟨c9, t9, m9, oe9, oi9⟩ := exec_rc_ok cfg env hartid .console_init none
        (env.sbi_console_init) (fun _ => rfl) s8 s9 e9
      clear e9
      obtain ⟨s10, e10, hr10⟩ := run_steps_cons_ok cfg env hartid true _ _ s9 stf hr9
      clear hr9
      obtain ⟨c10, t10, m10, oe10, oi10⟩ := exec_rc_ok cfg env hartid .pmu_init none
        (env.sbi_pmu_init true) (fun _ => rfl) s9 s10 e10
      clear e10
      obtain ⟨s11, e11, hr11⟩ := run_steps_cons_ok cfg env hartid true _ _ s10 stf hr10
      clear hr10
      obtain ⟨c11, t11, m11, oe11, oi11⟩ := exec_print_banner_ok cfg env hartid s10 s11 e11
      clear e11
      obtain ⟨s12, e12, hr12⟩ := run_steps_cons_ok cfg env hartid true _ _ s11 stf hr11
      clear hr11
      obtain ⟨c12, t12, m12, oe12, oi12⟩ := exec_rc_ok cfg env hartid .irqchip_init (fail_msg true "%s: irqchip init failed (error %d)\n")
        (env.sbi_irqchip_init true) (fun _ => rfl) s11 s12 e12
      clear e12
      obtain ⟨s13, e13, hr13⟩ := run_steps_cons_ok cfg env hartid true _ _ s12 stf hr12
      clear hr12
      obtain ⟨c13, t13, m13, oe13, oi13⟩ := exec_rc_ok cfg env hartid .ipi_init (fail_msg true "%s: ipi init failed (error %d)\n")
        (env.sbi_ipi_init true) (fun _ => rfl) s12 s13 e13
      clear e13
      obtain ⟨s14, e14, hr14⟩ := run_steps_cons_ok cfg env hartid true _ _ s13 stf hr13
      clear hr13
      obtain ⟨c14, t14, m14, oe14, oi14⟩ := exec_rc_ok cfg env hartid .tlb_init (fail_msg true "%s: tlb init failed (error %d)\n")
        (env.sbi_tlb_init true) (fun _ => rfl) s13 s14 e14
      clear e14
      obtain ⟨s15, e15, hr15⟩ := run_steps_cons_ok cfg env hartid true _ _ s14 stf hr14
      clear hr14
      obtain ⟨c15, t15, m15, oe15, oi15⟩ := exec_rc_ok cfg env hartid .timer_init (fail_msg true "%s: timer init failed (error %d)\n")
        (env.sbi_timer_init true) (fun _ => rfl) s14 s15 e15
      clear e15
      obtain ⟨s16, e16, hr16⟩ := run_steps_cons_ok cfg env hartid true _ _ s15 stf hr15
      clear hr15
      obtain ⟨c16, t16, m16, oe16, oi16⟩ := exec_rc_ok cfg env hartid .ecall_init (fail_msg true "%s: ecall init failed (error %d)\n")
        (env.sbi_ecall_init) (fun _ => rfl) s15 s16 e16
      clear e16
      obtain ⟨s17, e17, hr17⟩ := run_steps_cons_ok cfg env hartid true _ _ s16 stf hr16
      clear hr16
      obtain ⟨c17, t17, m17, oe17, oi17⟩ := exec_rc_ok cfg env hartid .domain_finalize (fail_msg true "%s: domain finalize failed (error %d)\n")
        (env.sbi_domain_finalize hartid) (fun _ => rfl) s16 s17 e17
      clear e17
      obtain ⟨s18, e18, hr18⟩ := run_steps_cons_ok cfg env hartid true _ _ s17 stf hr17
      clear hr17
      obtain ⟨c18, t18, m18, oe18, oi18⟩ := exec_rc_ok cfg env hartid .pmp_configure (fail_msg true "%s: PMP configure failed (error %d)\n")
        (env.sbi_hart_pmp_configure) (fun _ => rfl) s17 s18 e18
      clear e18
      obtain ⟨s19, e19, hr19⟩ := run_steps_cons_ok cfg env hartid true _ _ s18 stf hr18
      clear hr18
      obtain ⟨c19, t19, m19, oe19, oi19⟩ := exec_rc_ok cfg env hartid .platform_final_init (fail_msg true "%s: platform final init failed (error %d)\n")
        (env.sbi_platform_final_init true) (fun _ => rfl) s18 s19 e19
      clear e19
      obtain ⟨s20, e20, hr20⟩ := run_steps_cons_ok cfg env hartid true _ _ s19 stf hr19
      clear hr19
      obtain ⟨c20, t20, m20, oe20, oi20⟩ := exec_print_general_ok cfg env hartid s19 s20 e20
      clear e20
      obtain ⟨s21, e21, hr21⟩ := run_steps_cons_ok cfg env hartid true _ _ s20 stf hr20
      clear hr20
      obtain ⟨c21, t21, m21, oe21, oi21⟩ := exec_print_domains_ok cfg env hartid s20 s21 e21
      clear e21
      obtain ⟨s22, e22, hr22⟩ := run_steps_cons_ok cfg env hartid true _ _ s21 stf hr21
      clear hr21
      obtain ⟨x22, c22, t22, m22, oe22, oi22⟩ := exec_print_hart_ok cfg env hartid s21 s22 e22
      clear e22
      obtain ⟨s23, e23, hr23⟩ := run_steps_cons_ok cfg env hartid true _ _ s22 stf hr22
      clear hr22
      obtain ⟨c23, t23, m23, _, oe23, oi23⟩ := exec_wake_ok cfg env hartid s22 s23 e23
      clear e23
      obtain ⟨s24, e24, hr24⟩ := run_steps_cons_ok cfg env hartid true _ _ s23 stf hr23
      clear hr23
      obtain ⟨c24, t24, m24, oe24, oi24⟩ := exec_incr_ok cfg env hartid .incr_init_count (by simp) s23 s24 e24
      clear e24
      obtain ⟨s25, e25, hr25⟩ := run_steps_cons_ok cfg env hartid true _ _ s24 stf hr24
      clear hr24
      obtain ⟨c25, t25, m25, oe25, oi25⟩ := exec_start_finish_ok cfg env hartid s24 s25 e25
      clear e25
      have hfin : s25 = stf := by simpa [run_steps] using hr25
      rw [hfin] at c25 t25 oe25 oi25
      rw [c5] at c6
      rw [c11] at c12
      rw [c20] at c21 t21
      rw [c24] at c25
      have hm : s22.coldboot_wait_hmask = st.coldboot_wait_hmask := by
        rw [m22, m21, m20, m19, m18, m17, m16, m15, m14, m13, m12, m11, m10, m9, m8, m7, m6, m5, m4, m3, m2, m1]
      rw [hm] at c23 t23
      have he : stf.entry_count_offset = s3.entry_count_offset := by
        rw [oe25, oe24, oe23, oe22, oe21, oe20, oe19, oe18, oe17, oe16, oe15, oe14, oe13, oe12, oe11, oe10, oe9, oe8, oe7, oe6, oe5, oe4]
      have hi : stf.init_count_offset = s4.init_count_offset := by
        rw [oi25, oi24, oi23, oi22, oi21, oi20, oi19, oi18, oi17, oi16, oi15, oi14, oi13, oi12, oi11, oi10, oi9, oi8, oi7, oi6, oi5]
      rw [← he] at c3 n3
      rw [← hi] at c4 n4
      refine ⟨by rw [hev]; rfl, s1.world, s2.world, s3.world, s4.world, s6.world, s7.world,
        s8.world, s9.world, s10.world, s12.world, s13.world, s14.world, s15.world,
        s16.world, s17.world, s18.world, s19.world, s21.world, s22.world, s23.world,
        c1, c2, c3, n3, c4, n4, c6, c7, c8, c9, c10, c12, c13, c14, c15, c16, c17, c18,
        c19, c21, x22, c22, c23, c25, ?_⟩
      rw [t25, t24, t23, t22, t21, t20, t19, t18, t17, t16, t15, t14, t13, t12, t11, t10,
        t9, t8, t7, t6, t5, t4, t3, t2, t1]
      simp only [step_event, step_args, List.append_assoc, List.cons_append,
        List.nil_append, if_true, Bool.toNat_true]

/-- C10, amended, at a concrete run in which every statement succeeds. -/
theorem cold_init_order_witness :
    ((init_coldboot demo_boot_config (demo_boot_env 0 3 none) 0
        (demo_boot_state 1 0 {1, 2})).state.trace.filter BootEvent.is_step).length = 25 :=
  have h := (cold_init_order demo_boot_config (demo_boot_env 0 3 none) 0
    (demo_boot_state 1 0 {1, 2})
    (init_coldboot demo_boot_config (demo_boot_env 0 3 none) 0
      (demo_boot_state 1 0 {1, 2})).state rfl).1
  by rw [h]; rfl

end OpenSBI
